import Mathlib

/-!
# Antigravity Fitness: metrics engine and record store

A shallow embedding of `src/calculations.js` (with the tables of `src/data.js`
that it reads) and of `src/storage.js`, and the properties of their functions.

Modelling conventions.

* The functions of `calculations.js` are embedded twice. In the first embedding a finite
  JavaScript number is an exact rational (`ℚ`) and the binary rounding of IEEE-754 doubles
  is left out; it carries the properties about guards, comparisons with table bounds,
  clamping, the catalog values and the record store. The
  second embedding, in the namespace `Float64`, rounds every literal, argument and
  operation to the nearest double; it carries the properties about the values that
  `Math.round` returns (`calculateBMI`, `calculateBMR`, `calculateExerciseCalories`,
  `calculateWeightGoal`), which differ between the two at ties.
* The sign of zero is not modelled. `!x` on a number is therefore `x = 0`.
* Where the code can produce a non-finite number out of finite operands (a
  division by zero, an arithmetic operation on a non-number), the result type is
  `JSNumber`, which adds `Infinity`, `-Infinity` and `NaN` to the rationals.
* A value that may be `undefined` or `null` is an `Option`.
* `console.error` output is not part of the model.
* `localStorage` is a `Store` with one typed slot for each key of `STORAGE_KEYS`: the text
  written by `JSON.stringify` is read back by `JSON.parse` as the value that was written.
  A store function takes the `Env` of the call (wall clock, and whether `setItem` /
  `removeItem` raise) and returns its result together with the store it leaves.
* A day-keyed object is a function from the day key to the bucket, `none` where the object
  has no such property. Day keys come from `getTodayDate` and have the shape `YYYY-MM-DD`,
  so they never name a member inherited from `Object.prototype`.
-/

namespace AntigravityFitness

/-! ## Numbers -/

/-- A JavaScript number: a finite (exact) value, an infinity or `NaN`. -/
inductive JSNumber where
  | fin (q : ℚ)
  | posInf
  | negInf
  | nan
  deriving DecidableEq

/-- The function `Math.round` on a finite number: the nearest integer, a tie going
towards `+∞`. -/
def mathRound (x : ℚ) : ℚ := ((⌊x + 1 / 2⌋ : ℤ) : ℚ)

namespace JSNumber

/-- The operator `a / b` of JavaScript on finite operands. -/
def div (a b : ℚ) : JSNumber :=
  if b = 0 then
    if 0 < a then posInf else if a < 0 then negInf else nan
  else fin (a / b)

/-- The function `Math.round` of JavaScript: the infinities and `NaN` are returned as they are. -/
def round : JSNumber → JSNumber
  | fin q => fin (mathRound q)
  | posInf => posInf
  | negInf => negInf
  | nan => nan

/-- The function `Math.abs` of JavaScript. -/
def abs : JSNumber → JSNumber
  | fin q => fin |q|
  | posInf => posInf
  | negInf => posInf
  | nan => nan

/-- The comparison `a > b` of JavaScript against a finite `b`; it is false when `a` is `NaN`. -/
def gt (a : JSNumber) (b : ℚ) : Bool :=
  match a with
  | fin q => decide (b < q)
  | posInf => true
  | negInf => false
  | nan => false

end JSNumber

/-! ## Tables of `data.js` -/

/-- An entry of the table `bmiCategories`. -/
structure BMICategory where
  min : Option ℚ
  max : Option ℚ
  label : String
  color : String
  advice : String
  deriving DecidableEq

namespace bmiCategories

def underweight : BMICategory :=
  { min := none, max := some 18.5, label := "Zayıf", color := "#3498db",
    advice := "Kilo almayı hedefleyin" }

def normal : BMICategory :=
  { min := some 18.5, max := some 24.9, label := "Normal", color := "#2ecc71",
    advice := "Mükemmel! Devam edin" }

def overweight : BMICategory :=
  { min := some 25, max := some 29.9, label := "Fazla Kilolu", color := "#f39c12",
    advice := "Hafif kilo vermeyi hedefleyin" }

def obese : BMICategory :=
  { min := some 30, max := none, label := "Obez", color := "#e74c3c",
    advice := "Kilo vermeyi hedefleyin" }

end bmiCategories

/-- An entry of `exerciseDatabase`. The fields `met` and `caloriesPerRep` are `none` when
the object literal does not have them (reading them gives `undefined`). -/
structure Exercise where
  name : String
  met : Option ℚ
  type : String
  description : String
  caloriesPerRep : Option ℚ
  deriving DecidableEq

/-! ## `calculations.js` -/

/-- The function `calculateBMI(weight, height)`. -/
def calculateBMI (weight height : ℚ) : ℚ :=
  if weight = 0 ∨ height = 0 ∨ weight ≤ 0 ∨ height ≤ 0 then 0
  else
    let heightInMeters := height / 100
    let bmi := weight / (heightInMeters * heightInMeters)
    mathRound (bmi * 10) / 10

/-- The function `getBMICategory(bmi)`. -/
def getBMICategory (bmi : ℚ) : BMICategory :=
  if bmi < 18.5 then bmiCategories.underweight
  else if 18.5 ≤ bmi ∧ bmi < 25 then bmiCategories.normal
  else if 25 ≤ bmi ∧ bmi < 30 then bmiCategories.overweight
  else bmiCategories.obese

/-- The function `calculateBMR(weight, height, age, gender)`; `!gender` holds of the empty
string. -/
def calculateBMR (weight height age : ℚ) (gender : String) : ℚ :=
  if weight = 0 ∨ height = 0 ∨ age = 0 ∨ gender = "" then 0
  else if weight ≤ 0 ∨ height ≤ 0 ∨ age ≤ 0 then 0
  else if gender = "male" then
    mathRound (88.362 + 13.397 * weight + 4.799 * height - 5.677 * age)
  else if gender = "female" then
    mathRound (447.593 + 9.247 * weight + 3.098 * height - 4.330 * age)
  else 0

/-- What reading a property of an object literal yields: a number, some other object (a
function included), or `undefined`. -/
inductive JSValue where
  | number (q : ℚ)
  | object
  | undefined
  deriving DecidableEq

/-- The property names every object literal inherits from `Object.prototype`; each of them
reads as a function or an object. -/
def objectPrototypeKeys : List String :=
  ["constructor", "hasOwnProperty", "isPrototypeOf", "propertyIsEnumerable",
   "toLocaleString", "toString", "valueOf", "__proto__",
   "__defineGetter__", "__defineSetter__", "__lookupGetter__", "__lookupSetter__"]

/-- The property read `activityFactors[key]` on the literal of `calculateDailyCalories`: own
properties first, then the prototype chain. -/
def activityFactors (key : String) : JSValue :=
  if key = "sedentary" then .number 1.2
  else if key = "light" then .number 1.375
  else if key = "moderate" then .number 1.55
  else if key = "active" then .number 1.725
  else if key = "extreme" then .number 1.9
  else if key ∈ objectPrototypeKeys then .object
  else .undefined

/-- The expression `v || 1.2`: the falsy values (`undefined`, `0`) give way to `1.2`. -/
def JSValue.orDefault (v : JSValue) (d : ℚ) : JSValue :=
  match v with
  | .number q => if q = 0 then .number d else .number q
  | .object => .object
  | .undefined => .number d

/-- The product `bmr * factor`: a function or plain object converts to `NaN`. -/
def JSValue.mulLeft (bmr : ℚ) (factor : JSValue) : JSNumber :=
  match factor with
  | .number q => .fin (bmr * q)
  | .object => .nan
  | .undefined => .nan

/-- The function `calculateDailyCalories(bmr, activityLevel = 'sedentary')`; an omitted
argument is `none`. -/
def calculateDailyCalories (bmr : ℚ) (activityLevel : Option String) : JSNumber :=
  let level := activityLevel.getD "sedentary"
  let factor := (activityFactors level).orDefault 1.2
  JSNumber.round (JSValue.mulLeft bmr factor)

/-- The function `calculateCaloriesBurnedByDuration(met, weight, duration)`; `met` is `none`
when the caller passes `undefined`. -/
def calculateCaloriesBurnedByDuration (met : Option ℚ) (weight duration : ℚ) : ℚ :=
  match met with
  | none => 0
  | some m =>
    if m = 0 ∨ weight = 0 ∨ duration = 0 ∨ m ≤ 0 ∨ weight ≤ 0 ∨ duration ≤ 0 then 0
    else
      let caloriesBurned := (m * weight * duration) / 60
      mathRound caloriesBurned

/-- The function `calculateCaloriesBurnedByReps(reps, caloriesPerRep)`; `caloriesPerRep` is
`none` when the caller passes `undefined`. -/
def calculateCaloriesBurnedByReps (reps : ℚ) (caloriesPerRep : Option ℚ) : ℚ :=
  match caloriesPerRep with
  | none => 0
  | some c =>
    if reps = 0 ∨ c = 0 ∨ reps ≤ 0 ∨ c ≤ 0 then 0
    else
      let caloriesBurned := reps * c
      mathRound caloriesBurned

/-- The function `calculateExerciseCalories(exercise, weight, value)`; a missing `exercise`
is `none`. -/
def calculateExerciseCalories (exercise : Option Exercise) (weight value : ℚ) : ℚ :=
  match exercise with
  | none => 0
  | some e =>
    if weight = 0 ∨ value = 0 then 0
    else if e.type = "sure" then calculateCaloriesBurnedByDuration e.met weight value
    else if e.type = "tekrar" then calculateCaloriesBurnedByReps value e.caloriesPerRep
    else 0

/-- The function `calculateNetCalories(consumed, burned)`. -/
def calculateNetCalories (consumed burned : ℚ) : ℚ := consumed - burned

/-- The function `calculateCaloriePercentage(current, target)`. -/
def calculateCaloriePercentage (current target : ℚ) : ℚ :=
  if target = 0 ∨ target ≤ 0 then 0
  else
    let percentage := (current / target) * 100
    Min.min (Max.max percentage 0) 150

/-- The object returned by `calculateWeightGoal`. -/
structure WeightGoal where
  weightDifference : ℚ
  totalCalories : ℚ
  dailyCalorieChange : JSNumber
  isLosing : Bool
  isGaining : Bool
  recommendation : String
  deriving DecidableEq

/-- The message of `calculateWeightGoal` for a plan that is too aggressive. -/
def tooAggressive : String := "Hedef çok agresif, daha uzun süreye yayın!"

/-- The message of `calculateWeightGoal` for a plan that looks achievable. -/
def achievable : String := "Hedef ulaşılabilir görünüyor!"

/-- The function `calculateWeightGoal(currentWeight, targetWeight, days)`. -/
def calculateWeightGoal (currentWeight targetWeight days : ℚ) : WeightGoal :=
  let weightDifference := targetWeight - currentWeight
  let totalCalories := weightDifference * 7700
  let dailyCalorieChange := JSNumber.div totalCalories days
  { weightDifference := mathRound (weightDifference * 10) / 10
    totalCalories := mathRound totalCalories
    dailyCalorieChange := JSNumber.round dailyCalorieChange
    isLosing := decide (weightDifference < 0)
    isGaining := decide (0 < weightDifference)
    recommendation :=
      if (JSNumber.abs dailyCalorieChange).gt 1000 then tooAggressive else achievable }

/-! ## `storage.js` -/

namespace STORAGE_KEYS

def USER_PROFILE : String := "fitness_user_profile"

def MEALS : String := "fitness_meals"

def EXERCISES : String := "fitness_exercises"

def SETTINGS : String := "fitness_settings"

end STORAGE_KEYS

/-- The surroundings of one call of a store function: `today` is what `getTodayDate()`
returns, `now` is `Date.now()`, `isoNow` is `new Date().toISOString()`; `setItemOk key` tells
whether `localStorage.setItem(key, _)` returns normally (it raises when the quota is
exceeded), `removeItemOk key` the same for `localStorage.removeItem(key)`. -/
structure Env where
  today : String
  now : ℕ
  isoNow : String
  setItemOk : String → Bool
  removeItemOk : String → Bool

/-- The argument `profileData` of `saveUserProfile`; a field is `none` when it is missing. -/
structure ProfileDraft where
  name : Option String
  age : Option ℚ
  height : Option ℚ
  weight : Option ℚ
  gender : Option String
  deriving DecidableEq

/-- A persisted profile: the five fields and the stamp `savedAt`. -/
structure Profile where
  name : String
  age : ℚ
  height : ℚ
  weight : ℚ
  gender : String
  savedAt : String
  deriving DecidableEq

/-- The argument `mealData` of `addMeal`; a field is `none` when it is missing. -/
structure MealDraft where
  name : Option String
  calories : Option ℚ
  category : Option String
  deriving DecidableEq

/-- A persisted meal record: the fields of the draft, `id` and `timestamp`. -/
structure Meal where
  name : String
  calories : ℚ
  category : String
  id : ℕ
  timestamp : String
  deriving DecidableEq

/-- The argument `exerciseData` of `addExercise`; a field is `none` when it is missing. -/
structure ExerciseDraft where
  name : Option String
  duration : Option ℚ
  type : Option String
  caloriesBurned : Option ℚ
  deriving DecidableEq

/-- A persisted exercise record: the fields of the draft (`type` is not validated and may be
missing), `id` and `timestamp`. -/
structure ExerciseRecord where
  name : String
  duration : ℚ
  type : Option String
  caloriesBurned : ℚ
  id : ℕ
  timestamp : String
  deriving DecidableEq

/-- A day-keyed object: the bucket of each day key, `none` where the key is absent. -/
abbrev DayMap (α : Type) : Type := String → Option (List α)

/-- The object literal `{}`. -/
def DayMap.empty {α : Type} : DayMap α := fun _ => none

/-- The assignment `obj[key] = bucket`. -/
def DayMap.set {α : Type} (obj : DayMap α) (key : String) (bucket : List α) : DayMap α :=
  fun k => if k = key then some bucket else obj k

/-- The contents of `localStorage` under the four keys of `STORAGE_KEYS`; a slot is `none`
when there is no item under the key. -/
structure Store where
  profile : Option Profile
  meals : Option (DayMap Meal)
  exercises : Option (DayMap ExerciseRecord)
  settings : Option String

/-- The store without any item. -/
def Store.empty : Store :=
  { profile := none, meals := none, exercises := none, settings := none }

/-- The function `getTodayDate()`. -/
def getTodayDate (env : Env) : String := env.today

/-- The function `safeSetItem(key, value)`: `write` is the effect of a `setItem` that returns
normally; when `setItem` raises the store is left as it is and the result is `false`. -/
def safeSetItem (env : Env) (key : String) (write : Store → Store) (s : Store) :
    Bool × Store :=
  if env.setItemOk key then (true, write s) else (false, s)

/-- The function `saveUserProfile(profileData)`. -/
def saveUserProfile (env : Env) (profileData : ProfileDraft) (s : Store) : Bool × Store :=
  match profileData.name, profileData.age, profileData.height, profileData.weight,
    profileData.gender with
  | some name, some age, some height, some weight, some gender =>
    if name = "" ∨ age = 0 ∨ height = 0 ∨ weight = 0 ∨ gender = "" then (false, s)
    else
      safeSetItem env STORAGE_KEYS.USER_PROFILE
        (fun st => { st with
          profile := some { name := name, age := age, height := height, weight := weight,
                            gender := gender, savedAt := env.isoNow } }) s
  | _, _, _, _, _ => (false, s)

/-- The function `getUserProfile()`. -/
def getUserProfile (s : Store) : Option Profile := s.profile

/-- The function `getAllMeals()`. -/
def getAllMeals (s : Store) : DayMap Meal := s.meals.getD DayMap.empty

/-- The function `getMealsByDate(date)`. -/
def getMealsByDate (s : Store) (date : String) : List Meal := (getAllMeals s date).getD []

/-- The function `getTodayMeals()`. -/
def getTodayMeals (env : Env) (s : Store) : List Meal := getMealsByDate s (getTodayDate env)

/-- The function `addMeal(mealData)`. -/
def addMeal (env : Env) (mealData : MealDraft) (s : Store) : Bool × Store :=
  match mealData.name, mealData.calories, mealData.category with
  | some name, some calories, some category =>
    if name = "" ∨ calories = 0 ∨ category = "" then (false, s)
    else
      let today := getTodayDate env
      let allMeals := getAllMeals s
      let bucket := (allMeals today).getD []
      let meal : Meal :=
        { name := name, calories := calories, category := category, id := env.now,
          timestamp := env.isoNow }
      safeSetItem env STORAGE_KEYS.MEALS
        (fun st => { st with meals := some (allMeals.set today (bucket ++ [meal])) }) s
  | _, _, _ => (false, s)

/-- The function `deleteMeal(mealId)`. -/
def deleteMeal (env : Env) (mealId : ℕ) (s : Store) : Bool × Store :=
  let today := getTodayDate env
  let allMeals := getAllMeals s
  match allMeals today with
  | none => (false, s)
  | some bucket =>
    safeSetItem env STORAGE_KEYS.MEALS
      (fun st => { st with
        meals := some (allMeals.set today (bucket.filter (fun meal => meal.id ≠ mealId))) }) s

/-- The function `getTodayTotalCalories()`. -/
def getTodayTotalCalories (env : Env) (s : Store) : ℚ :=
  (getTodayMeals env s).foldl (fun total meal => total + meal.calories) 0

/-- The function `getTodayCaloriesByCategory(category)`. -/
def getTodayCaloriesByCategory (env : Env) (s : Store) (category : String) : ℚ :=
  ((getTodayMeals env s).filter (fun meal => meal.category = category)).foldl
    (fun total meal => total + meal.calories) 0

/-- The function `getAllExercises()`. -/
def getAllExercises (s : Store) : DayMap ExerciseRecord := s.exercises.getD DayMap.empty

/-- The function `getExercisesByDate(date)`. -/
def getExercisesByDate (s : Store) (date : String) : List ExerciseRecord :=
  (getAllExercises s date).getD []

/-- The function `getTodayExercises()`. -/
def getTodayExercises (env : Env) (s : Store) : List ExerciseRecord :=
  getExercisesByDate s (getTodayDate env)

/-- The function `addExercise(exerciseData)`. -/
def addExercise (env : Env) (exerciseData : ExerciseDraft) (s : Store) : Bool × Store :=
  match exerciseData.name, exerciseData.duration, exerciseData.caloriesBurned with
  | some name, some duration, some caloriesBurned =>
    if name = "" ∨ duration = 0 ∨ caloriesBurned = 0 then (false, s)
    else
      let today := getTodayDate env
      let allExercises := getAllExercises s
      let bucket := (allExercises today).getD []
      let exercise : ExerciseRecord :=
        { name := name, duration := duration, type := exerciseData.type,
          caloriesBurned := caloriesBurned, id := env.now, timestamp := env.isoNow }
      safeSetItem env STORAGE_KEYS.EXERCISES
        (fun st => { st with
          exercises := some (allExercises.set today (bucket ++ [exercise])) }) s
  | _, _, _ => (false, s)

/-- The function `deleteExercise(exerciseId)`. -/
def deleteExercise (env : Env) (exerciseId : ℕ) (s : Store) : Bool × Store :=
  let today := getTodayDate env
  let allExercises := getAllExercises s
  match allExercises today with
  | none => (false, s)
  | some bucket =>
    safeSetItem env STORAGE_KEYS.EXERCISES
      (fun st => { st with
        exercises :=
          some (allExercises.set today (bucket.filter (fun ex => ex.id ≠ exerciseId))) }) s

/-- The function `getTodayBurnedCalories()`. -/
def getTodayBurnedCalories (env : Env) (s : Store) : ℚ :=
  (getTodayExercises env s).foldl (fun total ex => total + ex.caloriesBurned) 0

/-- The function `clearAllData()`: the four `removeItem` calls in order; the first one that
raises ends the function with `false`, the items removed before it staying removed. -/
def clearAllData (env : Env) (s : Store) : Bool × Store :=
  if env.removeItemOk STORAGE_KEYS.USER_PROFILE then
    let s1 := { s with profile := none }
    if env.removeItemOk STORAGE_KEYS.MEALS then
      let s2 := { s1 with meals := none }
      if env.removeItemOk STORAGE_KEYS.EXERCISES then
        let s3 := { s2 with exercises := none }
        if env.removeItemOk STORAGE_KEYS.SETTINGS then (true, { s3 with settings := none })
        else (false, s3)
      else (false, s2)
    else (false, s1)
  else (false, s)

/-- The object that `exportData` serialises and `importData` parses; a field is `none` when
it is missing or `null`. -/
structure ExportDocument where
  profile : Option Profile
  meals : Option (DayMap Meal)
  exercises : Option (DayMap ExerciseRecord)
  exportDate : Option String

/-- The function `exportData()`: the document whose JSON text is returned. -/
def exportData (env : Env) (s : Store) : ExportDocument :=
  { profile := getUserProfile s
    meals := some (getAllMeals s)
    exercises := some (getAllExercises s)
    exportDate := some env.isoNow }

/-- The object `data.profile` of a parsed document as the argument of `saveUserProfile`. -/
def Profile.toDraft (p : Profile) : ProfileDraft :=
  { name := some p.name, age := some p.age, height := some p.height, weight := some p.weight,
    gender := some p.gender }

/-- The function `importData(jsonData)`; `jsonData` is the document that `JSON.parse` yields,
`none` when `JSON.parse` raises. The results of the three writes are not looked at. -/
def importData (env : Env) (jsonData : Option ExportDocument) (s : Store) : Bool × Store :=
  match jsonData with
  | none => (false, s)
  | some data =>
    let s1 :=
      match data.profile with
      | some profile => (saveUserProfile env profile.toDraft s).2
      | none => s
    let s2 :=
      match data.meals with
      | some meals =>
        (safeSetItem env STORAGE_KEYS.MEALS (fun st => { st with meals := some meals }) s1).2
      | none => s1
    let s3 :=
      match data.exercises with
      | some exercises =>
        (safeSetItem env STORAGE_KEYS.EXERCISES
          (fun st => { st with exercises := some exercises }) s2).2
      | none => s2
    (true, s3)

/-- A call of one of the two mutators of the meal log, with its surroundings. -/
inductive MealOp where
  | add (env : Env) (mealData : MealDraft)
  | delete (env : Env) (mealId : ℕ)

/-- The store left by a call of the meal log. -/
def MealOp.apply (op : MealOp) (s : Store) : Store :=
  match op with
  | .add env mealData => (addMeal env mealData s).2
  | .delete env mealId => (deleteMeal env mealId s).2

/-- The store left by a sequence of calls of the meal log, the first call first. -/
def runMealOps (ops : List MealOp) (s : Store) : Store :=
  ops.foldl (fun st op => op.apply st) s

/-- A call of one of the two mutators of the exercise log, with its surroundings. -/
inductive ExerciseOp where
  | add (env : Env) (exerciseData : ExerciseDraft)
  | delete (env : Env) (exerciseId : ℕ)

/-- The store left by a call of the exercise log. -/
def ExerciseOp.apply (op : ExerciseOp) (s : Store) : Store :=
  match op with
  | .add env exerciseData => (addExercise env exerciseData s).2
  | .delete env exerciseId => (deleteExercise env exerciseId s).2

/-- The store left by a sequence of calls of the exercise log, the first call first. -/
def runExerciseOps (ops : List ExerciseOp) (s : Store) : Store :=
  ops.foldl (fun st op => op.apply st) s

/-! ## Double arithmetic

The functions of `calculations.js` once more, now with the arithmetic of the code: a number is
an IEEE-754 double and every operation returns the double nearest to the exact result. A
double is represented by its exact rational value. `ofRat x` is the double nearest to `x`
(ties to the even significand); it is what a numeric literal or a parsed input denotes, and
what `+`, `-`, `*` and `/` return when applied to the exact result. Integer literals below
`2 ^ 53` are doubles and are written as they are. The exponent range of a double (overflow
to `Infinity`, gradual underflow) is not represented: the theorems about these definitions
are stated on ranges of the inputs for which every intermediate value stays far inside it. -/

namespace Float64

/-- The integer nearest to `q`, a tie going to the even one. -/
def roundHalfEven (q : ℚ) : ℤ :=
  if q - ⌊q⌋ < 1 / 2 then ⌊q⌋
  else if 1 / 2 < q - ⌊q⌋ then ⌊q⌋ + 1
  else if ⌊q⌋ % 2 = 0 then ⌊q⌋ else ⌊q⌋ + 1

/-- The binary exponent `e` of `x ≠ 0`: `2 ^ e ≤ |x| < 2 ^ (e + 1)`. -/
def exponent (x : ℚ) : ℤ := Int.log 2 |x|

/-- The spacing of the doubles in the binade of `x`: 53 significant bits. -/
def ulp (x : ℚ) : ℚ := (2 : ℚ) ^ (exponent x - 52)

/-- The double nearest to `x`, ties to even. -/
def ofRat (x : ℚ) : ℚ :=
  if x = 0 then 0 else (roundHalfEven (x / ulp x) : ℚ) * ulp x

/-- The unit roundoff `2 ^ (-53)` of double precision. -/
def unitRoundoff : ℚ := 1 / 9007199254740992

/-- The double `y` approximates the positive number `x` with a relative error of at most `k`
roundings: `x (1 - u) ^ k ≤ y` and `y (1 - u) ^ k ≤ x`. -/
def Close (k : ℕ) (y x : ℚ) : Prop :=
  0 < x ∧ x * (1 - unitRoundoff) ^ k ≤ y ∧ y * (1 - unitRoundoff) ^ k ≤ x

/-- The operator `a / b` of JavaScript on doubles. -/
def div (a b : ℚ) : JSNumber :=
  if b = 0 then
    if 0 < a then .posInf else if a < 0 then .negInf else .nan
  else .fin (ofRat (a / b))

/-- The function `calculateBMI(weight, height)` on doubles. -/
def calculateBMI (weight height : ℚ) : ℚ :=
  let weight := ofRat weight
  let height := ofRat height
  if weight = 0 ∨ height = 0 ∨ weight ≤ 0 ∨ height ≤ 0 then 0
  else
    let heightInMeters := ofRat (height / 100)
    let bmi := ofRat (weight / ofRat (heightInMeters * heightInMeters))
    ofRat (mathRound (ofRat (bmi * 10)) / 10)

/-- The function `calculateBMR(weight, height, age, gender)` on doubles. -/
def calculateBMR (weight height age : ℚ) (gender : String) : ℚ :=
  let weight := ofRat weight
  let height := ofRat height
  let age := ofRat age
  if weight = 0 ∨ height = 0 ∨ age = 0 ∨ gender = "" then 0
  else if weight ≤ 0 ∨ height ≤ 0 ∨ age ≤ 0 then 0
  else if gender = "male" then
    mathRound (ofRat (ofRat (ofRat (ofRat 88.362 + ofRat (ofRat 13.397 * weight))
      + ofRat (ofRat 4.799 * height)) - ofRat (ofRat 5.677 * age)))
  else if gender = "female" then
    mathRound (ofRat (ofRat (ofRat (ofRat 447.593 + ofRat (ofRat 9.247 * weight))
      + ofRat (ofRat 3.098 * height)) - ofRat (ofRat 4.330 * age)))
  else 0

/-- The function `calculateCaloriesBurnedByDuration(met, weight, duration)` on doubles. -/
def calculateCaloriesBurnedByDuration (met : Option ℚ) (weight duration : ℚ) : ℚ :=
  match met with
  | none => 0
  | some m =>
    let m := ofRat m
    let weight := ofRat weight
    let duration := ofRat duration
    if m = 0 ∨ weight = 0 ∨ duration = 0 ∨ m ≤ 0 ∨ weight ≤ 0 ∨ duration ≤ 0 then 0
    else
      let caloriesBurned := ofRat (ofRat (ofRat (m * weight) * duration) / 60)
      mathRound caloriesBurned

/-- The function `calculateCaloriesBurnedByReps(reps, caloriesPerRep)` on doubles. -/
def calculateCaloriesBurnedByReps (reps : ℚ) (caloriesPerRep : Option ℚ) : ℚ :=
  match caloriesPerRep with
  | none => 0
  | some c =>
    let reps := ofRat reps
    let c := ofRat c
    if reps = 0 ∨ c = 0 ∨ reps ≤ 0 ∨ c ≤ 0 then 0
    else
      let caloriesBurned := ofRat (reps * c)
      mathRound caloriesBurned

/-- The function `calculateExerciseCalories(exercise, weight, value)` on doubles. -/
def calculateExerciseCalories (exercise : Option Exercise) (weight value : ℚ) : ℚ :=
  match exercise with
  | none => 0
  | some e =>
    if ofRat weight = 0 ∨ ofRat value = 0 then 0
    else if e.type = "sure" then calculateCaloriesBurnedByDuration e.met weight value
    else if e.type = "tekrar" then calculateCaloriesBurnedByReps value e.caloriesPerRep
    else 0

/-- The local constant `dailyCalorieChange` of `calculateWeightGoal`, before it is rounded:
`((targetWeight - currentWeight) * 7700) / days` on doubles. -/
def dailyCalorieChange (currentWeight targetWeight days : ℚ) : JSNumber :=
  div (ofRat (ofRat (ofRat targetWeight - ofRat currentWeight) * 7700)) (ofRat days)

/-- The function `calculateWeightGoal(currentWeight, targetWeight, days)` on doubles. -/
def calculateWeightGoal (currentWeight targetWeight days : ℚ) : WeightGoal :=
  let weightDifference := ofRat (ofRat targetWeight - ofRat currentWeight)
  let totalCalories := ofRat (weightDifference * 7700)
  let dailyCalorieChange := div totalCalories (ofRat days)
  { weightDifference := ofRat (mathRound (ofRat (weightDifference * 10)) / 10)
    totalCalories := mathRound totalCalories
    dailyCalorieChange := JSNumber.round dailyCalorieChange
    isLosing := decide (weightDifference < 0)
    isGaining := decide (0 < weightDifference)
    recommendation :=
      if (JSNumber.abs dailyCalorieChange).gt 1000 then tooAggressive else achievable }

end Float64

/-! ## More tables of `data.js` -/

/-- An entry of `foodDatabase`. -/
structure Food where
  name : String
  calories : ℚ
  category : String
  deriving DecidableEq

/-- The table `foodDatabase`. -/
def foodDatabase : List Food :=
  [Food.mk "Menemen (1 porsiyon)" 180 "kahvalti",
   Food.mk "Beyaz Peynir (50g)" 135 "kahvalti",
   Food.mk "Kaşar Peyniri (50g)" 190 "kahvalti",
   Food.mk "Zeytin (10 adet)" 50 "kahvalti",
   Food.mk "Yumurta (1 adet, haşlanmış)" 78 "kahvalti",
   Food.mk "Omlet (2 yumurta)" 154 "kahvalti",
   Food.mk "Simit (1 adet)" 290 "kahvalti",
   Food.mk "Beyaz Ekmek (1 dilim)" 80 "kahvalti",
   Food.mk "Tam Buğday Ekmeği (1 dilim)" 70 "kahvalti",
   Food.mk "Bal (1 yemek kaşığı)" 64 "kahvalti",
   Food.mk "Reçel (1 yemek kaşığı)" 56 "kahvalti",
   Food.mk "Tereyağı (10g)" 72 "kahvalti",
   Food.mk "Kuru Fasulye (1 porsiyon)" 320 "ana_yemek",
   Food.mk "Mercimek Çorbası (1 kase)" 180 "ana_yemek",
   Food.mk "Pilav (1 porsiyon)" 250 "ana_yemek",
   Food.mk "Makarna (1 porsiyon)" 280 "ana_yemek",
   Food.mk "Köfte (4 adet)" 400 "ana_yemek",
   Food.mk "Tavuk Göğsü Izgara (150g)" 165 "ana_yemek",
   Food.mk "Balık Izgara (150g)" 180 "ana_yemek",
   Food.mk "Et Döner (1 porsiyon)" 450 "ana_yemek",
   Food.mk "Tavuk Döner (1 porsiyon)" 380 "ana_yemek",
   Food.mk "Lahmacun (1 adet)" 230 "ana_yemek",
   Food.mk "Pide (1 dilim)" 280 "ana_yemek",
   Food.mk "Karnıyarık (1 porsiyon)" 350 "ana_yemek",
   Food.mk "İmam Bayıldı (1 porsiyon)" 280 "ana_yemek",
   Food.mk "Mantı (1 porsiyon)" 420 "ana_yemek",
   Food.mk "Dolma (10 adet)" 250 "ana_yemek",
   Food.mk "Çoban Salatası (1 porsiyon)" 120 "salata",
   Food.mk "Cacık (1 kase)" 95 "salata",
   Food.mk "Haydari (1 porsiyon)" 180 "salata",
   Food.mk "Humus (100g)" 166 "salata",
   Food.mk "Yeşil Salata (1 porsiyon)" 45 "salata",
   Food.mk "Muz (1 adet)" 89 "ara_ogun",
   Food.mk "Elma (1 adet)" 95 "ara_ogun",
   Food.mk "Portakal (1 adet)" 62 "ara_ogun",
   Food.mk "Üzüm (1 kase)" 104 "ara_ogun",
   Food.mk "Yoğurt (1 kase)" 150 "ara_ogun",
   Food.mk "Ayran (1 bardak)" 50 "ara_ogun",
   Food.mk "Ceviz (30g)" 196 "ara_ogun",
   Food.mk "Badem (30g)" 170 "ara_ogun",
   Food.mk "Fındık (30g)" 180 "ara_ogun",
   Food.mk "Kraker (5 adet)" 100 "ara_ogun",
   Food.mk "Çikolata (1 küçük)" 220 "ara_ogun",
   Food.mk "Çay (1 bardak, şekersiz)" 2 "icecek",
   Food.mk "Çay (1 bardak, 1 şeker)" 22 "icecek",
   Food.mk "Türk Kahvesi (şekersiz)" 5 "icecek",
   Food.mk "Türk Kahvesi (şekerli)" 45 "icecek",
   Food.mk "Kola (330ml)" 139 "icecek",
   Food.mk "Meyve Suyu (200ml)" 90 "icecek",
   Food.mk "Su" 0 "icecek"]

/-- The table `exerciseDatabase`. -/
def exerciseDatabase : List Exercise :=
  [Exercise.mk "Şınav" (some 8.0) "tekrar" "Göğüs ve kol kaslarını güçlendirir" (some 0.5),
   Exercise.mk "Mekik" (some 8.0) "tekrar" "Karın kaslarını çalıştırır" (some 0.4),
   Exercise.mk "Squat (Çömelme)" (some 8.0) "tekrar" "Bacak ve kalça kaslarını güçlendirir" (some 0.6),
   Exercise.mk "Burpee" (some 10.0) "tekrar" "Tüm vücut egzersizi" (some 1.2),
   Exercise.mk "Plank (Tutma)" (some 5.0) "sure" "Core kaslarını güçlendirir" none,
   Exercise.mk "Yürüyüş (Orta Tempo)" (some 3.5) "sure" "Hafif kardiyo, tüm vücut" none,
   Exercise.mk "Yürüyüş (Hızlı)" (some 5.0) "sure" "Yoğun kardiyo" none,
   Exercise.mk "Koşu (Yavaş)" (some 7.0) "sure" "Orta yoğunlukta kardiyo" none,
   Exercise.mk "Koşu (Orta Hızda)" (some 9.0) "sure" "Yoğun kardiyo" none,
   Exercise.mk "Koşu (Hızlı)" (some 11.5) "sure" "Çok yoğun kardiyo" none,
   Exercise.mk "Bisiklet (Hafif)" (some 4.0) "sure" "Hafif bisiklet sürme" none,
   Exercise.mk "Bisiklet (Orta)" (some 6.8) "sure" "Orta yoğunlukta bisiklet" none,
   Exercise.mk "Bisiklet (Yoğun)" (some 10.0) "sure" "Yoğun bisiklet antrenmanı" none,
   Exercise.mk "İp Atlama" (some 11.0) "sure" "Yüksek yoğunlukta kardiyo" none,
   Exercise.mk "Yüzme (Orta)" (some 7.0) "sure" "Tüm vücut kardiyo" none,
   Exercise.mk "Dans" (some 5.5) "sure" "Eğlenceli kardiyo" none,
   Exercise.mk "Aerobik" (some 7.0) "sure" "Grup egzersizi" none,
   Exercise.mk "Yoga (Hafif)" (some 2.5) "sure" "Esneklik ve gevşeme" none,
   Exercise.mk "Yoga (Yoğun)" (some 4.0) "sure" "Güç ve denge" none,
   Exercise.mk "Pilates" (some 3.0) "sure" "Core güçlendirme" none,
   Exercise.mk "Esneme (Stretching)" (some 2.3) "sure" "Hafif aktivite" none]

/-- The keys of the table `mealCategories`, the categories a meal is logged under. -/
def mealCategoryKeys : List String := ["kahvalti", "ogle", "aksam", "ara_ogun"]

/-! ## `app.js` -/

/-- The property `length` of a JavaScript string: the number of UTF-16 code units, two for a
character outside the basic plane. -/
def jsLength (s : String) : ℕ :=
  (s.data.map (fun c => if c.toNat < 65536 then 1 else 2)).sum

/-- The test `isNaN(x) || x < lo || x > hi` of `validateProfileData`; `x` is `none` when the
parsed number is `NaN`. -/
def outOfRange (x : Option ℚ) (lo hi : ℚ) : Bool :=
  match x with
  | none => true
  | some v => decide (v < lo ∨ v > hi)

/-- The function `validateProfileData(name, age, height, weight, gender)`; the toast it shows
is not part of the model. -/
def validateProfileData (name : String) (age height weight : Option ℚ) (gender : String) :
    Bool :=
  if name = "" ∨ jsLength name < 2 then false
  else if outOfRange age 10 120 then false
  else if outOfRange height 100 250 then false
  else if outOfRange weight 30 300 then false
  else if gender ≠ "male" ∧ gender ≠ "female" then false
  else true

/-- The function `handleAddMeal()` as far as the store goes: `category` is
`form.dataset.category`, `name` the trimmed text of the name field, `calories` what `parseInt`
makes of the calories field (`none` for `NaN`). The result is the store it leaves. -/
def handleAddMeal (env : Env) (category : Option String) (name : String)
    (calories : Option ℤ) (s : Store) : Store :=
  if name = "" then s
  else
    match calories with
    | none => s
    | some c =>
      if c ≤ 0 ∨ c > 5000 then s
      else (addMeal env { name := some name, calories := some (c : ℚ), category := category } s).2

/-! ## Sample values -/

/-- A call on 5 November 2026 with a working `localStorage`. -/
def sampleEnv : Env :=
  { today := "2026-11-05", now := 1762329600000, isoNow := "2026-11-05T08:00:00.000Z",
    setItemOk := fun _ => true, removeItemOk := fun _ => true }

/-- A call at the same instant with a `localStorage` whose `setItem` raises. -/
def sampleEnvFull : Env :=
  { today := "2026-11-05", now := 1762329600000, isoNow := "2026-11-05T08:00:00.000Z",
    setItemOk := fun _ => false, removeItemOk := fun _ => true }

/-- The draft of the meal "Elma (1 adet)" of `foodDatabase`. -/
def sampleMealDraft : MealDraft :=
  { name := some "Elma (1 adet)", calories := some 95, category := some "ara_ogun" }

/-- The record that `addMeal` makes of `sampleMealDraft` in `sampleEnv`. -/
def sampleMeal : Meal :=
  { name := "Elma (1 adet)", calories := 95, category := "ara_ogun", id := 1762329600000,
    timestamp := "2026-11-05T08:00:00.000Z" }

/-- A store whose meal log has the one record `sampleMeal` under 5 November 2026. -/
def sampleStore : Store :=
  { profile := none, meals := some (DayMap.empty.set "2026-11-05" [sampleMeal]),
    exercises := none, settings := none }

/-- The draft of 30 minutes of "Koşu (Yavaş)" of `exerciseDatabase` at 70 kg. -/
def sampleExerciseDraft : ExerciseDraft :=
  { name := some "Koşu (Yavaş)", duration := some 30, type := some "sure",
    caloriesBurned := some 245 }

/-- A store whose profile has an empty name, which `saveUserProfile` never writes. -/
def sampleStoreEmptyName : Store :=
  { profile := some (Profile.mk "" 30 165 60 "female" "2026-11-04T08:00:00.000Z"),
    meals := none, exercises := none, settings := none }

/-! ## Rounding -/

/-- The value `mathRound x` is the integer `n` exactly when `x` lies in `[n - 1/2, n + 1/2)`. -/
theorem mathRound_eq_iff (x : ℚ) (n : ℤ) :
    mathRound x = (n : ℚ) ↔ (n : ℚ) - 1 / 2 ≤ x ∧ x < (n : ℚ) + 1 / 2 := by
  unfold mathRound
  rw [Int.cast_inj, Int.floor_eq_iff]
  constructor
  · rintro ⟨h1, h2⟩
    exact ⟨by linarith, by linarith⟩
  · rintro ⟨h1, h2⟩
    exact ⟨by linarith, by linarith⟩

/-- The value `mathRound x` is within one half of `x`, the upper tie excluded. -/
theorem mathRound_bounds (x : ℚ) : mathRound x - 1 / 2 ≤ x ∧ x < mathRound x + 1 / 2 :=
  (mathRound_eq_iff x ⌊x + 1 / 2⌋).1 rfl

/-! ## Body mass index -/

/-- The four entries of `bmiCategories` are pairwise different. -/
theorem bmiCategories_distinct :
    bmiCategories.underweight ≠ bmiCategories.normal ∧
    bmiCategories.underweight ≠ bmiCategories.overweight ∧
    bmiCategories.underweight ≠ bmiCategories.obese ∧
    bmiCategories.normal ≠ bmiCategories.overweight ∧
    bmiCategories.normal ≠ bmiCategories.obese ∧
    bmiCategories.overweight ≠ bmiCategories.obese := by
  refine ⟨?_, ?_, ?_, ?_, ?_, ?_⟩ <;>
    simp [bmiCategories.underweight, bmiCategories.normal, bmiCategories.overweight,
      bmiCategories.obese]

/-- C2: `getBMICategory b` is the underweight entry iff `b < 18.5`, the normal entry iff
`18.5 ≤ b < 25`, the overweight entry iff `25 ≤ b < 30` and the obese entry iff `30 ≤ b`;
18.49 is underweight, 18.5 and 24.99 are normal, 25.0 and 29.99 are overweight, 30.0 is obese. -/
theorem C2_getBMICategory_boundaries :
    (∀ b : ℚ,
      (getBMICategory b = bmiCategories.underweight ↔ b < 18.5) ∧
      (getBMICategory b = bmiCategories.normal ↔ 18.5 ≤ b ∧ b < 25) ∧
      (getBMICategory b = bmiCategories.overweight ↔ 25 ≤ b ∧ b < 30) ∧
      (getBMICategory b = bmiCategories.obese ↔ 30 ≤ b)) ∧
    getBMICategory 18.49 = bmiCategories.underweight ∧
    getBMICategory 18.5 = bmiCategories.normal ∧
    getBMICategory 24.99 = bmiCategories.normal ∧
    getBMICategory 25.0 = bmiCategories.overweight ∧
    getBMICategory 29.99 = bmiCategories.overweight ∧
    getBMICategory 30.0 = bmiCategories.obese := by
  obtain ⟨d1, d2, d3, d4, d5, d6⟩ := bmiCategories_distinct
  have key : ∀ b : ℚ,
      (getBMICategory b = bmiCategories.underweight ↔ b < 18.5) ∧
      (getBMICategory b = bmiCategories.normal ↔ 18.5 ≤ b ∧ b < 25) ∧
      (getBMICategory b = bmiCategories.overweight ↔ 25 ≤ b ∧ b < 30) ∧
      (getBMICategory b = bmiCategories.obese ↔ 30 ≤ b) := by
    intro b
    unfold getBMICategory
    by_cases h1 : b < 18.5
    · rw [if_pos h1]
      refine ⟨⟨fun _ => h1, fun _ => rfl⟩, ⟨fun h => absurd h d1, ?_⟩,
        ⟨fun h => absurd h d2, ?_⟩, ⟨fun h => absurd h d3, ?_⟩⟩
      · rintro ⟨h, _⟩; exact absurd h1 (not_lt.2 h)
      · rintro ⟨h, _⟩; exfalso; norm_num at h1 h; linarith
      · intro h; exfalso; norm_num at h1; linarith
    · rw [if_neg h1]
      have h1' : (18.5 : ℚ) ≤ b := not_lt.1 h1
      by_cases h2 : b < 25
      · rw [if_pos ⟨h1', h2⟩]
        refine ⟨⟨fun h => absurd h.symm d1, fun h => absurd h h1⟩,
          ⟨fun _ => ⟨h1', h2⟩, fun _ => rfl⟩, ⟨fun h => absurd h d4, ?_⟩,
          ⟨fun h => absurd h d5, ?_⟩⟩
        · rintro ⟨h, _⟩; exact absurd h2 (not_lt.2 h)
        · intro h; exfalso; linarith
      · rw [if_neg (fun h => h2 h.2)]
        have h2' : (25 : ℚ) ≤ b := not_lt.1 h2
        by_cases h3 : b < 30
        · rw [if_pos ⟨h2', h3⟩]
          refine ⟨⟨fun h => absurd h.symm d2, fun h => absurd h h1⟩,
            ⟨fun h => absurd h.symm d4, fun h => absurd h.2 h2⟩,
            ⟨fun _ => ⟨h2', h3⟩, fun _ => rfl⟩, ⟨fun h => absurd h d6, ?_⟩⟩
          intro h; exact absurd h3 (not_lt.2 h)
        · rw [if_neg (fun h => h3 h.2)]
          refine ⟨⟨fun h => absurd h.symm d3, fun h => absurd h h1⟩,
            ⟨fun h => absurd h.symm d5, fun h => absurd h.2 h2⟩,
            ⟨fun h => absurd h.symm d6, fun h => absurd h.2 h3⟩,
            ⟨fun _ => not_lt.1 h3, fun _ => rfl⟩⟩
  refine ⟨key, ?_, ?_, ?_, ?_, ?_, ?_⟩
  · exact (key _).1.2 (by norm_num)
  · exact (key _).2.1.2 ⟨by norm_num, by norm_num⟩
  · exact (key _).2.1.2 ⟨by norm_num, by norm_num⟩
  · exact (key _).2.2.1.2 ⟨by norm_num, by norm_num⟩
  · exact (key _).2.2.1.2 ⟨by norm_num, by norm_num⟩
  · exact (key _).2.2.2.2 (by norm_num)

/-! ## Basal metabolic rate and daily need -/

/-- C4: `calculateBMI` returns 0 whenever weight or height is zero or negative, and
`calculateBMR` returns 0 whenever weight, height or age is zero or negative or the gender is
neither `'male'` nor `'female'`; both functions are total, so neither raises. -/
theorem C4_nonpositive_inputs_give_zero (w h a : ℚ) (g : String) :
    ((w ≤ 0 ∨ h ≤ 0) → calculateBMI w h = 0) ∧
    ((w ≤ 0 ∨ h ≤ 0 ∨ a ≤ 0 ∨ (g ≠ "male" ∧ g ≠ "female")) → calculateBMR w h a g = 0) := by
  constructor
  · intro hyp
    unfold calculateBMI
    rw [if_pos]
    rcases hyp with hyp | hyp
    · exact Or.inr (Or.inr (Or.inl hyp))
    · exact Or.inr (Or.inr (Or.inr hyp))
  · intro hyp
    unfold calculateBMR
    split_ifs with h1 h2 h3 h4
    · rfl
    · rfl
    · exfalso
      rcases hyp with hyp | hyp | hyp | hyp
      · exact h2 (Or.inl hyp)
      · exact h2 (Or.inr (Or.inl hyp))
      · exact h2 (Or.inr (Or.inr hyp))
      · exact hyp.1 h3
    · exfalso
      rcases hyp with hyp | hyp | hyp | hyp
      · exact h2 (Or.inl hyp)
      · exact h2 (Or.inr (Or.inl hyp))
      · exact h2 (Or.inr (Or.inr hyp))
      · exact hyp.2 h4
    · rfl

/-- Witness of C4: a negative weight for `calculateBMI`, an unknown gender for
`calculateBMR`. -/
theorem C4_nonpositive_inputs_give_zero_witness :
    (((-5 : ℚ) ≤ 0 ∨ (170 : ℚ) ≤ 0) ∧ calculateBMI (-5) 170 = 0) ∧
    (("other" ≠ "male" ∧ "other" ≠ "female") ∧ calculateBMR 70 170 30 "other" = 0) :=
  ⟨⟨Or.inl (by norm_num),
      (C4_nonpositive_inputs_give_zero (-5) 170 30 "other").1 (Or.inl (by norm_num))⟩,
    ⟨⟨by decide, by decide⟩,
      (C4_nonpositive_inputs_give_zero 70 170 30 "other").2
        (Or.inr (Or.inr (Or.inr ⟨by decide, by decide⟩)))⟩⟩

/-- A level whose property read is a non-zero number `q` gives `Math.round (bmr * q)`. -/
theorem calculateDailyCalories_of_factor (bmr q : ℚ) (level : String)
    (h : activityFactors level = .number q) (hq : q ≠ 0) :
    calculateDailyCalories bmr (some level) = .fin (mathRound (bmr * q)) := by
  simp [calculateDailyCalories, h, JSValue.orDefault, hq, JSValue.mulLeft, JSNumber.round]

/-- For the five levels of the table, for an omitted level, and for every other level that is
not a member inherited from `Object.prototype`, the daily need is `Math.round (bmr * f)` with
the factor of the table, 1.2 being the fallback. -/
theorem calculateDailyCalories_table (bmr : ℚ) :
    calculateDailyCalories bmr (some "sedentary") = .fin (mathRound (bmr * 1.2)) ∧
    calculateDailyCalories bmr (some "light") = .fin (mathRound (bmr * 1.375)) ∧
    calculateDailyCalories bmr (some "moderate") = .fin (mathRound (bmr * 1.55)) ∧
    calculateDailyCalories bmr (some "active") = .fin (mathRound (bmr * 1.725)) ∧
    calculateDailyCalories bmr (some "extreme") = .fin (mathRound (bmr * 1.9)) ∧
    calculateDailyCalories bmr none = .fin (mathRound (bmr * 1.2)) ∧
    ∀ level : String, level ≠ "sedentary" → level ≠ "light" → level ≠ "moderate" →
      level ≠ "active" → level ≠ "extreme" → level ∉ objectPrototypeKeys →
      calculateDailyCalories bmr (some level) = .fin (mathRound (bmr * 1.2)) := by
  have sed : calculateDailyCalories bmr (some "sedentary") = .fin (mathRound (bmr * 1.2)) :=
    calculateDailyCalories_of_factor bmr 1.2 "sedentary" (by simp [activityFactors])
      (by norm_num)
  refine ⟨sed, ?_, ?_, ?_, ?_, sed, ?_⟩
  · exact calculateDailyCalories_of_factor bmr 1.375 "light" (by simp [activityFactors])
      (by norm_num)
  · exact calculateDailyCalories_of_factor bmr 1.55 "moderate" (by simp [activityFactors])
      (by norm_num)
  · exact calculateDailyCalories_of_factor bmr 1.725 "active" (by simp [activityFactors])
      (by norm_num)
  · exact calculateDailyCalories_of_factor bmr 1.9 "extreme" (by simp [activityFactors])
      (by norm_num)
  · intro level h1 h2 h3 h4 h5 h6
    simp [calculateDailyCalories, activityFactors, JSValue.orDefault, JSValue.mulLeft,
      JSNumber.round, h1, h2, h3, h4, h5, h6]

/-- C5: at the level `'toString'`, which is none of the five levels of the table, the property
read finds the method inherited from `Object.prototype`, the fallback `|| 1.2` does not
apply, and `calculateDailyCalories 2000 'toString'` is `NaN` instead of
`Math.round (2000 * 1.2) = 2400`. -/
theorem C5_calculateDailyCalories_inherited_key :
    calculateDailyCalories 2000 (some "toString") = JSNumber.nan ∧
    calculateDailyCalories 2000 (some "toString") ≠ JSNumber.fin (mathRound (2000 * 1.2)) ∧
    mathRound (2000 * 1.2) = 2400 := by
  have e : calculateDailyCalories 2000 (some "toString") = JSNumber.nan := by
    simp [calculateDailyCalories, activityFactors, objectPrototypeKeys, JSValue.orDefault,
      JSValue.mulLeft, JSNumber.round]
  refine ⟨e, ?_, ?_⟩
  · rw [e]; exact fun h => JSNumber.noConfusion h
  · exact_mod_cast (mathRound_eq_iff _ 2400).2 ⟨by norm_num, by norm_num⟩

/-! ## Exercise calories -/

/-- The duration branch on positive arguments. -/
theorem calculateCaloriesBurnedByDuration_pos (m w v : ℚ) (hm : 0 < m) (hw : 0 < w)
    (hv : 0 < v) :
    calculateCaloriesBurnedByDuration (some m) w v = mathRound (m * w * v / 60) := by
  unfold calculateCaloriesBurnedByDuration
  simp only
  rw [if_neg (by simp [ne_of_gt hm, ne_of_gt hw, ne_of_gt hv, not_le.2 hm, not_le.2 hw,
    not_le.2 hv])]

/-- The repetition branch on positive arguments. -/
theorem calculateCaloriesBurnedByReps_pos (v c : ℚ) (hv : 0 < v) (hc : 0 < c) :
    calculateCaloriesBurnedByReps v (some c) = mathRound (v * c) := by
  unfold calculateCaloriesBurnedByReps
  simp only
  rw [if_neg (by simp [ne_of_gt hv, ne_of_gt hc, not_le.2 hv, not_le.2 hc])]

/-- C7 as stated fails: the catalog entry "Şınav" (repetition based, 0.5 kcal per
repetition) with the negative weight -70 and 10 repetitions gives 5, not 0, because the
repetition branch never looks at the weight. -/
theorem C7_negative_weight_counterexample :
    (-70 : ℚ) ≤ 0 ∧
    calculateExerciseCalories
      (some { name := "Şınav", met := some 8.0, type := "tekrar",
              description := "Göğüs ve kol kaslarını güçlendirir",
              caloriesPerRep := some 0.5 }) (-70) 10 = 5 ∧
    calculateExerciseCalories
      (some { name := "Şınav", met := some 8.0, type := "tekrar",
              description := "Göğüs ve kol kaslarını güçlendirir",
              caloriesPerRep := some 0.5 }) (-70) 10 ≠ 0 := by
  have e : calculateExerciseCalories
      (some { name := "Şınav", met := some 8.0, type := "tekrar",
              description := "Göğüs ve kol kaslarını güçlendirir",
              caloriesPerRep := some 0.5 }) (-70) 10 = 5 := by
    have h := calculateCaloriesBurnedByReps_pos 10 0.5 (by norm_num) (by norm_num)
    have r : mathRound (10 * 0.5) = 5 := by
      exact_mod_cast (mathRound_eq_iff _ 5).2 ⟨by norm_num, by norm_num⟩
    simp [calculateExerciseCalories, h, r]
  exact ⟨by norm_num, e, by rw [e]; norm_num⟩

/-- C7 (amended): `calculateExerciseCalories` returns 0 when the entry is missing, when its
type is neither `'sure'` nor `'tekrar'`, when the weight is zero, when the value is zero or
negative, for a duration entry when the weight is negative or the MET is missing, zero or
negative, and for a repetition entry when `caloriesPerRep` is missing, zero or negative. The
function is total, so it never raises. -/
theorem C7_calculateExerciseCalories_zero (e : Exercise) (w v : ℚ) :
    calculateExerciseCalories none w v = 0 ∧
    ((e.type ≠ "sure" ∧ e.type ≠ "tekrar") → calculateExerciseCalories (some e) w v = 0) ∧
    (w = 0 → calculateExerciseCalories (some e) w v = 0) ∧
    (v ≤ 0 → calculateExerciseCalories (some e) w v = 0) ∧
    (e.type = "sure" → (w < 0 ∨ e.met = none ∨ ∃ m : ℚ, e.met = some m ∧ m ≤ 0) →
      calculateExerciseCalories (some e) w v = 0) ∧
    (e.type = "tekrar" → (e.caloriesPerRep = none ∨ ∃ c : ℚ, e.caloriesPerRep = some c ∧ c ≤ 0) →
      calculateExerciseCalories (some e) w v = 0) := by
  have dur0 : ∀ met : Option ℚ, (w ≤ 0 ∨ v ≤ 0 ∨ met = none ∨ ∃ m : ℚ, met = some m ∧ m ≤ 0) →
      calculateCaloriesBurnedByDuration met w v = 0 := by
    intro met hyp
    unfold calculateCaloriesBurnedByDuration
    cases met with
    | none => rfl
    | some m =>
      simp only
      rw [if_pos]
      rcases hyp with hyp | hyp | hyp | ⟨m2, hm2, hle⟩
      · exact Or.inr (Or.inr (Or.inr (Or.inr (Or.inl hyp))))
      · exact Or.inr (Or.inr (Or.inr (Or.inr (Or.inr hyp))))
      · exact absurd hyp (by simp)
      · rw [Option.some.inj hm2]
        exact Or.inr (Or.inr (Or.inr (Or.inl hle)))
  have rep0 : ∀ cpr : Option ℚ, (v ≤ 0 ∨ cpr = none ∨ ∃ c : ℚ, cpr = some c ∧ c ≤ 0) →
      calculateCaloriesBurnedByReps v cpr = 0 := by
    intro cpr hyp
    unfold calculateCaloriesBurnedByReps
    cases cpr with
    | none => rfl
    | some c =>
      simp only
      rw [if_pos]
      rcases hyp with hyp | hyp | ⟨c2, hc2, hle⟩
      · exact Or.inr (Or.inr (Or.inl hyp))
      · exact absurd hyp (by simp)
      · rw [Option.some.inj hc2]
        exact Or.inr (Or.inr (Or.inr hle))
  refine ⟨rfl, ?_, ?_, ?_, ?_, ?_⟩
  · rintro ⟨h1, h2⟩
    unfold calculateExerciseCalories
    simp only
    split_ifs <;> rfl
  · intro h
    unfold calculateExerciseCalories
    simp only
    rw [if_pos (Or.inl h)]
  · intro h
    unfold calculateExerciseCalories
    simp only
    split_ifs
    · rfl
    · exact dur0 _ (Or.inr (Or.inl h))
    · exact rep0 _ (Or.inl h)
    · rfl
  · intro ht hyp
    unfold calculateExerciseCalories
    simp only
    split_ifs
    · rfl
    · refine dur0 _ ?_
      rcases hyp with hyp | hyp | hyp
      · exact Or.inl (le_of_lt hyp)
      · exact Or.inr (Or.inr (Or.inl hyp))
      · exact Or.inr (Or.inr (Or.inr hyp))
  · intro ht hyp
    unfold calculateExerciseCalories
    simp only
    split_ifs with h1 h2
    · rfl
    · exact dur0 _ (by rw [ht] at h2; exact absurd h2 (by decide))
    · exact rep0 _ (Or.inr hyp)

/-- Witness of C7 (amended): an entry of unknown type, and a duration entry with a negative
weight. -/
theorem C7_calculateExerciseCalories_zero_witness :
    calculateExerciseCalories
      (some { name := "x", met := some 5, type := "mesafe", description := "",
              caloriesPerRep := none }) 70 30 = 0 ∧
    calculateExerciseCalories
      (some { name := "Dans", met := some 5.5, type := "sure",
              description := "Eğlenceli kardiyo", caloriesPerRep := none }) (-70) 30 = 0 :=
  ⟨(C7_calculateExerciseCalories_zero
      { name := "x", met := some 5, type := "mesafe", description := "",
        caloriesPerRep := none } 70 30).2.1 ⟨by decide, by decide⟩,
   (C7_calculateExerciseCalories_zero
      { name := "Dans", met := some 5.5, type := "sure",
        description := "Eğlenceli kardiyo", caloriesPerRep := none } (-70) 30).2.2.2.2.1
      rfl (Or.inl (by norm_num))⟩

/-! ## Progress towards a target -/

/-- C8: `calculateCaloriePercentage current target` is 0 when `target ≤ 0` and otherwise
`min (max (current / target * 100) 0) 150`, so the result always lies in `[0, 150]`;
`(150, 100)` gives 150, `(-10, 100)` gives 0 and `(50, 0)` gives 0. -/
theorem C8_calculateCaloriePercentage_clamped (current target : ℚ) :
    (target ≤ 0 → calculateCaloriePercentage current target = 0) ∧
    (0 < target → calculateCaloriePercentage current target
      = Min.min (Max.max (current / target * 100) 0) 150) ∧
    0 ≤ calculateCaloriePercentage current target ∧
    calculateCaloriePercentage current target ≤ 150 ∧
    calculateCaloriePercentage 150 100 = 150 ∧
    calculateCaloriePercentage (-10) 100 = 0 ∧
    calculateCaloriePercentage 50 0 = 0 := by
  have neg : ∀ c t : ℚ, t ≤ 0 → calculateCaloriePercentage c t = 0 := by
    intro c t h
    unfold calculateCaloriePercentage
    rw [if_pos (Or.inr h)]
  have pos : ∀ c t : ℚ, 0 < t →
      calculateCaloriePercentage c t = Min.min (Max.max (c / t * 100) 0) 150 := by
    intro c t h
    unfold calculateCaloriePercentage
    rw [if_neg (by simp [ne_of_gt h, not_le.2 h])]
  refine ⟨neg current target, pos current target, ?_, ?_, ?_, ?_, ?_⟩
  · rcases le_or_lt target 0 with h | h
    · rw [neg _ _ h]
    · rw [pos _ _ h]
      exact le_min (le_max_right _ _) (by norm_num)
  · rcases le_or_lt target 0 with h | h
    · rw [neg _ _ h]; norm_num
    · rw [pos _ _ h]
      exact min_le_right _ _
  · rw [pos _ _ (by norm_num)]; norm_num
  · rw [pos _ _ (by norm_num)]; norm_num
  · exact neg _ _ (le_refl 0)

/-- Witness of C8: the guard at target 0 and the clamp at target 100. -/
theorem C8_calculateCaloriePercentage_clamped_witness :
    calculateCaloriePercentage 50 0 = 0 ∧
    calculateCaloriePercentage 150 100 = Min.min (Max.max ((150 : ℚ) / 100 * 100) 0) 150 :=
  ⟨(C8_calculateCaloriePercentage_clamped 50 0).1 (le_refl 0),
   (C8_calculateCaloriePercentage_clamped 150 100).2.1 (by norm_num)⟩

/-- The two messages of `calculateWeightGoal` are different. -/
theorem tooAggressive_ne_achievable : tooAggressive ≠ achievable := by
  decide

/-! ## Record store: meals -/

/-- Reading the key that was just assigned. -/
theorem DayMap.set_same {α : Type} (obj : DayMap α) (key : String) (bucket : List α) :
    obj.set key bucket key = some bucket := by
  simp [DayMap.set]

/-- Reading another key than the one that was assigned. -/
theorem DayMap.set_other {α : Type} (obj : DayMap α) (key k : String) (bucket : List α)
    (h : k ≠ key) : obj.set key bucket k = obj k := by
  simp [DayMap.set, h]

/-- Assigning the same key twice keeps the second bucket only. -/
theorem DayMap.set_set {α : Type} (obj : DayMap α) (key : String) (b1 b2 : List α) :
    (obj.set key b1).set key b2 = obj.set key b2 := by
  funext k
  by_cases h : k = key <;> simp [DayMap.set, h]

/-- What `addMeal` does with a draft that passes the validation. -/
theorem addMeal_valid (env : Env) (s : Store) (name category : String) (calories : ℚ)
    (hn : name ≠ "") (hc : calories ≠ 0) (hcat : category ≠ "") :
    addMeal env (MealDraft.mk (some name) (some calories) (some category)) s
      = safeSetItem env STORAGE_KEYS.MEALS
          (fun st => { st with
            meals := some ((getAllMeals s).set env.today
              (getMealsByDate s env.today ++
                [Meal.mk name calories category env.now env.isoNow])) }) s := by
  simp [addMeal, hn, hc, hcat, getTodayDate, getMealsByDate]

/-- A call of `addMeal` that returns `true` had a valid draft and a write that went through. -/
theorem addMeal_true (env : Env) (d : MealDraft) (s : Store) (h : (addMeal env d s).1 = true) :
    ∃ name calories category, d = (MealDraft.mk (some name) (some calories) (some category)) ∧ name ≠ "" ∧ calories ≠ 0 ∧ category ≠ "" ∧
      env.setItemOk STORAGE_KEYS.MEALS = true := by
  obtain ⟨n, c, cat⟩ := d
  cases n with
  | none => simp [addMeal] at h
  | some name =>
    cases c with
    | none => simp [addMeal] at h
    | some calories =>
      cases cat with
      | none => simp [addMeal] at h
      | some category =>
        by_cases hv : name = "" ∨ calories = 0 ∨ category = ""
        · simp [addMeal, hv] at h
        · have hv2 := hv
          simp only [not_or] at hv2
          obtain ⟨h1, h2, h3⟩ := hv2
          refine ⟨name, calories, category, rfl, h1, h2, h3, ?_⟩
          rw [addMeal_valid env s name category calories h1 h2 h3] at h
          unfold safeSetItem at h
          by_cases hw : env.setItemOk STORAGE_KEYS.MEALS = true
          · exact hw
          · rw [if_neg hw] at h
            exact absurd h (by simp)

/-- C11: with no meal record today, a draft with non-empty name, non-zero calories and a
category, and a write that succeeds, `addMeal` returns `true` and `getTodayMeals()` afterwards
(on the same day) is the one record with the name, calories and category of the draft and
the id `Date.now()`; and after every `addMeal` that returns `true`, `getTodayMeals()` is the
sequence before it with the new record appended at the end. -/
theorem C11_addMeal_appends (env later : Env) (s : Store) (hday : later.today = env.today) :
    (∀ (name category : String) (calories : ℚ), name ≠ "" → calories ≠ 0 → category ≠ "" →
      env.setItemOk STORAGE_KEYS.MEALS = true → getTodayMeals env s = [] →
      (addMeal env (MealDraft.mk (some name) (some calories) (some category)) s).1 = true ∧
      getTodayMeals later (addMeal env (MealDraft.mk (some name) (some calories) (some category)) s).2
        = [Meal.mk name calories category env.now env.isoNow]) ∧
    (∀ d : MealDraft, (addMeal env d s).1 = true →
      ∃ m : Meal, getTodayMeals later (addMeal env d s).2 = getTodayMeals env s ++ [m] ∧
        some m.name = d.name ∧ some m.calories = d.calories ∧ some m.category = d.category ∧
        m.id = env.now) := by
  have step : ∀ (name category : String) (calories : ℚ), name ≠ "" → calories ≠ 0 →
      category ≠ "" → env.setItemOk STORAGE_KEYS.MEALS = true →
      (addMeal env (MealDraft.mk (some name) (some calories) (some category)) s).1 = true ∧
      getTodayMeals later (addMeal env (MealDraft.mk (some name) (some calories) (some category)) s).2
        = getTodayMeals env s ++
          [Meal.mk name calories category env.now env.isoNow] := by
    intro name category calories hn hc hcat hw
    rw [addMeal_valid env s name category calories hn hc hcat]
    simp [safeSetItem, hw, getTodayMeals, getMealsByDate, getAllMeals, getTodayDate, hday,
      DayMap.set]
  constructor
  · intro name category calories hn hc hcat hw hempty
    have h := step name category calories hn hc hcat hw
    rw [hempty] at h
    exact ⟨h.1, by simpa using h.2⟩
  · intro d hd
    obtain ⟨name, calories, category, rfl, hn, hc, hcat, hw⟩ := addMeal_true env d s hd
    exact ⟨_, (step name category calories hn hc hcat hw).2, rfl, rfl, rfl, rfl⟩

/-- Witness of C11: the meal "Elma (1 adet)" added to the empty store. -/
theorem C11_addMeal_appends_witness :
    (addMeal sampleEnv sampleMealDraft Store.empty).1 = true ∧
    getTodayMeals sampleEnv (addMeal sampleEnv sampleMealDraft Store.empty).2 = [sampleMeal] :=
  (C11_addMeal_appends sampleEnv sampleEnv Store.empty rfl).1 "Elma (1 adet)" "ara_ogun" 95
    (by decide) (by norm_num) (by decide) rfl rfl

/-- What `deleteMeal` does when today has a bucket. -/
theorem deleteMeal_bucket (env : Env) (mealId : ℕ) (s : Store) (bucket : List Meal)
    (h : getAllMeals s env.today = some bucket) :
    deleteMeal env mealId s
      = safeSetItem env STORAGE_KEYS.MEALS
          (fun st => { st with
            meals := some ((getAllMeals s).set env.today
              (bucket.filter (fun meal => meal.id ≠ mealId))) }) s := by
  simp [deleteMeal, getTodayDate, h]

/-- What `deleteMeal` does when today has no bucket. -/
theorem deleteMeal_no_bucket (env : Env) (mealId : ℕ) (s : Store)
    (h : getAllMeals s env.today = none) : deleteMeal env mealId s = (false, s) := by
  simp [deleteMeal, getTodayDate, h]

/-- Whatever its result, `deleteMeal` leaves the bucket of every other day, the profile, the
exercise log and the settings as they are. -/
theorem deleteMeal_frame (env : Env) (mealId : ℕ) (s : Store) :
    (∀ day : String, day ≠ env.today →
      getAllMeals (deleteMeal env mealId s).2 day = getAllMeals s day) ∧
    (deleteMeal env mealId s).2.profile = s.profile ∧
    (deleteMeal env mealId s).2.exercises = s.exercises ∧
    (deleteMeal env mealId s).2.settings = s.settings := by
  cases hb : getAllMeals s env.today with
  | none =>
    rw [deleteMeal_no_bucket env mealId s hb]
    exact ⟨fun _ _ => rfl, rfl, rfl, rfl⟩
  | some bucket =>
    rw [deleteMeal_bucket env mealId s bucket hb]
    unfold safeSetItem
    by_cases hw : env.setItemOk STORAGE_KEYS.MEALS = true
    · rw [if_pos hw]
      refine ⟨fun day hday => ?_, rfl, rfl, rfl⟩
      simp [getAllMeals, DayMap.set, hday]
    · rw [if_neg hw]
      exact ⟨fun _ _ => rfl, rfl, rfl, rfl⟩

/-- C12 as stated fails: when today has a bucket and the write raises, `deleteMeal` returns
`false` and the bucket still holds the record with the given id. -/
theorem C12_failed_write_counterexample :
    getAllMeals sampleStore sampleEnvFull.today = some [sampleMeal] ∧
    sampleMeal.id = 1762329600000 ∧
    (deleteMeal sampleEnvFull 1762329600000 sampleStore).1 = false ∧
    getAllMeals (deleteMeal sampleEnvFull 1762329600000 sampleStore).2 sampleEnvFull.today
      = some [sampleMeal] ∧
    [sampleMeal].filter (fun meal => meal.id ≠ 1762329600000) = [] := by
  have hb : getAllMeals sampleStore sampleEnvFull.today = some [sampleMeal] := by
    simp [getAllMeals, sampleStore, sampleEnvFull, DayMap.set]
  have hd : deleteMeal sampleEnvFull 1762329600000 sampleStore = (false, sampleStore) := by
    rw [deleteMeal_bucket sampleEnvFull 1762329600000 sampleStore [sampleMeal] hb]
    simp [safeSetItem, sampleEnvFull]
  refine ⟨hb, rfl, ?_, ?_, ?_⟩
  · rw [hd]
  · rw [hd]; exact hb
  · simp [sampleMeal]

/-- C12 (amended): `deleteMeal id` returns `false` and changes nothing when today has no
bucket; when today has a bucket and the write succeeds it returns `true` and today's bucket
becomes the same sequence without the records whose id is `id` (the rest in their order);
when the write raises it returns `false` and changes nothing; in every case the bucket of
every other day is as before, so a record under another day key is never removed. -/
theorem C12_deleteMeal_today_only (env : Env) (mealId : ℕ) (s : Store) :
    (getAllMeals s env.today = none → deleteMeal env mealId s = (false, s)) ∧
    (∀ bucket : List Meal, getAllMeals s env.today = some bucket →
      (env.setItemOk STORAGE_KEYS.MEALS = true →
        (deleteMeal env mealId s).1 = true ∧
        getAllMeals (deleteMeal env mealId s).2 env.today
          = some (bucket.filter (fun meal => meal.id ≠ mealId)) ∧
        (∀ m : Meal, m ∈ getMealsByDate (deleteMeal env mealId s).2 env.today
          ↔ m ∈ bucket ∧ m.id ≠ mealId) ∧
        (getMealsByDate (deleteMeal env mealId s).2 env.today).Sublist bucket) ∧
      (env.setItemOk STORAGE_KEYS.MEALS = false → deleteMeal env mealId s = (false, s))) ∧
    (∀ day : String, day ≠ env.today →
      getAllMeals (deleteMeal env mealId s).2 day = getAllMeals s day) ∧
    (∀ (day : String) (m : Meal), day ≠ env.today → m ∈ getMealsByDate s day →
      m ∈ getMealsByDate (deleteMeal env mealId s).2 day) := by
  refine ⟨deleteMeal_no_bucket env mealId s, ?_, (deleteMeal_frame env mealId s).1, ?_⟩
  · intro bucket hb
    rw [deleteMeal_bucket env mealId s bucket hb]
    constructor
    · intro hw
      have e : getAllMeals (safeSetItem env STORAGE_KEYS.MEALS
          (fun st => { st with
            meals := some ((getAllMeals s).set env.today
              (bucket.filter (fun meal => meal.id ≠ mealId))) }) s).2 env.today
          = some (bucket.filter (fun meal => meal.id ≠ mealId)) := by
        simp [safeSetItem, hw, getAllMeals, DayMap.set]
      refine ⟨by simp [safeSetItem, hw], e, ?_, ?_⟩
      · intro m
        unfold getMealsByDate
        rw [e]
        simp
      · unfold getMealsByDate
        rw [e]
        exact List.filter_sublist bucket
    · intro hw
      simp [safeSetItem, hw]
  · intro day m hday hm
    unfold getMealsByDate at hm ⊢
    rw [(deleteMeal_frame env mealId s).1 day hday]
    exact hm

/-- Witness of C12 (amended): deleting the one record of `sampleStore` leaves an empty bucket
for today. -/
theorem C12_deleteMeal_today_only_witness :
    (deleteMeal sampleEnv 1762329600000 sampleStore).1 = true ∧
    getAllMeals (deleteMeal sampleEnv 1762329600000 sampleStore).2 sampleEnv.today
      = some ([sampleMeal].filter (fun meal => meal.id ≠ 1762329600000)) :=
  ⟨((C12_deleteMeal_today_only sampleEnv 1762329600000 sampleStore).2.1 [sampleMeal]
      (by simp [getAllMeals, sampleStore, sampleEnv, DayMap.set])).1 rfl |>.1,
   ((C12_deleteMeal_today_only sampleEnv 1762329600000 sampleStore).2.1 [sampleMeal]
      (by simp [getAllMeals, sampleStore, sampleEnv, DayMap.set])).1 rfl |>.2.1⟩

/-- C13: after a meal is added today with id `i` (writes succeeding, same day throughout), the
first `deleteMeal i` returns `true` and today's meals no longer hold a record with id `i`; a
second `deleteMeal i` also returns `true` and leaves the store exactly as the first call left
it. -/
theorem C13_deleteMeal_twice (e1 e2 e3 : Env) (s : Store) (name category : String)
    (calories : ℚ) (hn : name ≠ "") (hc : calories ≠ 0) (hcat : category ≠ "")
    (h12 : e2.today = e1.today) (h13 : e3.today = e1.today)
    (hw1 : e1.setItemOk STORAGE_KEYS.MEALS = true)
    (hw2 : e2.setItemOk STORAGE_KEYS.MEALS = true)
    (hw3 : e3.setItemOk STORAGE_KEYS.MEALS = true) :
    (addMeal e1 (MealDraft.mk (some name) (some calories) (some category)) s).1 = true ∧
    (Meal.mk name calories category e1.now e1.isoNow) ∈
      getTodayMeals e1 (addMeal e1 (MealDraft.mk (some name) (some calories)
        (some category)) s).2 ∧
    (deleteMeal e2 e1.now
      (addMeal e1 (MealDraft.mk (some name) (some calories) (some category)) s).2).1 = true ∧
    (∀ m : Meal, m ∈ getTodayMeals e2 (deleteMeal e2 e1.now
      (addMeal e1 (MealDraft.mk (some name) (some calories) (some category)) s).2).2 →
        m.id ≠ e1.now) ∧
    (deleteMeal e3 e1.now (deleteMeal e2 e1.now
      (addMeal e1 (MealDraft.mk (some name) (some calories) (some category)) s).2).2).1
        = true ∧
    getAllMeals (deleteMeal e3 e1.now (deleteMeal e2 e1.now
      (addMeal e1 (MealDraft.mk (some name) (some calories) (some category)) s).2).2).2
      = getAllMeals (deleteMeal e2 e1.now
          (addMeal e1 (MealDraft.mk (some name) (some calories) (some category)) s).2).2 ∧
    (deleteMeal e3 e1.now (deleteMeal e2 e1.now
      (addMeal e1 (MealDraft.mk (some name) (some calories) (some category)) s).2).2).2
      = (deleteMeal e2 e1.now
          (addMeal e1 (MealDraft.mk (some name) (some calories) (some category)) s).2).2 := by
  rw [addMeal_valid e1 s name category calories hn hc hcat]
  simp only [safeSetItem, hw1, if_true]
  set b1 := getMealsByDate s e1.today ++ [Meal.mk name calories category e1.now e1.isoNow]
    with hb1
  set s1 : Store := { s with meals := some ((getAllMeals s).set e1.today b1) } with hs1
  have g1 : getAllMeals s1 e2.today = some b1 := by
    simp [hs1, getAllMeals, DayMap.set, h12]
  rw [deleteMeal_bucket e2 e1.now s1 b1 g1]
  simp only [safeSetItem, hw2, if_true]
  set b2 := b1.filter (fun meal => meal.id ≠ e1.now) with hb2
  set s2 : Store := { s1 with meals := some ((getAllMeals s1).set e2.today b2) } with hs2
  have g2 : getAllMeals s2 e3.today = some b2 := by
    simp [hs2, getAllMeals, DayMap.set, h12, h13]
  rw [deleteMeal_bucket e3 e1.now s2 b2 g2]
  simp only [safeSetItem, hw3, if_true]
  have idem : b2.filter (fun meal => meal.id ≠ e1.now) = b2 := by
    rw [hb2, List.filter_filter]
    congr 1
    funext meal
    simp
  have same : (getAllMeals s2).set e3.today (b2.filter (fun meal => meal.id ≠ e1.now))
      = getAllMeals s2 := by
    rw [idem]
    funext k
    by_cases hk : k = e3.today
    · rw [hk, DayMap.set_same, g2]
    · rw [DayMap.set_other _ _ _ _ hk]
  refine ⟨trivial, ?_, trivial, ?_, trivial, ?_, ?_⟩
  · simp [getTodayMeals, getMealsByDate, getTodayDate, hs1, getAllMeals, DayMap.set, hb1]
  · intro m hm
    have : m ∈ b2 := by
      simpa [getTodayMeals, getMealsByDate, getTodayDate, hs2, getAllMeals, DayMap.set] using hm
    rw [hb2, List.mem_filter] at this
    simpa using this.2
  · rw [same]
    simp [getAllMeals]
  · rw [same]
    simp [hs2, getAllMeals]

/-- Witness of C13: the meal "Elma (1 adet)" added to the empty store and deleted twice. -/
theorem C13_deleteMeal_twice_witness :
    (deleteMeal sampleEnv sampleEnv.now (deleteMeal sampleEnv sampleEnv.now
      (addMeal sampleEnv (MealDraft.mk (some "Elma (1 adet)") (some 95)
        (some "ara_ogun")) Store.empty).2).2).2
      = (deleteMeal sampleEnv sampleEnv.now
          (addMeal sampleEnv (MealDraft.mk (some "Elma (1 adet)") (some 95)
            (some "ara_ogun")) Store.empty).2).2 :=
  (C13_deleteMeal_twice sampleEnv sampleEnv sampleEnv Store.empty "Elma (1 adet)" "ara_ogun" 95
    (by decide) (by norm_num) (by decide) rfl rfl rfl rfl rfl).2.2.2.2.2.2

/-- The loop `reduce((total, x) => total + f(x), a)` is `a` plus the sum of the `f(x)`. -/
theorem foldl_add_eq_sum {α : Type} (f : α → ℚ) (l : List α) (a : ℚ) :
    l.foldl (fun total x => total + f x) a = a + (l.map f).sum := by
  induction l generalizing a with
  | nil => simp
  | cons x xs ih =>
    simp only [List.foldl_cons, List.map_cons, List.sum_cons]
    rw [ih]
    ring

/-- C14: `getTodayTotalCalories()` is the sum of the calories of the records in the bucket
under today's date, 0 when that bucket is absent; it is the same for any two meal mappings
with the same bucket for today, so the records under other day keys contribute nothing. -/
theorem C14_getTodayTotalCalories_sum (env : Env) (s : Store) :
    getTodayTotalCalories env s
      = (((getAllMeals s env.today).getD []).map (fun meal => meal.calories)).sum ∧
    (getAllMeals s env.today = none → getTodayTotalCalories env s = 0) ∧
    (∀ s2 : Store, getAllMeals s2 env.today = getAllMeals s env.today →
      getTodayTotalCalories env s2 = getTodayTotalCalories env s) := by
  have e : ∀ st : Store, getTodayTotalCalories env st
      = (((getAllMeals st env.today).getD []).map (fun meal => meal.calories)).sum := by
    intro st
    unfold getTodayTotalCalories getTodayMeals getMealsByDate getTodayDate
    rw [foldl_add_eq_sum (fun meal : Meal => meal.calories)]
    simp
  refine ⟨e s, ?_, ?_⟩
  · intro h
    rw [e s, h]
    simp
  · intro s2 h
    rw [e s2, e s, h]

/-- Witness of C14: a store with a second record under another day has the total of today's
one record. -/
theorem C14_getTodayTotalCalories_sum_witness :
    getTodayTotalCalories sampleEnv
      { profile := none,
        meals := some ((DayMap.empty.set "2026-11-05" [sampleMeal]).set "2026-11-04"
          [sampleMeal, sampleMeal]),
        exercises := none, settings := none }
      = getTodayTotalCalories sampleEnv sampleStore :=
  (C14_getTodayTotalCalories_sum sampleEnv sampleStore).2.2 _
    (by simp [getAllMeals, sampleStore, sampleEnv, DayMap.set])

/-- C15: `getTodayCaloriesByCategory c` is the sum of the calories of those of today's meal
records whose category is `c`, and 0 when there is no such record. -/
theorem C15_getTodayCaloriesByCategory_sum (env : Env) (s : Store) (c : String) :
    getTodayCaloriesByCategory env s c
      = (((getTodayMeals env s).filter (fun meal => meal.category = c)).map
          (fun meal => meal.calories)).sum ∧
    ((∀ m : Meal, m ∈ getTodayMeals env s → m.category ≠ c) →
      getTodayCaloriesByCategory env s c = 0) := by
  have e : getTodayCaloriesByCategory env s c
      = (((getTodayMeals env s).filter (fun meal => meal.category = c)).map
          (fun meal => meal.calories)).sum := by
    unfold getTodayCaloriesByCategory
    rw [foldl_add_eq_sum (fun meal : Meal => meal.calories)]
    simp
  refine ⟨e, ?_⟩
  intro h
  rw [e]
  have : (getTodayMeals env s).filter (fun meal => meal.category = c) = [] := by
    rw [List.filter_eq_nil_iff]
    intro m hm
    simpa using h m hm
  rw [this]
  simp

/-- Witness of C15: `sampleStore` has no dinner record today. -/
theorem C15_getTodayCaloriesByCategory_sum_witness :
    getTodayCaloriesByCategory sampleEnv sampleStore "aksam" = 0 :=
  (C15_getTodayCaloriesByCategory_sum sampleEnv sampleStore "aksam").2
    (by
      intro m hm
      have : m = sampleMeal := by
        simpa [getTodayMeals, getMealsByDate, getAllMeals, getTodayDate, sampleStore,
          sampleEnv, DayMap.set] using hm
      rw [this]
      decide)

/-! ## Record store: validation and profile -/

/-- C16: `saveUserProfile`, `addMeal` and `addExercise` return `false` and leave the store as
it is when a required field of the draft is missing, empty or zero. -/
theorem C16_validation_before_mutation (env : Env) (s : Store) :
    (∀ d : ProfileDraft,
      (d.name = none ∨ d.name = some "" ∨ d.age = none ∨ d.age = some 0 ∨
       d.height = none ∨ d.height = some 0 ∨ d.weight = none ∨ d.weight = some 0 ∨
       d.gender = none ∨ d.gender = some "") →
      saveUserProfile env d s = (false, s)) ∧
    (∀ d : MealDraft,
      (d.name = none ∨ d.name = some "" ∨ d.calories = none ∨ d.calories = some 0 ∨
       d.category = none ∨ d.category = some "") →
      addMeal env d s = (false, s)) ∧
    (∀ d : ExerciseDraft,
      (d.name = none ∨ d.name = some "" ∨ d.duration = none ∨ d.duration = some 0 ∨
       d.caloriesBurned = none ∨ d.caloriesBurned = some 0) →
      addExercise env d s = (false, s)) := by
  refine ⟨?_, ?_, ?_⟩
  · rintro ⟨n, a, h, w, g⟩ hyp
    simp only at hyp
    cases n <;> cases a <;> cases h <;> cases w <;> cases g <;>
      simp_all [saveUserProfile]
  · rintro ⟨n, c, cat⟩ hyp
    simp only at hyp
    cases n <;> cases c <;> cases cat <;> simp_all [addMeal]
  · rintro ⟨n, d, t, c⟩ hyp
    simp only at hyp
    cases n <;> cases d <;> cases c <;> simp_all [addExercise]

/-- Witness of C16: a meal draft with zero calories (the entry "Su" of `foodDatabase`) is
refused. -/
theorem C16_validation_before_mutation_witness :
    addMeal sampleEnv { name := some "Su", calories := some 0, category := some "icecek" }
      sampleStore = (false, sampleStore) :=
  (C16_validation_before_mutation sampleEnv sampleStore).2.1
    { name := some "Su", calories := some 0, category := some "icecek" }
    (Or.inr (Or.inr (Or.inr (Or.inl rfl))))

/-- What `saveUserProfile` does with a draft that passes the validation. -/
theorem saveUserProfile_valid (env : Env) (s : Store) (name gender : String)
    (age height weight : ℚ) (hn : name ≠ "") (ha : age ≠ 0) (hh : height ≠ 0)
    (hw : weight ≠ 0) (hg : gender ≠ "") :
    saveUserProfile env (ProfileDraft.mk (some name) (some age) (some height) (some weight)
      (some gender)) s
      = safeSetItem env STORAGE_KEYS.USER_PROFILE
          (fun st => { st with
            profile := some (Profile.mk name age height weight gender env.isoNow) }) s := by
  simp [saveUserProfile, hn, ha, hh, hw, hg]

/-- C17: for a profile with the five fields present and non-empty/non-zero and a write that
succeeds, `saveUserProfile` returns `true`, and `getUserProfile()` afterwards is the profile
with these five fields and `savedAt` the time of the save, whatever profile the store held
before; the meal log, the exercise log and the settings are as before. -/
theorem C17_saveUserProfile_roundtrip (env : Env) (s : Store) (name gender : String)
    (age height weight : ℚ) (hn : name ≠ "") (ha : age ≠ 0) (hh : height ≠ 0)
    (hw : weight ≠ 0) (hg : gender ≠ "")
    (hset : env.setItemOk STORAGE_KEYS.USER_PROFILE = true) :
    (saveUserProfile env (ProfileDraft.mk (some name) (some age) (some height) (some weight)
      (some gender)) s).1 = true ∧
    getUserProfile (saveUserProfile env (ProfileDraft.mk (some name) (some age) (some height)
      (some weight) (some gender)) s).2
      = some (Profile.mk name age height weight gender env.isoNow) ∧
    (saveUserProfile env (ProfileDraft.mk (some name) (some age) (some height) (some weight)
      (some gender)) s).2.meals = s.meals ∧
    (saveUserProfile env (ProfileDraft.mk (some name) (some age) (some height) (some weight)
      (some gender)) s).2.exercises = s.exercises ∧
    (saveUserProfile env (ProfileDraft.mk (some name) (some age) (some height) (some weight)
      (some gender)) s).2.settings = s.settings := by
  rw [saveUserProfile_valid env s name gender age height weight hn ha hh hw hg]
  unfold safeSetItem
  rw [if_pos hset]
  exact ⟨rfl, rfl, rfl, rfl, rfl⟩

/-- Witness of C17: a profile saved over the empty store. -/
theorem C17_saveUserProfile_roundtrip_witness :
    getUserProfile (saveUserProfile sampleEnv (ProfileDraft.mk (some "Ayşe") (some 30)
      (some 165) (some 60) (some "female")) Store.empty).2
      = some (Profile.mk "Ayşe" 30 165 60 "female" sampleEnv.isoNow) :=
  (C17_saveUserProfile_roundtrip sampleEnv Store.empty "Ayşe" "female" 30 165 60 (by decide)
    (by norm_num) (by norm_num) (by norm_num) (by decide) rfl).2.1

/-- C18: after a `clearAllData()` that returns `true`, `getUserProfile()` is `null`,
`getTodayMeals()` and `getTodayExercises()` are empty, and the meal and exercise mappings
have no bucket for any day. -/
theorem C18_clearAllData_empties (env later : Env) (s : Store)
    (h : (clearAllData env s).1 = true) :
    getUserProfile (clearAllData env s).2 = none ∧
    getTodayMeals later (clearAllData env s).2 = [] ∧
    getTodayExercises later (clearAllData env s).2 = [] ∧
    (∀ day : String, getAllMeals (clearAllData env s).2 day = none ∧
      getMealsByDate (clearAllData env s).2 day = []) ∧
    (∀ day : String, getAllExercises (clearAllData env s).2 day = none ∧
      getExercisesByDate (clearAllData env s).2 day = []) ∧
    (clearAllData env s).2 = Store.empty := by
  have e : (clearAllData env s).2 = Store.empty := by
    unfold clearAllData at h ⊢
    split_ifs at h ⊢ with h1 h2 h3 h4
    rfl
  rw [e]
  refine ⟨rfl, rfl, rfl, fun _ => ⟨rfl, rfl⟩, fun _ => ⟨rfl, rfl⟩, rfl⟩

/-- Witness of C18: clearing `sampleStore`. -/
theorem C18_clearAllData_empties_witness :
    getUserProfile (clearAllData sampleEnv sampleStore).2 = none ∧
    getTodayMeals sampleEnv (clearAllData sampleEnv sampleStore).2 = [] :=
  ⟨(C18_clearAllData_empties sampleEnv sampleEnv sampleStore rfl).1,
   (C18_clearAllData_empties sampleEnv sampleEnv sampleStore rfl).2.1⟩

/-! ## Record store: ids -/

/-- A call of `addMeal` either refuses the draft and leaves the store, or has a valid draft
and writes today's bucket with the new record at the end. -/
theorem addMeal_cases (env : Env) (d : MealDraft) (s : Store) :
    addMeal env d s = (false, s) ∨
    ∃ name calories category, name ≠ "" ∧ calories ≠ 0 ∧ category ≠ "" ∧
      d = MealDraft.mk (some name) (some calories) (some category) ∧
      addMeal env d s = safeSetItem env STORAGE_KEYS.MEALS
          (fun st => { st with
            meals := some ((getAllMeals s).set env.today
              (getMealsByDate s env.today ++
                [Meal.mk name calories category env.now env.isoNow])) }) s := by
  obtain ⟨n, c, cat⟩ := d
  cases n with
  | none => left; simp [addMeal]
  | some name =>
    cases c with
    | none => left; simp [addMeal]
    | some calories =>
      cases cat with
      | none => left; simp [addMeal]
      | some category =>
        by_cases hv : name = "" ∨ calories = 0 ∨ category = ""
        · left; simp [addMeal, hv]
        · right
          have hv2 := hv
          simp only [not_or] at hv2
          obtain ⟨h1, h2, h3⟩ := hv2
          exact ⟨name, calories, category, h1, h2, h3, rfl,
            addMeal_valid env s name category calories h1 h2 h3⟩

/-- An `addMeal` whose `Date.now()` is not the id of a record of today keeps the ids of every
bucket pairwise distinct. -/
theorem addMeal_ids_nodup (env : Env) (d : MealDraft) (s : Store)
    (hfresh : ∀ m : Meal, m ∈ getMealsByDate s env.today → m.id ≠ env.now)
    (hnd : ∀ day : String, ((getMealsByDate s day).map (fun m => m.id)).Nodup) :
    ∀ day : String, ((getMealsByDate (addMeal env d s).2 day).map (fun m => m.id)).Nodup := by
  intro day
  rcases addMeal_cases env d s with h | ⟨name, calories, category, _, _, _, _, h⟩
  · rw [h]; exact hnd day
  · rw [h]
    unfold safeSetItem
    by_cases hw : env.setItemOk STORAGE_KEYS.MEALS = true
    · rw [if_pos hw]
      by_cases hday : day = env.today
      · have e : getMealsByDate
            { s with meals := some ((getAllMeals s).set env.today
                (getMealsByDate s env.today ++
                  [Meal.mk name calories category env.now env.isoNow])) } day
            = getMealsByDate s env.today ++
                [Meal.mk name calories category env.now env.isoNow] := by
          simp [getMealsByDate, getAllMeals, DayMap.set, hday]
        rw [e, List.map_append, List.nodup_append]
        refine ⟨hnd env.today, by simp, ?_⟩
        intro a ha hb
        simp only [List.map_cons, List.map_nil, List.mem_singleton] at hb
        obtain ⟨m, hm, rfl⟩ := List.mem_map.1 ha
        exact hfresh m hm hb
      · have e : getMealsByDate
            { s with meals := some ((getAllMeals s).set env.today
                (getMealsByDate s env.today ++
                  [Meal.mk name calories category env.now env.isoNow])) } day
            = getMealsByDate s day := by
          simp [getMealsByDate, getAllMeals, DayMap.set, hday]
        rw [e]; exact hnd day
    · rw [if_neg hw]; exact hnd day

/-- A `deleteMeal` keeps the ids of every bucket pairwise distinct. -/
theorem deleteMeal_ids_nodup (env : Env) (mealId : ℕ) (s : Store)
    (hnd : ∀ day : String, ((getMealsByDate s day).map (fun m => m.id)).Nodup) :
    ∀ day : String,
      ((getMealsByDate (deleteMeal env mealId s).2 day).map (fun m => m.id)).Nodup := by
  intro day
  by_cases hday : day = env.today
  · cases hb : getAllMeals s env.today with
    | none => rw [deleteMeal_no_bucket env mealId s hb]; exact hnd day
    | some bucket =>
      rw [deleteMeal_bucket env mealId s bucket hb]
      unfold safeSetItem
      by_cases hw : env.setItemOk STORAGE_KEYS.MEALS = true
      · rw [if_pos hw]
        have e : getMealsByDate
            { s with meals := some ((getAllMeals s).set env.today
                (bucket.filter (fun meal => meal.id ≠ mealId))) } day
            = bucket.filter (fun meal => meal.id ≠ mealId) := by
          simp [getMealsByDate, getAllMeals, DayMap.set, hday]
        rw [e]
        have h0 := hnd env.today
        unfold getMealsByDate at h0
        rw [hb] at h0
        exact (List.filter_sublist bucket).map (fun m => m.id) |>.nodup h0
      · rw [if_neg hw]; exact hnd day
  · unfold getMealsByDate
    rw [(deleteMeal_frame env mealId s).1 day hday]
    exact hnd day

/-- C19: two `addMeal` calls in the same millisecond of the same day (from the empty store)
leave today's bucket with two records of the same id, and the same holds of `addExercise`:
the id is `Date.now()`, which does not change within a clock tick. -/
theorem C19_same_tick_duplicate_ids :
    (getMealsByDate
      (runMealOps [MealOp.add sampleEnv sampleMealDraft, MealOp.add sampleEnv sampleMealDraft]
        Store.empty) "2026-11-05").map (fun m => m.id) = [1762329600000, 1762329600000] ∧
    ¬ ((getMealsByDate
      (runMealOps [MealOp.add sampleEnv sampleMealDraft, MealOp.add sampleEnv sampleMealDraft]
        Store.empty) "2026-11-05").map (fun m => m.id)).Nodup ∧
    (getExercisesByDate
      (runExerciseOps [ExerciseOp.add sampleEnv sampleExerciseDraft,
        ExerciseOp.add sampleEnv sampleExerciseDraft]
        Store.empty) "2026-11-05").map (fun ex => ex.id) = [1762329600000, 1762329600000] ∧
    ¬ ((getExercisesByDate
      (runExerciseOps [ExerciseOp.add sampleEnv sampleExerciseDraft,
        ExerciseOp.add sampleEnv sampleExerciseDraft]
        Store.empty) "2026-11-05").map (fun ex => ex.id)).Nodup := by
  have e1 : (getMealsByDate
      (runMealOps [MealOp.add sampleEnv sampleMealDraft, MealOp.add sampleEnv sampleMealDraft]
        Store.empty) "2026-11-05").map (fun m => m.id) = [1762329600000, 1762329600000] := by
    simp [runMealOps, MealOp.apply, addMeal, sampleMealDraft, sampleEnv, safeSetItem,
      getTodayDate, getAllMeals, getMealsByDate, Store.empty, DayMap.set, DayMap.empty]
  have e2 : (getExercisesByDate
      (runExerciseOps [ExerciseOp.add sampleEnv sampleExerciseDraft,
        ExerciseOp.add sampleEnv sampleExerciseDraft]
        Store.empty) "2026-11-05").map (fun ex => ex.id)
        = [1762329600000, 1762329600000] := by
    simp [runExerciseOps, ExerciseOp.apply, addExercise, sampleExerciseDraft, sampleEnv,
      safeSetItem, getTodayDate, getAllExercises, getExercisesByDate, Store.empty, DayMap.set,
      DayMap.empty]
  refine ⟨e1, ?_, e2, ?_⟩
  · rw [e1]; simp
  · rw [e2]; simp

/-! ## Record store: export and import -/

/-- C20 as stated fails in two ways. A stored profile with an empty name is exported, but the
`saveUserProfile` inside `importData` refuses it, so the profile is absent afterwards; and
when the writes of `importData` raise, it still returns `true` while the meal log of the
store is not restored. -/
theorem C20_roundtrip_counterexample :
    (getUserProfile sampleStoreEmptyName).isSome = true ∧
    (importData sampleEnv (some (exportData sampleEnv sampleStoreEmptyName))
      (clearAllData sampleEnv sampleStoreEmptyName).2).1 = true ∧
    getUserProfile (importData sampleEnv (some (exportData sampleEnv sampleStoreEmptyName))
      (clearAllData sampleEnv sampleStoreEmptyName).2).2 = none ∧
    getAllMeals sampleStore "2026-11-05" = some [sampleMeal] ∧
    (importData sampleEnvFull (some (exportData sampleEnv sampleStore))
      (clearAllData sampleEnv sampleStore).2).1 = true ∧
    getAllMeals (importData sampleEnvFull (some (exportData sampleEnv sampleStore))
      (clearAllData sampleEnv sampleStore).2).2 "2026-11-05" = none := by
  refine ⟨rfl, rfl, ?_, ?_, rfl, ?_⟩
  · simp [importData, exportData, clearAllData, sampleEnv, sampleStoreEmptyName,
      getUserProfile, saveUserProfile, Profile.toDraft, safeSetItem]
  · simp [getAllMeals, sampleStore, DayMap.set]
  · simp [importData, exportData, clearAllData, sampleEnv, sampleEnvFull, sampleStore,
      getUserProfile, getAllMeals, getAllExercises, safeSetItem, DayMap.empty]

/-- C20 (amended): let `S` be a store whose profile, if there is one, has its five required
fields non-empty/non-zero, and let the three writes of the import succeed. If
`d = exportData()` is taken in `S`, then after `clearAllData()` and `importData(d)` the call
returns `true`, `getAllMeals()` and `getAllExercises()` are the mappings of `S`, and
`getUserProfile()` is the profile of `S` with `savedAt` the time of the import (absent if `S`
had no profile). -/
theorem C20_export_import_roundtrip (envExport envClear envImport : Env) (S : Store)
    (hvalid : ∀ p : Profile, S.profile = some p →
      p.name ≠ "" ∧ p.age ≠ 0 ∧ p.height ≠ 0 ∧ p.weight ≠ 0 ∧ p.gender ≠ "")
    (hp : envImport.setItemOk STORAGE_KEYS.USER_PROFILE = true)
    (hm : envImport.setItemOk STORAGE_KEYS.MEALS = true)
    (he : envImport.setItemOk STORAGE_KEYS.EXERCISES = true) :
    (importData envImport (some (exportData envExport S)) (clearAllData envClear S).2).1
      = true ∧
    getAllMeals
      (importData envImport (some (exportData envExport S)) (clearAllData envClear S).2).2
      = getAllMeals S ∧
    getAllExercises
      (importData envImport (some (exportData envExport S)) (clearAllData envClear S).2).2
      = getAllExercises S ∧
    (S.profile = none → getUserProfile
      (importData envImport (some (exportData envExport S)) (clearAllData envClear S).2).2
      = none) ∧
    (∀ p : Profile, S.profile = some p → getUserProfile
      (importData envImport (some (exportData envExport S)) (clearAllData envClear S).2).2
      = some { p with savedAt := envImport.isoNow }) := by
  have hclear : S.profile = none → (clearAllData envClear S).2.profile = none := by
    intro h
    unfold clearAllData
    split_ifs <;> simp [h]
  refine ⟨rfl, ?_, ?_, ?_, ?_⟩
  · cases hprof : S.profile with
    | none =>
      simp [importData, exportData, getUserProfile, hprof, safeSetItem, hm, he, getAllMeals]
    | some p =>
      obtain ⟨h1, h2, h3, h4, h5⟩ := hvalid p hprof
      simp [importData, exportData, getUserProfile, hprof, safeSetItem, hm, he, getAllMeals]
  · cases hprof : S.profile with
    | none =>
      simp [importData, exportData, getUserProfile, hprof, safeSetItem, hm, he,
        getAllExercises]
    | some p =>
      simp [importData, exportData, getUserProfile, hprof, safeSetItem, hm, he,
        getAllExercises]
  · intro hprof
    have := hclear hprof
    simp [importData, exportData, getUserProfile, hprof, safeSetItem, hm, he, this]
  · intro p hprof
    obtain ⟨h1, h2, h3, h4, h5⟩ := hvalid p hprof
    simp [importData, exportData, getUserProfile, hprof, safeSetItem, hm, he, hp,
      saveUserProfile, Profile.toDraft, h1, h2, h3, h4, h5]

/-- Witness of C20 (amended): `sampleStore` survives the round trip. -/
theorem C20_export_import_roundtrip_witness :
    getAllMeals (importData sampleEnv (some (exportData sampleEnv sampleStore))
      (clearAllData sampleEnv sampleStore).2).2 = getAllMeals sampleStore :=
  (C20_export_import_roundtrip sampleEnv sampleEnv sampleEnv sampleStore
    (fun p h => absurd h (by simp [sampleStore])) rfl rfl rfl).2.1

/-! ## Record store: failures -/

/-- C21: when the text cannot be parsed (`JSON.parse` raises), `importData` returns `false`
and leaves the store, hence the profile, the meal mapping and the exercise mapping, as it
was; the function is total, so it does not raise. -/
theorem C21_importData_unparseable (env : Env) (s : Store) :
    (importData env none s).1 = false ∧
    (importData env none s).2 = s ∧
    getUserProfile (importData env none s).2 = getUserProfile s ∧
    getAllMeals (importData env none s).2 = getAllMeals s ∧
    getAllExercises (importData env none s).2 = getAllExercises s := by
  have e : importData env none s = (false, s) := by
    unfold importData
    rfl
  rw [e]
  exact ⟨rfl, rfl, rfl, rfl, rfl⟩

/-- A `setItem` that raises makes `safeSetItem` return `false` and leave the store. -/
theorem safeSetItem_fail (env : Env) (key : String) (write : Store → Store) (s : Store)
    (h : env.setItemOk key = false) : safeSetItem env key write s = (false, s) := by
  simp [safeSetItem, h]

/-- A call of `saveUserProfile` either refuses the draft and leaves the store, or writes a
profile under the profile key. -/
theorem saveUserProfile_cases (env : Env) (d : ProfileDraft) (s : Store) :
    saveUserProfile env d s = (false, s) ∨
    ∃ p : Profile, saveUserProfile env d s
      = safeSetItem env STORAGE_KEYS.USER_PROFILE (fun st => { st with profile := some p }) s := by
  obtain ⟨n, a, h, w, g⟩ := d
  cases n <;> cases a <;> cases h <;> cases w <;> cases g <;>
    try (left; simp [saveUserProfile]; done)
  rename_i name age height weight gender
  by_cases hv : name = "" ∨ age = 0 ∨ height = 0 ∨ weight = 0 ∨ gender = ""
  · left; simp [saveUserProfile, hv]
  · right
    exact ⟨Profile.mk name age height weight gender env.isoNow, by simp [saveUserProfile, hv]⟩

/-- What `addExercise` does with a draft that passes the validation. -/
theorem addExercise_valid (env : Env) (s : Store) (name : String) (type : Option String)
    (duration caloriesBurned : ℚ) (hn : name ≠ "") (hd : duration ≠ 0)
    (hc : caloriesBurned ≠ 0) :
    addExercise env (ExerciseDraft.mk (some name) (some duration) type (some caloriesBurned)) s
      = safeSetItem env STORAGE_KEYS.EXERCISES
          (fun st => { st with
            exercises := some ((getAllExercises s).set env.today
              (getExercisesByDate s env.today ++
                [ExerciseRecord.mk name duration type caloriesBurned env.now env.isoNow])) })
          s := by
  simp [addExercise, hn, hd, hc, getTodayDate, getExercisesByDate]

/-- A call of `addExercise` either refuses the draft and leaves the store, or writes the
exercise mapping. -/
theorem addExercise_cases (env : Env) (d : ExerciseDraft) (s : Store) :
    addExercise env d s = (false, s) ∨
    ∃ m : DayMap ExerciseRecord, addExercise env d s
      = safeSetItem env STORAGE_KEYS.EXERCISES (fun st => { st with exercises := some m }) s := by
  obtain ⟨n, du, t, c⟩ := d
  cases n <;> cases du <;> cases c <;> try (left; simp [addExercise]; done)
  rename_i name duration caloriesBurned
  by_cases hv : name = "" ∨ duration = 0 ∨ caloriesBurned = 0
  · left; simp [addExercise, hv]
  · right
    simp only [not_or] at hv
    exact ⟨_, addExercise_valid env s name t duration caloriesBurned hv.1 hv.2.1 hv.2.2⟩

/-- A call of `deleteExercise` either finds no bucket for today and leaves the store, or
writes the exercise mapping. -/
theorem deleteExercise_cases (env : Env) (exerciseId : ℕ) (s : Store) :
    deleteExercise env exerciseId s = (false, s) ∨
    ∃ m : DayMap ExerciseRecord, deleteExercise env exerciseId s
      = safeSetItem env STORAGE_KEYS.EXERCISES (fun st => { st with exercises := some m }) s := by
  cases hb : getAllExercises s env.today with
  | none => left; simp [deleteExercise, getTodayDate, hb]
  | some bucket =>
    right
    exact ⟨(getAllExercises s).set env.today (bucket.filter (fun ex => ex.id ≠ exerciseId)),
      by simp [deleteExercise, getTodayDate, hb]⟩

/-- C22: when the write raises, `saveUserProfile`, `addMeal`, `deleteMeal`, `addExercise` and
`deleteExercise` each return `false` and leave the store as it was before the call; the
functions are total, so none of them raises. -/
theorem C22_failed_write_leaves_store (env : Env) (s : Store) :
    (env.setItemOk STORAGE_KEYS.USER_PROFILE = false →
      ∀ d : ProfileDraft, saveUserProfile env d s = (false, s)) ∧
    (env.setItemOk STORAGE_KEYS.MEALS = false →
      (∀ d : MealDraft, addMeal env d s = (false, s)) ∧
      (∀ mealId : ℕ, deleteMeal env mealId s = (false, s))) ∧
    (env.setItemOk STORAGE_KEYS.EXERCISES = false →
      (∀ d : ExerciseDraft, addExercise env d s = (false, s)) ∧
      (∀ exerciseId : ℕ, deleteExercise env exerciseId s = (false, s))) := by
  refine ⟨?_, ?_, ?_⟩
  · intro hw d
    rcases saveUserProfile_cases env d s with h | ⟨p, h⟩
    · exact h
    · rw [h]; exact safeSetItem_fail env _ _ s hw
  · intro hw
    constructor
    · intro d
      rcases addMeal_cases env d s with h | ⟨_, _, _, _, _, _, _, h⟩
      · exact h
      · rw [h]; exact safeSetItem_fail env _ _ s hw
    · intro mealId
      cases hb : getAllMeals s env.today with
      | none => exact deleteMeal_no_bucket env mealId s hb
      | some bucket =>
        rw [deleteMeal_bucket env mealId s bucket hb]
        exact safeSetItem_fail env _ _ s hw
  · intro hw
    constructor
    · intro d
      rcases addExercise_cases env d s with h | ⟨m, h⟩
      · exact h
      · rw [h]; exact safeSetItem_fail env _ _ s hw
    · intro exerciseId
      rcases deleteExercise_cases env exerciseId s with h | ⟨m, h⟩
      · exact h
      · rw [h]; exact safeSetItem_fail env _ _ s hw

/-- Witness of C22: with a `setItem` that raises, a valid meal is not added to `sampleStore`
and its record is not deleted. -/
theorem C22_failed_write_leaves_store_witness :
    addMeal sampleEnvFull sampleMealDraft sampleStore = (false, sampleStore) ∧
    deleteMeal sampleEnvFull 1762329600000 sampleStore = (false, sampleStore) :=
  ⟨((C22_failed_write_leaves_store sampleEnvFull sampleStore).2.1 rfl).1 sampleMealDraft,
   ((C22_failed_write_leaves_store sampleEnvFull sampleStore).2.1 rfl).2 1762329600000⟩

/-- C23: the draft of one repetition of "Mekik" (0.4 kcal per repetition, so
`calculateExerciseCalories` gives `Math.round 0.4 = 0`) has a non-empty name, the positive
integer duration 1 and `caloriesBurned = 0`; `addExercise` takes the 0 for a missing field,
returns `false` and appends nothing, although the write would succeed. -/
theorem C23_addExercise_zero_calories_refused :
    calculateExerciseCalories
      (some (Exercise.mk "Mekik" (some 8.0) "tekrar" "Karın kaslarını çalıştırır" (some 0.4)))
      70 1 = 0 ∧
    sampleEnv.setItemOk STORAGE_KEYS.EXERCISES = true ∧
    addExercise sampleEnv
      (ExerciseDraft.mk (some "Mekik") (some 1) (some "tekrar") (some 0)) Store.empty
      = (false, Store.empty) ∧
    getTodayExercises sampleEnv (addExercise sampleEnv
      (ExerciseDraft.mk (some "Mekik") (some 1) (some "tekrar") (some 0)) Store.empty).2
      = [] := by
  have e : addExercise sampleEnv
      (ExerciseDraft.mk (some "Mekik") (some 1) (some "tekrar") (some 0)) Store.empty
      = (false, Store.empty) := by
    simp [addExercise]
  refine ⟨?_, rfl, e, ?_⟩
  · have r : mathRound (1 * 0.4) = ((0 : ℤ) : ℚ) :=
      (mathRound_eq_iff _ _).2 ⟨by norm_num, by norm_num⟩
    have h : calculateCaloriesBurnedByReps 1 (some 0.4) = 0 := by
      rw [calculateCaloriesBurnedByReps_pos 1 0.4 (by norm_num) (by norm_num), r]
      norm_num
    simp [calculateExerciseCalories, h]
  · rw [e]; rfl

/-- C24: whatever the store and the draft, `saveUserProfile` leaves the item of the meal
mapping and the item of the exercise mapping as they were, so every stored exercise record,
with its `caloriesBurned`, and the burned total of the day are as before. -/
theorem C24_saveUserProfile_frame (env later : Env) (d : ProfileDraft) (s : Store) :
    (saveUserProfile env d s).2.exercises = s.exercises ∧
    (saveUserProfile env d s).2.meals = s.meals ∧
    getAllExercises (saveUserProfile env d s).2 = getAllExercises s ∧
    getAllMeals (saveUserProfile env d s).2 = getAllMeals s ∧
    (∀ day : String,
      (getExercisesByDate (saveUserProfile env d s).2 day).map (fun ex => ex.caloriesBurned)
        = (getExercisesByDate s day).map (fun ex => ex.caloriesBurned)) ∧
    getTodayBurnedCalories later (saveUserProfile env d s).2 = getTodayBurnedCalories later s := by
  have key : (saveUserProfile env d s).2.exercises = s.exercises ∧
      (saveUserProfile env d s).2.meals = s.meals := by
    rcases saveUserProfile_cases env d s with h | ⟨p, h⟩
    · rw [h]; exact ⟨rfl, rfl⟩
    · rw [h]
      unfold safeSetItem
      split_ifs <;> exact ⟨rfl, rfl⟩
  have ex : getAllExercises (saveUserProfile env d s).2 = getAllExercises s := by
    unfold getAllExercises
    rw [key.1]
  have ml : getAllMeals (saveUserProfile env d s).2 = getAllMeals s := by
    unfold getAllMeals
    rw [key.2]
  refine ⟨key.1, key.2, ex, ml, ?_, ?_⟩
  · intro day
    unfold getExercisesByDate
    rw [ex]
  · unfold getTodayBurnedCalories getTodayExercises getExercisesByDate
    rw [ex]

/-! ## Range of the stored calories -/

/-- A record found after `addMeal` was there before or has the calories of the draft. -/
theorem addMeal_mem (env : Env) (d : MealDraft) (s : Store) (day : String) (m : Meal)
    (hm : m ∈ getMealsByDate (addMeal env d s).2 day) :
    m ∈ getMealsByDate s day ∨ some m.calories = d.calories := by
  rcases addMeal_cases env d s with h | ⟨name, calories, category, _, _, _, hd, h⟩
  · rw [h] at hm; exact Or.inl hm
  · rw [h] at hm
    unfold safeSetItem at hm
    by_cases hw : env.setItemOk STORAGE_KEYS.MEALS = true
    · rw [if_pos hw] at hm
      by_cases hday : day = env.today
      · have e : getMealsByDate
            { s with meals := some ((getAllMeals s).set env.today
                (getMealsByDate s env.today ++
                  [Meal.mk name calories category env.now env.isoNow])) } day
            = getMealsByDate s env.today ++
                [Meal.mk name calories category env.now env.isoNow] := by
          simp [getMealsByDate, getAllMeals, DayMap.set, hday]
        rw [e, List.mem_append, List.mem_singleton] at hm
        rcases hm with hm | hm
        · left; rw [hday]; exact hm
        · right; rw [hm, hd]
      · have e : getMealsByDate
            { s with meals := some ((getAllMeals s).set env.today
                (getMealsByDate s env.today ++
                  [Meal.mk name calories category env.now env.isoNow])) } day
            = getMealsByDate s day := by
          simp [getMealsByDate, getAllMeals, DayMap.set, hday]
        rw [e] at hm; exact Or.inl hm
    · rw [if_neg hw] at hm; exact Or.inl hm

/-- C25 as stated fails: `addMeal` takes a draft with 6000 calories (and one with -5), returns
`true` and stores the record; it only tests that the calories are not missing or zero. -/
theorem C25_out_of_range_counterexample :
    ¬ ((6000 : ℚ) ≤ 5000) ∧
    (addMeal sampleEnv (MealDraft.mk (some "Pizza") (some 6000) (some "aksam"))
      Store.empty).1 = true ∧
    getTodayMeals sampleEnv (addMeal sampleEnv
      (MealDraft.mk (some "Pizza") (some 6000) (some "aksam")) Store.empty).2
      = [Meal.mk "Pizza" 6000 "aksam" sampleEnv.now sampleEnv.isoNow] ∧
    (addMeal sampleEnv (MealDraft.mk (some "Pizza") (some (-5)) (some "aksam"))
      Store.empty).1 = true := by
  refine ⟨by norm_num, ?_, ?_, ?_⟩
  · rw [addMeal_valid sampleEnv Store.empty "Pizza" "aksam" 6000 (by decide) (by norm_num)
      (by decide)]
    rfl
  · rw [addMeal_valid sampleEnv Store.empty "Pizza" "aksam" 6000 (by decide) (by norm_num)
      (by decide)]
    simp [safeSetItem, sampleEnv, getTodayMeals, getMealsByDate, getAllMeals, getTodayDate,
      DayMap.set, Store.empty, DayMap.empty]
  · rw [addMeal_valid sampleEnv Store.empty "Pizza" "aksam" (-5) (by decide) (by norm_num)
      (by decide)]
    rfl

/-- C25 (amended): `addMeal` returns `false` and writes nothing for every draft whose
calories are missing or zero; `handleAddMeal` leaves the store as it is when the parsed
calories are `NaN` or outside 1 to 5000, and every meal record it adds has calories between 1
and 5000. -/
theorem C25_calories_range (env : Env) (s : Store) :
    (∀ d : MealDraft, (d.calories = none ∨ d.calories = some 0) →
      addMeal env d s = (false, s)) ∧
    (∀ (category : Option String) (name : String) (calories : Option ℤ),
      (calories = none ∨ ∃ c : ℤ, calories = some c ∧ (c < 1 ∨ 5000 < c)) →
      handleAddMeal env category name calories s = s) ∧
    (∀ (category : Option String) (name : String) (calories : Option ℤ) (day : String)
      (m : Meal), m ∈ getMealsByDate (handleAddMeal env category name calories s) day →
      m ∈ getMealsByDate s day ∨ (1 ≤ m.calories ∧ m.calories ≤ 5000)) := by
  refine ⟨?_, ?_, ?_⟩
  · rintro ⟨n, c, cat⟩ hyp
    simp only at hyp
    cases n <;> cases c <;> cases cat <;> simp_all [addMeal]
  · intro category name calories hyp
    unfold handleAddMeal
    split_ifs with h1
    · rfl
    · rcases hyp with hyp | ⟨c, hyp, hc⟩
      · rw [hyp]
      · rw [hyp]
        simp only
        rw [if_pos]
        rcases hc with hc | hc
        · left; omega
        · right; exact hc
  · intro category name calories day m hm
    unfold handleAddMeal at hm
    split_ifs at hm with h1
    · exact Or.inl hm
    · cases calories with
      | none => exact Or.inl hm
      | some c =>
        simp only at hm
        split_ifs at hm with h2
        · exact Or.inl hm
        · rcases addMeal_mem env _ s day m hm with h | h
          · exact Or.inl h
          · right
            simp only [Option.some.injEq] at h
            rw [h]
            simp only [not_or, not_le, not_lt] at h2
            constructor
            · exact_mod_cast (by omega : (1 : ℤ) ≤ c)
            · exact_mod_cast h2.2

/-- Witness of C25 (amended): `handleAddMeal` with 6000 calories leaves `sampleStore`. -/
theorem C25_calories_range_witness :
    handleAddMeal sampleEnv (some "aksam") "Pizza" (some 6000) sampleStore = sampleStore :=
  (C25_calories_range sampleEnv sampleStore).2.1 (some "aksam") "Pizza" (some 6000)
    (Or.inr ⟨6000, rfl, Or.inr (by norm_num)⟩)

/-! ## Out-of-domain days -/

/-- C26: for `days = 0` the returned `dailyCalorieChange` is never a finite number: it is
`-Infinity` for `(80, 75, 0)`, `Infinity` for `(75, 80, 0)` and `NaN` for `(80, 80, 0)`; there
is no guard on `days`, and the quotient by zero is rounded and returned. -/
theorem C26_calculateWeightGoal_days_zero :
    (∀ c t q : ℚ, (calculateWeightGoal c t 0).dailyCalorieChange ≠ JSNumber.fin q) ∧
    (calculateWeightGoal 80 75 0).dailyCalorieChange = JSNumber.negInf ∧
    (calculateWeightGoal 75 80 0).dailyCalorieChange = JSNumber.posInf ∧
    (calculateWeightGoal 80 80 0).dailyCalorieChange = JSNumber.nan ∧
    (calculateWeightGoal 80 75 0).recommendation = tooAggressive := by
  refine ⟨?_, ?_, ?_, ?_, ?_⟩
  · intro c t q
    unfold calculateWeightGoal JSNumber.div
    simp only [if_true]
    split_ifs <;> simp [JSNumber.round]
  · norm_num [calculateWeightGoal, JSNumber.div, JSNumber.round]
  · norm_num [calculateWeightGoal, JSNumber.div, JSNumber.round]
  · norm_num [calculateWeightGoal, JSNumber.div, JSNumber.round]
  · norm_num [calculateWeightGoal, JSNumber.div, JSNumber.abs, JSNumber.gt]

/-! ## Profile validation -/

/-- The range test passes exactly on a number (not `NaN`) inside the closed range. -/
theorem outOfRange_eq_false_iff (x : Option ℚ) (lo hi : ℚ) :
    outOfRange x lo hi = false ↔ ∃ v : ℚ, x = some v ∧ lo ≤ v ∧ v ≤ hi := by
  cases x with
  | none => simp [outOfRange]
  | some v => simp [outOfRange, not_or, not_lt]

/-- What `validateProfileData` accepts, with the length of the name as `name.length` of
JavaScript reports it. -/
theorem validateProfileData_eq_true_iff (name gender : String)
    (age height weight : Option ℚ) :
    validateProfileData name age height weight gender = true ↔
      2 ≤ jsLength name ∧
      (∃ a : ℚ, age = some a ∧ 10 ≤ a ∧ a ≤ 120) ∧
      (∃ h : ℚ, height = some h ∧ 100 ≤ h ∧ h ≤ 250) ∧
      (∃ w : ℚ, weight = some w ∧ 30 ≤ w ∧ w ≤ 300) ∧
      (gender = "male" ∨ gender = "female") := by
  have hname : (name = "" ∨ jsLength name < 2) ↔ ¬ 2 ≤ jsLength name := by
    constructor
    · rintro (h | h)
      · rw [h]; decide
      · omega
    · intro h; right; omega
  have hgender : (gender ≠ "male" ∧ gender ≠ "female") ↔
      ¬ (gender = "male" ∨ gender = "female") := by
    rw [not_or]
  rw [← outOfRange_eq_false_iff, ← outOfRange_eq_false_iff, ← outOfRange_eq_false_iff]
  unfold validateProfileData
  constructor
  · intro h
    split_ifs at h with h1 h2 h3 h4 h5
    refine ⟨?_, ?_, ?_, ?_, ?_⟩
    · exact not_not.1 (fun hn => h1 (hname.2 hn))
    · simpa using h2
    · simpa using h3
    · simpa using h4
    · exact not_not.1 (fun hg => h5 (hgender.2 hg))
  · rintro ⟨hn, ha, hh, hw, hg⟩
    rw [if_neg (fun h => hname.1 h hn), if_neg (by simp [ha]), if_neg (by simp [hh]),
      if_neg (by simp [hw]), if_neg (fun h => hgender.1 h hg)]

/-- The property `length` of a name is at least 2 exactly when the name has two characters or
more, or is one character outside the basic plane (which takes two UTF-16 code units). -/
theorem two_le_jsLength_iff (name : String) :
    2 ≤ jsLength name ↔
      (2 ≤ name.length ∨ ∃ ch : Char, name = String.singleton ch ∧ 65536 ≤ ch.toNat) := by
  obtain ⟨l⟩ := name
  cases l with
  | nil =>
    constructor
    · intro h
      exact absurd h (by decide)
    · rintro (h | ⟨ch, h, _⟩)
      · exact absurd h (by decide)
      · have := congrArg String.data h
        simp [String.singleton] at this
  | cons a l =>
    cases l with
    | nil =>
      have e : jsLength (String.mk [a]) = if a.toNat < 65536 then 1 else 2 := by
        simp [jsLength]
      have len : (String.mk [a]).length = 1 := rfl
      rw [e, len]
      constructor
      · intro h
        right
        refine ⟨a, rfl, ?_⟩
        by_contra hn
        rw [if_pos (by omega)] at h
        omega
      · rintro (h | ⟨ch, h, hc⟩)
        · omega
        · have : a = ch := by
            have := congrArg String.data h
            simpa [String.singleton] using this
          rw [this, if_neg (by omega)]
    | cons b l =>
      have len : 2 ≤ (String.mk (a :: b :: l)).length := by
        simp [String.length]
      have e : 2 ≤ jsLength (String.mk (a :: b :: l)) := by
        have h1 : ∀ c : Char, 1 ≤ (if c.toNat < 65536 then 1 else 2 : ℕ) := by
          intro c; split_ifs <;> omega
        have h0 : 0 ≤ (l.map (fun c : Char => if c.toNat < 65536 then 1 else 2)).sum :=
          Nat.zero_le _
        have ha := h1 a
        have hb := h1 b
        simp only [jsLength, List.map_cons, List.sum_cons]
        omega
      exact ⟨fun _ => Or.inl len, fun _ => e⟩

/-- C27 as stated fails: the name made of the single character U+1F600 has one character and
is accepted, with age 30, height 175, weight 70 and gender `'male'`. -/
theorem C27_single_character_counterexample :
    (String.singleton (Char.ofNat 128512)).length = 1 ∧
    validateProfileData (String.singleton (Char.ofNat 128512)) (some 30) (some 175) (some 70)
      "male" = true := by
  constructor
  · rfl
  · have hn : ¬ (String.singleton (Char.ofNat 128512) = "" ∨
        jsLength (String.singleton (Char.ofNat 128512)) < 2) := by decide
    unfold validateProfileData
    rw [if_neg hn]
    norm_num [outOfRange]

/-- C27 (amended): `validateProfileData` returns `true` if and only if the name has at least 2
characters or is a single character outside the basic plane (U+10000 and above, which
`name.length` counts as 2), the age is a number from 10 to 120, the height a number from 100
to 250, the weight a number from 30 to 300 and the gender is `'male'` or `'female'`. -/
theorem C27_validateProfileData_code_units (name gender : String)
    (age height weight : Option ℚ) :
    validateProfileData name age height weight gender = true ↔
      (2 ≤ name.length ∨ ∃ ch : Char, name = String.singleton ch ∧ 65536 ≤ ch.toNat) ∧
      (∃ a : ℚ, age = some a ∧ 10 ≤ a ∧ a ≤ 120) ∧
      (∃ h : ℚ, height = some h ∧ 100 ≤ h ∧ h ≤ 250) ∧
      (∃ w : ℚ, weight = some w ∧ 30 ≤ w ∧ w ≤ 300) ∧
      (gender = "male" ∨ gender = "female") := by
  rw [validateProfileData_eq_true_iff, two_le_jsLength_iff]

/-! ## Table bounds of the BMI categories -/

/-- C28: for every BMI value with at most one decimal place, `n / 10` with `n` an integer, the
entry that `getBMICategory` returns has the value within its recorded bounds: not above `max`
when the entry has one, not below `min` when it has one; `calculateBMI` only returns such
values, so this holds of `getBMICategory (calculateBMI w h)`. -/
theorem C28_category_within_table_bounds :
    (∀ n : ℤ,
      (∀ mx : ℚ, (getBMICategory ((n : ℚ) / 10)).max = some mx → (n : ℚ) / 10 ≤ mx) ∧
      (∀ mn : ℚ, (getBMICategory ((n : ℚ) / 10)).min = some mn → mn ≤ (n : ℚ) / 10)) ∧
    (∀ w h : ℚ, ∃ n : ℤ, calculateBMI w h = (n : ℚ) / 10) ∧
    (∀ w h : ℚ,
      (∀ mx : ℚ, (getBMICategory (calculateBMI w h)).max = some mx → calculateBMI w h ≤ mx) ∧
      (∀ mn : ℚ, (getBMICategory (calculateBMI w h)).min = some mn → mn ≤ calculateBMI w h)) := by
  have tenth : ∀ n : ℤ,
      (∀ mx : ℚ, (getBMICategory ((n : ℚ) / 10)).max = some mx → (n : ℚ) / 10 ≤ mx) ∧
      (∀ mn : ℚ, (getBMICategory ((n : ℚ) / 10)).min = some mn → mn ≤ (n : ℚ) / 10) := by
    intro n
    unfold getBMICategory
    split_ifs with h1 h2 h3
    · constructor
      · intro mx hmx
        simp only [bmiCategories.underweight, Option.some.injEq] at hmx
        rw [← hmx]; exact le_of_lt h1
      · intro mn hmn
        simp [bmiCategories.underweight] at hmn
    · constructor
      · intro mx hmx
        simp only [bmiCategories.normal, Option.some.injEq] at hmx
        rw [← hmx]
        have h : (n : ℚ) < 250 := by linarith [h2.2]
        have h' : n ≤ 249 := by
          have : n < 250 := by exact_mod_cast h
          omega
        have h'' : (n : ℚ) ≤ 249 := by exact_mod_cast h'
        norm_num
        linarith
      · intro mn hmn
        simp only [bmiCategories.normal, Option.some.injEq] at hmn
        rw [← hmn]; exact h2.1
    · constructor
      · intro mx hmx
        simp only [bmiCategories.overweight, Option.some.injEq] at hmx
        rw [← hmx]
        have h : (n : ℚ) < 300 := by linarith [h3.2]
        have h' : n ≤ 299 := by
          have : n < 300 := by exact_mod_cast h
          omega
        have h'' : (n : ℚ) ≤ 299 := by exact_mod_cast h'
        norm_num
        linarith
      · intro mn hmn
        simp only [bmiCategories.overweight, Option.some.injEq] at hmn
        rw [← hmn]; exact h3.1
    · constructor
      · intro mx hmx
        simp [bmiCategories.obese] at hmx
      · intro mn hmn
        simp only [bmiCategories.obese, Option.some.injEq] at hmn
        rw [← hmn]
        by_contra hlt
        have hlt' : (n : ℚ) / 10 < 30 := not_le.1 hlt
        by_cases h25 : (25 : ℚ) ≤ (n : ℚ) / 10
        · exact h3 ⟨h25, hlt'⟩
        · have h25' : (n : ℚ) / 10 < 25 := not_le.1 h25
          by_cases h185 : (18.5 : ℚ) ≤ (n : ℚ) / 10
          · exact h2 ⟨h185, h25'⟩
          · exact h1 (not_le.1 h185)
  have isTenth : ∀ w h : ℚ, ∃ n : ℤ, calculateBMI w h = (n : ℚ) / 10 := by
    intro w h
    unfold calculateBMI
    split_ifs
    · exact ⟨0, by norm_num⟩
    · exact ⟨⌊w / (h / 100 * (h / 100)) * 10 + 1 / 2⌋, rfl⟩
  refine ⟨tenth, isTenth, ?_⟩
  intro w h
  obtain ⟨n, hn⟩ := isTenth w h
  rw [hn]
  exact tenth n

/-- Witness of C28: the value 24.9 falls in the entry "Normal", whose `max` is 24.9. -/
theorem C28_category_within_table_bounds_witness :
    ((249 : ℤ) : ℚ) / 10 ≤ 24.9 :=
  (C28_category_within_table_bounds.1 249).1 24.9 (by
    have e : getBMICategory (((249 : ℤ) : ℚ) / 10) = bmiCategories.normal := by
      unfold getBMICategory
      rw [if_neg (by norm_num), if_pos (by norm_num)]
    rw [e]
    rfl)

/-! ## The catalogs and the store -/

/-- From one half on, `Math.round` gives at least 1. -/
theorem mathRound_ge_one (x : ℚ) (h : 1 / 2 ≤ x) : 1 ≤ mathRound x := by
  unfold mathRound
  have : (1 : ℤ) ≤ ⌊x + 1 / 2⌋ := Int.le_floor.2 (by push_cast; linarith)
  exact_mod_cast this

/-- On a non-negative number `Math.round` gives a natural number. -/
theorem mathRound_nat (x : ℚ) (h : 0 ≤ x) : ∃ k : ℕ, mathRound x = (k : ℚ) := by
  unfold mathRound
  have h0 : (0 : ℤ) ≤ ⌊x + 1 / 2⌋ := Int.le_floor.2 (by push_cast; linarith)
  refine ⟨⌊x + 1 / 2⌋.toNat, ?_⟩
  have : ((⌊x + 1 / 2⌋.toNat : ℤ) : ℚ) = ((⌊x + 1 / 2⌋ : ℤ) : ℚ) := by
    rw [Int.toNat_of_nonneg h0]
  exact_mod_cast this.symm

/-- Every entry of `exerciseDatabase` has a name, and is either a duration entry with a MET of
at least 2.3 or a repetition entry with at least 0.5 kcal per repetition, but for "Mekik"
with 0.4 kcal per repetition. -/
theorem exerciseDatabase_entries (e : Exercise) (he : e ∈ exerciseDatabase) :
    e.name ≠ "" ∧
    ((e.type = "sure" ∧ ∃ m : ℚ, e.met = some m ∧ 23 / 10 ≤ m) ∨
     (e.type = "tekrar" ∧ ∃ c : ℚ, e.caloriesPerRep = some c ∧
        (1 / 2 ≤ c ∨ (c = 2 / 5 ∧ e.name = "Mekik")))) := by
  simp only [exerciseDatabase, List.mem_cons, List.mem_singleton, List.not_mem_nil,
    or_false] at he
  rcases he with rfl | rfl | rfl | rfl | rfl | rfl | rfl | rfl | rfl | rfl | rfl | rfl | rfl | rfl | rfl | rfl | rfl | rfl | rfl | rfl | rfl
  all_goals
    refine ⟨by decide, ?_⟩
    first
    | (left; refine ⟨rfl, _, rfl, ?_⟩; norm_num)
    | (right; refine ⟨rfl, _, rfl, ?_⟩; left; norm_num; done)
    | (right; refine ⟨rfl, _, rfl, ?_⟩; right; refine ⟨?_, rfl⟩; norm_num)

/-- C29 as stated fails: for the entry "Mekik" (0.4 kcal per repetition), weight 70 and one
repetition, `calculateExerciseCalories` returns `Math.round 0.4 = 0`, which is not positive. -/
theorem C29_mekik_one_repetition_counterexample :
    Exercise.mk "Mekik" (some 8.0) "tekrar" "Karın kaslarını çalıştırır" (some 0.4)
      ∈ exerciseDatabase ∧
    (30 : ℚ) ≤ 70 ∧ (70 : ℚ) ≤ 300 ∧
    calculateExerciseCalories
      (some (Exercise.mk "Mekik" (some 8.0) "tekrar" "Karın kaslarını çalıştırır" (some 0.4)))
      70 ((1 : ℤ) : ℚ) = 0 ∧
    ¬ (0 < calculateExerciseCalories
      (some (Exercise.mk "Mekik" (some 8.0) "tekrar" "Karın kaslarını çalıştırır" (some 0.4)))
      70 ((1 : ℤ) : ℚ)) := by
  have r : mathRound (1 * 0.4) = ((0 : ℤ) : ℚ) :=
    (mathRound_eq_iff _ _).2 ⟨by norm_num, by norm_num⟩
  have h : calculateCaloriesBurnedByReps 1 (some 0.4) = 0 := by
    rw [calculateCaloriesBurnedByReps_pos 1 0.4 (by norm_num) (by norm_num), r]
    norm_num
  have e : calculateExerciseCalories
      (some (Exercise.mk "Mekik" (some 8.0) "tekrar" "Karın kaslarını çalıştırır" (some 0.4)))
      70 ((1 : ℤ) : ℚ) = 0 := by
    simp [calculateExerciseCalories, h]
  refine ⟨List.Mem.tail _ (List.Mem.head _), by norm_num, by norm_num, e, ?_⟩
  rw [e]; norm_num

/-- C29 (amended): for every entry of `exerciseDatabase`, every weight from 30 to 300 and
every integer value from 1 to 1000, `calculateExerciseCalories` returns a non-negative
integer; except for "Mekik" with value 1 it is positive, and then the draft built from it is
accepted by `addExercise` when the write succeeds, the record going to the end of today's
bucket. -/
theorem C29_catalog_calories (e : Exercise) (he : e ∈ exerciseDatabase) (w : ℚ) (v : ℤ)
    (hw1 : 30 ≤ w) (_hw2 : w ≤ 300) (hv1 : 1 ≤ v) (_hv2 : v ≤ 1000) :
    (∃ k : ℕ, calculateExerciseCalories (some e) w (v : ℚ) = (k : ℚ)) ∧
    (¬ (e.name = "Mekik" ∧ v = 1) →
      0 < calculateExerciseCalories (some e) w (v : ℚ) ∧
      ∀ (env : Env) (s : Store), env.setItemOk STORAGE_KEYS.EXERCISES = true →
        (addExercise env (ExerciseDraft.mk (some e.name) (some (v : ℚ)) (some e.type)
          (some (calculateExerciseCalories (some e) w (v : ℚ)))) s).1 = true ∧
        getTodayExercises env (addExercise env (ExerciseDraft.mk (some e.name)
          (some (v : ℚ)) (some e.type)
          (some (calculateExerciseCalories (some e) w (v : ℚ)))) s).2
          = getTodayExercises env s ++
            [ExerciseRecord.mk e.name (v : ℚ) (some e.type)
              (calculateExerciseCalories (some e) w (v : ℚ)) env.now env.isoNow]) := by
  have hvq : (1 : ℚ) ≤ (v : ℚ) := by exact_mod_cast hv1
  have hv0 : (0 : ℚ) < (v : ℚ) := by linarith
  have hw0 : (0 : ℚ) < w := by linarith
  obtain ⟨hname, hkind⟩ := exerciseDatabase_entries e he
  have accept : 0 < calculateExerciseCalories (some e) w (v : ℚ) →
      ∀ (env : Env) (s : Store), env.setItemOk STORAGE_KEYS.EXERCISES = true →
        (addExercise env (ExerciseDraft.mk (some e.name) (some (v : ℚ)) (some e.type)
          (some (calculateExerciseCalories (some e) w (v : ℚ)))) s).1 = true ∧
        getTodayExercises env (addExercise env (ExerciseDraft.mk (some e.name)
          (some (v : ℚ)) (some e.type)
          (some (calculateExerciseCalories (some e) w (v : ℚ)))) s).2
          = getTodayExercises env s ++
            [ExerciseRecord.mk e.name (v : ℚ) (some e.type)
              (calculateExerciseCalories (some e) w (v : ℚ)) env.now env.isoNow] := by
    intro hpos env s hset
    rw [addExercise_valid env s e.name (some e.type) (v : ℚ) _ hname (ne_of_gt hv0)
      (ne_of_gt hpos)]
    simp [safeSetItem, hset, getTodayExercises, getExercisesByDate, getAllExercises,
      getTodayDate, DayMap.set]
  rcases hkind with ⟨ht, m, hm, hm23⟩ | ⟨ht, c, hc, hcs⟩
  · have hm0 : (0 : ℚ) < m := by linarith
    have val : calculateExerciseCalories (some e) w (v : ℚ) = mathRound (m * w * v / 60) := by
      unfold calculateExerciseCalories
      simp only
      rw [if_neg (by simp [ne_of_gt hw0, ne_of_gt hv0]), if_pos ht, hm,
        calculateCaloriesBurnedByDuration_pos m w v hm0 hw0 hv0]
    have big : (69 : ℚ) ≤ m * w * v := by
      have h1 : (23 / 10 : ℚ) * 30 ≤ m * w :=
        mul_le_mul hm23 hw1 (by norm_num) (le_of_lt hm0)
      have h2 : m * w * 1 ≤ m * w * v :=
        mul_le_mul_of_nonneg_left hvq (le_of_lt (mul_pos hm0 hw0))
      linarith
    have pos : 0 < calculateExerciseCalories (some e) w (v : ℚ) := by
      rw [val]
      have := mathRound_ge_one (m * w * v / 60) (by linarith)
      linarith
    refine ⟨?_, fun _ => ⟨pos, accept pos⟩⟩
    rw [val]
    exact mathRound_nat _ (by linarith)
  · have hc0 : (0 : ℚ) < c := by
      rcases hcs with h | ⟨h, _⟩
      · linarith
      · rw [h]; norm_num
    have val : calculateExerciseCalories (some e) w (v : ℚ) = mathRound (v * c) := by
      unfold calculateExerciseCalories
      simp only
      rw [if_neg (by simp [ne_of_gt hw0, ne_of_gt hv0]), if_neg (by rw [ht]; decide),
        if_pos ht, hc, calculateCaloriesBurnedByReps_pos v c hv0 hc0]
    refine ⟨?_, fun hnot => ?_⟩
    · rw [val]
      exact mathRound_nat _ (le_of_lt (mul_pos hv0 hc0))
    · have pos : 0 < calculateExerciseCalories (some e) w (v : ℚ) := by
        rw [val]
        have half : (1 / 2 : ℚ) ≤ v * c := by
          rcases hcs with h | ⟨h, hmek⟩
          · have : (1 : ℚ) * (1 / 2) ≤ v * c := mul_le_mul hvq h (by norm_num) (le_of_lt hv0)
            linarith
          · have hv2' : (2 : ℤ) ≤ v := by
              by_contra hlt
              exact hnot ⟨hmek, by omega⟩
            have hv2q : (2 : ℚ) ≤ (v : ℚ) := by exact_mod_cast hv2'
            rw [h]
            linarith
        have := mathRound_ge_one (v * c) half
        linarith
      exact ⟨pos, accept pos⟩

/-- Witness of C29 (amended): "Koşu (Yavaş)" at 70 kg for 30 minutes burns a positive number
of calories. -/
theorem C29_catalog_calories_witness :
    0 < calculateExerciseCalories
      (some (Exercise.mk "Koşu (Yavaş)" (some 7.0) "sure" "Orta yoğunlukta kardiyo" none))
      70 ((30 : ℤ) : ℚ) :=
  ((C29_catalog_calories
    (Exercise.mk "Koşu (Yavaş)" (some 7.0) "sure" "Orta yoğunlukta kardiyo" none)
    (List.Mem.tail _ (List.Mem.tail _ (List.Mem.tail _ (List.Mem.tail _ (List.Mem.tail _
      (List.Mem.tail _ (List.Mem.tail _ (List.Mem.head _))))))))
    70 30 (by norm_num) (by norm_num) (by norm_num)
    (by norm_num)).2 (by simp)).1

/-- Every entry of `foodDatabase` has a name, and non-zero calories unless it is "Su". -/
theorem foodDatabase_entries (f : Food) (hf : f ∈ foodDatabase) :
    f.name ≠ "" ∧ (f.calories ≠ 0 ∨ f.name = "Su") := by
  simp only [foodDatabase, List.mem_cons, List.mem_singleton, List.not_mem_nil,
    or_false] at hf
  rcases hf with rfl | rfl | rfl | rfl | rfl | rfl | rfl | rfl | rfl | rfl | rfl | rfl | rfl | rfl | rfl | rfl | rfl | rfl | rfl | rfl | rfl | rfl | rfl | rfl | rfl | rfl | rfl | rfl | rfl | rfl | rfl | rfl | rfl | rfl | rfl | rfl | rfl | rfl | rfl | rfl | rfl | rfl | rfl | rfl | rfl | rfl | rfl | rfl | rfl | rfl
  all_goals
    refine ⟨by decide, ?_⟩
    first
    | (left; norm_num; done)
    | (right; rfl)

/-- Every entry of `foodDatabase` other than "Su" is accepted by `addMeal` under every
non-empty category when the write succeeds. -/
theorem addMeal_foodDatabase (f : Food) (hf : f ∈ foodDatabase) (hsu : f.name ≠ "Su")
    (category : String) (hcat : category ≠ "") (env : Env) (s : Store)
    (hset : env.setItemOk STORAGE_KEYS.MEALS = true) :
    (addMeal env (MealDraft.mk (some f.name) (some f.calories) (some category)) s).1
      = true := by
  obtain ⟨hn, hc⟩ := foodDatabase_entries f hf
  have hc0 : f.calories ≠ 0 := by
    rcases hc with h | h
    · exact h
    · exact absurd h hsu
  rw [addMeal_valid env s f.name category f.calories hn hc0 hcat]
  simp [safeSetItem, hset]

/-- C30: the entry "Su" of `foodDatabase` has 0 calories, and `addMeal` called with its name
and calories returns `false` and leaves the store under every category, although the write
would succeed; `handleAddMeal` refuses it as well. -/
theorem C30_su_cannot_be_logged :
    Food.mk "Su" 0 "icecek" ∈ foodDatabase ∧
    sampleEnv.setItemOk STORAGE_KEYS.MEALS = true ∧
    (∀ (category : Option String) (env : Env) (s : Store),
      addMeal env (MealDraft.mk (some "Su") (some 0) category) s = (false, s)) ∧
    mealCategoryKeys.map (fun category =>
      (addMeal sampleEnv (MealDraft.mk (some "Su") (some 0) (some category)) Store.empty).1)
      = [false, false, false, false] ∧
    (∀ (category : Option String) (env : Env) (s : Store),
      handleAddMeal env category "Su" (some 0) s = s) := by
  have e : ∀ (category : Option String) (env : Env) (s : Store),
      addMeal env (MealDraft.mk (some "Su") (some 0) category) s = (false, s) := by
    intro category env s
    cases category <;> simp [addMeal]
  refine ⟨by simp [foodDatabase], rfl, e, ?_, ?_⟩
  · simp only [mealCategoryKeys, List.map_cons, List.map_nil, e]
  · intro category env s
    simp [handleAddMeal]

/-! ## Double arithmetic: rounding error -/

namespace Float64

/-- Rounding to the nearest integer moves a number by at most one half. -/
theorem roundHalfEven_abs (q : ℚ) : |(roundHalfEven q : ℚ) - q| ≤ 1 / 2 := by
  have h1 := Int.floor_le q
  have h2 := Int.lt_floor_add_one q
  unfold roundHalfEven
  split_ifs with a b c
  · rw [abs_le]; constructor <;> linarith
  · rw [abs_le]; push_cast; constructor <;> linarith
  · rw [abs_le]; constructor <;> linarith
  · rw [abs_le]; push_cast; constructor <;> linarith

/-- A number within less than one half of the integer `n` rounds to `n`. -/
theorem roundHalfEven_eq (q : ℚ) (n : ℤ) (h : |q - n| < 1 / 2) : roundHalfEven q = n := by
  rw [abs_lt] at h
  obtain ⟨h1, h2⟩ := h
  have hf1 := Int.floor_le q
  have hf2 := Int.lt_floor_add_one q
  have key : ∀ m : ℤ, |(m : ℚ) - q| ≤ 1 / 2 → m = n := by
    intro m hm
    rw [abs_le] at hm
    have a : (m : ℚ) - n < 1 := by linarith [hm.2]
    have b : (n : ℚ) - m < 1 := by linarith [hm.1]
    have a' : m - n < 1 := by exact_mod_cast a
    have b' : n - m < 1 := by exact_mod_cast b
    omega
  exact key _ (roundHalfEven_abs q)

/-- The binade of a non-zero number. -/
theorem exponent_spec (x : ℚ) (hx : x ≠ 0) :
    (2 : ℚ) ^ exponent x ≤ |x| ∧ |x| < (2 : ℚ) ^ (exponent x + 1) := by
  have hpos : 0 < |x| := abs_pos.2 hx
  constructor
  · have := Int.zpow_log_le_self (b := 2) (r := |x|) (by norm_num) hpos
    simpa [exponent] using this
  · have := Int.lt_zpow_succ_log_self (b := 2) (by norm_num) |x|
    simpa [exponent] using this

/-- The binade determines the exponent. -/
theorem exponent_eq (x : ℚ) (e : ℤ) (h1 : (2 : ℚ) ^ e ≤ |x|) (h2 : |x| < (2 : ℚ) ^ (e + 1)) :
    exponent x = e := by
  have hpos : 0 < |x| := lt_of_lt_of_le (by positivity) h1
  have a : e ≤ exponent x := by
    have := (Int.zpow_le_iff_le_log (b := 2) (by norm_num) hpos (x := e)).1 (by simpa using h1)
    simpa [exponent] using this
  have b : exponent x < e + 1 := by
    have := (Int.lt_zpow_iff_log_lt (b := 2) (by norm_num) hpos (x := e + 1)).1
      (by simpa using h2)
    simpa [exponent] using this
  omega

/-- The spacing is positive. -/
theorem ulp_pos (x : ℚ) : 0 < ulp x := by
  unfold ulp; positivity

/-- The double nearest to `x` differs from `x` by at most `2 ^ (-53) |x|`. -/
theorem ofRat_sub_abs (x : ℚ) : |ofRat x - x| ≤ unitRoundoff * |x| := by
  unfold ofRat
  split_ifs with h0
  · simp [h0]
  · have hu := ulp_pos x
    have hr := roundHalfEven_abs (x / ulp x)
    have e1 : (roundHalfEven (x / ulp x) : ℚ) * ulp x - x
        = ((roundHalfEven (x / ulp x) : ℚ) - x / ulp x) * ulp x := by
      field_simp
    rw [e1, abs_mul, abs_of_pos hu]
    have hs := (exponent_spec x h0).1
    have hulp : ulp x = (2 : ℚ) ^ exponent x * (1 / 4503599627370496) := by
      unfold ulp
      rw [zpow_sub₀ (by norm_num : (2 : ℚ) ≠ 0)]
      norm_num
      ring
    have h2 : ulp x ≤ |x| * (1 / 4503599627370496) := by
      rw [hulp]
      exact mul_le_mul_of_nonneg_right hs (by norm_num)
    calc |(roundHalfEven (x / ulp x) : ℚ) - x / ulp x| * ulp x
        ≤ 1 / 2 * ulp x := mul_le_mul_of_nonneg_right hr (le_of_lt hu)
      _ ≤ 1 / 2 * (|x| * (1 / 4503599627370496)) := by
          exact mul_le_mul_of_nonneg_left h2 (by norm_num)
      _ = unitRoundoff * |x| := by unfold unitRoundoff; ring

/-- The double nearest to `x`, from its binade and its significand. -/
theorem ofRat_eq (x : ℚ) (e n : ℤ) (h1 : (2 : ℚ) ^ e ≤ |x|) (h2 : |x| < (2 : ℚ) ^ (e + 1))
    (h3 : |x / (2 : ℚ) ^ (e - 52) - n| < 1 / 2) : ofRat x = (n : ℚ) * (2 : ℚ) ^ (e - 52) := by
  have hx : x ≠ 0 := by
    intro h
    rw [h, abs_zero] at h1
    exact absurd h1 (not_le.2 (by positivity))
  unfold ofRat
  rw [if_neg hx]
  have hu : ulp x = (2 : ℚ) ^ (e - 52) := by
    unfold ulp
    rw [exponent_eq x e h1 h2]
  rw [hu, roundHalfEven_eq _ n h3]

/-- The double nearest to a positive `x`, from its binade and its significand. -/
theorem ofRat_eq_of_pos (x : ℚ) (e n : ℤ) (h1 : (2 : ℚ) ^ e ≤ x) (h2 : x < (2 : ℚ) ^ (e + 1))
    (h3 : (n : ℚ) - 1 / 2 < x / (2 : ℚ) ^ (e - 52))
    (h4 : x / (2 : ℚ) ^ (e - 52) < (n : ℚ) + 1 / 2) :
    ofRat x = (n : ℚ) * (2 : ℚ) ^ (e - 52) := by
  have hx : 0 < x := lt_of_lt_of_le (by positivity) h1
  refine ofRat_eq x e n ?_ ?_ ?_
  · rw [abs_of_pos hx]; exact h1
  · rw [abs_of_pos hx]; exact h2
  · rw [abs_lt]; constructor <;> linarith

/-- The double nearest to a negative `x`, from its binade and its significand. -/
theorem ofRat_eq_of_neg (x : ℚ) (e n : ℤ) (h1 : (2 : ℚ) ^ e ≤ -x) (h2 : -x < (2 : ℚ) ^ (e + 1))
    (h3 : (n : ℚ) - 1 / 2 < x / (2 : ℚ) ^ (e - 52))
    (h4 : x / (2 : ℚ) ^ (e - 52) < (n : ℚ) + 1 / 2) :
    ofRat x = (n : ℚ) * (2 : ℚ) ^ (e - 52) := by
  have hx : x < 0 := by
    have : 0 < -x := lt_of_lt_of_le (by positivity) h1
    linarith
  refine ofRat_eq x e n ?_ ?_ ?_
  · rw [abs_of_neg hx]; exact h1
  · rw [abs_of_neg hx]; exact h2
  · rw [abs_lt]; constructor <;> linarith

/-- A number half way between the integers `f` and `f + 1` rounds to the even one. -/
theorem roundHalfEven_tie (q : ℚ) (f : ℤ) (h : q = (f : ℚ) + 1 / 2) :
    roundHalfEven q = if f % 2 = 0 then f else f + 1 := by
  have hf : ⌊q⌋ = f := by
    rw [Int.floor_eq_iff]
    constructor <;> linarith
  unfold roundHalfEven
  rw [hf]
  have e : q - (f : ℚ) = 1 / 2 := by linarith
  rw [e, if_neg (lt_irrefl _), if_neg (lt_irrefl _)]

/-- The double nearest to `x` when `x` is half way between two doubles. -/
theorem ofRat_eq_tie (x : ℚ) (e f n : ℤ) (h1 : (2 : ℚ) ^ e ≤ |x|)
    (h2 : |x| < (2 : ℚ) ^ (e + 1)) (h3 : x / (2 : ℚ) ^ (e - 52) = (f : ℚ) + 1 / 2)
    (h4 : (if f % 2 = 0 then f else f + 1) = n) :
    ofRat x = (n : ℚ) * (2 : ℚ) ^ (e - 52) := by
  have hx : x ≠ 0 := by
    intro h
    rw [h, abs_zero] at h1
    exact absurd h1 (not_le.2 (by positivity))
  unfold ofRat
  rw [if_neg hx]
  have hu : ulp x = (2 : ℚ) ^ (e - 52) := by
    unfold ulp
    rw [exponent_eq x e h1 h2]
  rw [hu, roundHalfEven_tie _ f h3, h4]

/-- The double nearest to a positive `x` half way between two doubles. -/
theorem ofRat_eq_tie_of_pos (x : ℚ) (e f n : ℤ) (h1 : (2 : ℚ) ^ e ≤ x)
    (h2 : x < (2 : ℚ) ^ (e + 1)) (h3 : x / (2 : ℚ) ^ (e - 52) = (f : ℚ) + 1 / 2)
    (h4 : (if f % 2 = 0 then f else f + 1) = n) :
    ofRat x = (n : ℚ) * (2 : ℚ) ^ (e - 52) := by
  have hx : 0 < x := lt_of_lt_of_le (by positivity) h1
  exact ofRat_eq_tie x e f n (by rw [abs_of_pos hx]; exact h1)
    (by rw [abs_of_pos hx]; exact h2) h3 h4

/-- The double nearest to a negative `x` half way between two doubles. -/
theorem ofRat_eq_tie_of_neg (x : ℚ) (e f n : ℤ) (h1 : (2 : ℚ) ^ e ≤ -x)
    (h2 : -x < (2 : ℚ) ^ (e + 1)) (h3 : x / (2 : ℚ) ^ (e - 52) = (f : ℚ) + 1 / 2)
    (h4 : (if f % 2 = 0 then f else f + 1) = n) :
    ofRat x = (n : ℚ) * (2 : ℚ) ^ (e - 52) := by
  have hx : x < 0 := by
    have : 0 < -x := lt_of_lt_of_le (by positivity) h1
    linarith
  exact ofRat_eq_tie x e f n (by rw [abs_of_neg hx]; exact h1)
    (by rw [abs_of_neg hx]; exact h2) h3 h4

/-- The unit roundoff is positive. -/
theorem unitRoundoff_pos : 0 < unitRoundoff := by
  unfold unitRoundoff; norm_num

/-- The unit roundoff is below 1. -/
theorem unitRoundoff_lt_one : unitRoundoff < 1 := by
  unfold unitRoundoff; norm_num

/-- The double nearest to a positive number, bounded on both sides. -/
theorem ofRat_bounds_of_pos (x : ℚ) (hx : 0 < x) :
    x * (1 - unitRoundoff) ≤ ofRat x ∧ ofRat x ≤ x * (1 + unitRoundoff) := by
  have h := ofRat_sub_abs x
  rw [abs_of_pos hx, abs_le] at h
  constructor <;> nlinarith [h.1, h.2]

/-- The double nearest to a positive number is positive. -/
theorem ofRat_pos (x : ℚ) (hx : 0 < x) : 0 < ofRat x := by
  have h := (ofRat_bounds_of_pos x hx).1
  have : 0 < x * (1 - unitRoundoff) :=
    mul_pos hx (by linarith [unitRoundoff_lt_one])
  linarith

/-- Zero is a double. -/
theorem ofRat_zero : ofRat 0 = 0 := by
  simp [ofRat]

/-- The double nearest to a negative number is negative. -/
theorem ofRat_neg_of_neg (x : ℚ) (hx : x < 0) : ofRat x < 0 := by
  have h := ofRat_sub_abs x
  rw [abs_of_neg hx, abs_le] at h
  have hu := unitRoundoff_lt_one
  nlinarith [h.1, h.2]

/-- Rounding to a double keeps the sign: positive. -/
theorem ofRat_pos_iff (x : ℚ) : 0 < ofRat x ↔ 0 < x := by
  constructor
  · intro h
    by_contra hx
    rcases lt_or_eq_of_le (not_lt.1 hx) with h1 | h1
    · linarith [ofRat_neg_of_neg x h1]
    · rw [h1, ofRat_zero] at h; exact lt_irrefl 0 h
  · exact ofRat_pos x

/-- Rounding to a double keeps the sign: negative. -/
theorem ofRat_neg_iff (x : ℚ) : ofRat x < 0 ↔ x < 0 := by
  constructor
  · intro h
    by_contra hx
    rcases lt_or_eq_of_le (not_lt.1 hx) with h1 | h1
    · linarith [ofRat_pos x h1]
    · rw [← h1, ofRat_zero] at h; exact lt_irrefl 0 h
  · exact ofRat_neg_of_neg x

/-- Only zero rounds to zero. -/
theorem ofRat_eq_zero_iff (x : ℚ) : ofRat x = 0 ↔ x = 0 := by
  constructor
  · intro h
    by_contra hx
    rcases lt_or_gt_of_ne hx with h1 | h1
    · linarith [ofRat_neg_of_neg x h1]
    · linarith [ofRat_pos x h1]
  · intro h; rw [h, ofRat_zero]

/-- A positive number approximates itself without rounding. -/
theorem Close.refl (x : ℚ) (hx : 0 < x) : Close 0 x x := by
  refine ⟨hx, ?_, ?_⟩ <;> simp

/-- An approximation of a positive number is positive. -/
theorem Close.pos {k : ℕ} {y x : ℚ} (h : Close k y x) : 0 < y := by
  obtain ⟨hx, h1, _⟩ := h
  have hs : 0 < (1 - unitRoundoff) ^ k := pow_pos (by linarith [unitRoundoff_lt_one]) k
  have : 0 < x * (1 - unitRoundoff) ^ k := mul_pos hx hs
  linarith

/-- One more rounding. -/
theorem Close.ofRat {k : ℕ} {y x : ℚ} (h : Close k y x) : Close (k + 1) (ofRat y) x := by
  have hy := h.pos
  obtain ⟨hx, h1, h2⟩ := h
  have hu := unitRoundoff_pos
  have hu1 := unitRoundoff_lt_one
  have hs : 0 < 1 - unitRoundoff := by linarith
  have hsk : 0 < (1 - unitRoundoff) ^ k := pow_pos hs k
  obtain ⟨b1, b2⟩ := ofRat_bounds_of_pos y hy
  refine ⟨hx, ?_, ?_⟩
  · rw [pow_succ]
    calc x * ((1 - unitRoundoff) ^ k * (1 - unitRoundoff))
        = x * (1 - unitRoundoff) ^ k * (1 - unitRoundoff) := by ring
      _ ≤ y * (1 - unitRoundoff) := mul_le_mul_of_nonneg_right h1 (le_of_lt hs)
      _ ≤ Float64.ofRat y := b1
  · rw [pow_succ]
    have e : (1 + unitRoundoff) * (1 - unitRoundoff) ≤ 1 := by nlinarith
    calc Float64.ofRat y * ((1 - unitRoundoff) ^ k * (1 - unitRoundoff))
        ≤ y * (1 + unitRoundoff) * ((1 - unitRoundoff) ^ k * (1 - unitRoundoff)) :=
          mul_le_mul_of_nonneg_right b2 (le_of_lt (mul_pos hsk hs))
      _ = y * (1 - unitRoundoff) ^ k * ((1 + unitRoundoff) * (1 - unitRoundoff)) := by ring
      _ ≤ y * (1 - unitRoundoff) ^ k * 1 :=
          mul_le_mul_of_nonneg_left e (le_of_lt (mul_pos hy hsk))
      _ = y * (1 - unitRoundoff) ^ k := by ring
      _ ≤ x := h2

/-- A written positive number and the double it denotes. -/
theorem Close.of_written (x : ℚ) (hx : 0 < x) : Close 1 (Float64.ofRat x) x :=
  (Close.refl x hx).ofRat

/-- The exact product of two approximations. -/
theorem Close.mul {k1 k2 : ℕ} {y1 x1 y2 x2 : ℚ} (h1 : Close k1 y1 x1) (h2 : Close k2 y2 x2) :
    Close (k1 + k2) (y1 * y2) (x1 * x2) := by
  have hy1 := h1.pos
  have hy2 := h2.pos
  obtain ⟨hx1, a1, b1⟩ := h1
  obtain ⟨hx2, a2, b2⟩ := h2
  have hs : 0 < 1 - unitRoundoff := by linarith [unitRoundoff_lt_one]
  have hs1 : 0 < (1 - unitRoundoff) ^ k1 := pow_pos hs k1
  have hs2 : 0 < (1 - unitRoundoff) ^ k2 := pow_pos hs k2
  refine ⟨mul_pos hx1 hx2, ?_, ?_⟩
  · rw [pow_add]
    calc x1 * x2 * ((1 - unitRoundoff) ^ k1 * (1 - unitRoundoff) ^ k2)
        = x1 * (1 - unitRoundoff) ^ k1 * (x2 * (1 - unitRoundoff) ^ k2) := by ring
      _ ≤ y1 * y2 := mul_le_mul a1 a2 (le_of_lt (mul_pos hx2 hs2)) (le_of_lt hy1)
  · rw [pow_add]
    calc y1 * y2 * ((1 - unitRoundoff) ^ k1 * (1 - unitRoundoff) ^ k2)
        = y1 * (1 - unitRoundoff) ^ k1 * (y2 * (1 - unitRoundoff) ^ k2) := by ring
      _ ≤ x1 * x2 := mul_le_mul b1 b2 (le_of_lt (mul_pos hy2 hs2)) (le_of_lt hx1)

/-- The exact quotient of two approximations. -/
theorem Close.div {k1 k2 : ℕ} {y1 x1 y2 x2 : ℚ} (h1 : Close k1 y1 x1) (h2 : Close k2 y2 x2) :
    Close (k1 + k2) (y1 / y2) (x1 / x2) := by
  have hy1 := h1.pos
  have hy2 := h2.pos
  obtain ⟨hx1, a1, b1⟩ := h1
  obtain ⟨hx2, a2, b2⟩ := h2
  have hs : 0 < 1 - unitRoundoff := by linarith [unitRoundoff_lt_one]
  have hs1 : 0 < (1 - unitRoundoff) ^ k1 := pow_pos hs k1
  have hs2 : 0 < (1 - unitRoundoff) ^ k2 := pow_pos hs k2
  refine ⟨div_pos hx1 hx2, ?_, ?_⟩
  · rw [pow_add, le_div_iff₀ hy2]
    have e : x1 / x2 * ((1 - unitRoundoff) ^ k1 * (1 - unitRoundoff) ^ k2) * y2
        = x1 * (1 - unitRoundoff) ^ k1 * (y2 * (1 - unitRoundoff) ^ k2) / x2 := by
      field_simp; ring
    rw [e, div_le_iff₀ hx2]
    exact mul_le_mul a1 b2 (le_of_lt (mul_pos hy2 hs2)) (le_of_lt hy1)
  · rw [pow_add, le_div_iff₀ hx2]
    have e : y1 / y2 * ((1 - unitRoundoff) ^ k1 * (1 - unitRoundoff) ^ k2) * x2
        = y1 * (1 - unitRoundoff) ^ k1 * (x2 * (1 - unitRoundoff) ^ k2) / y2 := by
      field_simp; ring
    rw [e, div_le_iff₀ hy2]
    exact mul_le_mul b1 a2 (le_of_lt (mul_pos hx2 hs2)) (le_of_lt hx1)

/-- After at most eight roundings the relative error is below `10 ^ (-15)`. -/
theorem Close.abs_sub_le {k : ℕ} {y x : ℚ} (h : Close k y x) (hk : k ≤ 8) :
    |y - x| ≤ x / 1000000000000000 := by
  have hy := h.pos
  obtain ⟨hx, a, b⟩ := h
  have hs : 0 < 1 - unitRoundoff := by linarith [unitRoundoff_lt_one]
  have hs1 : 1 - unitRoundoff ≤ 1 := by linarith [unitRoundoff_pos]
  have mono : (1 - unitRoundoff) ^ 8 ≤ (1 - unitRoundoff) ^ k :=
    pow_le_pow_of_le_one (le_of_lt hs) hs1 hk
  have c8 : (1 : ℚ) - 1 / 1100000000000000 ≤ (1 - unitRoundoff) ^ 8 := by
    unfold unitRoundoff; norm_num
  have lo : x * (1 - 1 / 1100000000000000) ≤ y := by
    calc x * (1 - 1 / 1100000000000000) ≤ x * (1 - unitRoundoff) ^ k :=
          mul_le_mul_of_nonneg_left (le_trans c8 mono) (le_of_lt hx)
      _ ≤ y := a
  have hi : y * (1 - 1 / 1100000000000000) ≤ x := by
    calc y * (1 - 1 / 1100000000000000) ≤ y * (1 - unitRoundoff) ^ k :=
          mul_le_mul_of_nonneg_left (le_trans c8 mono) (le_of_lt hy)
      _ ≤ x := b
  rw [abs_le]
  constructor <;> nlinarith

/-- Rounding to the nearest integer is monotone. -/
theorem roundHalfEven_mono (p q : ℚ) (h : p ≤ q) : roundHalfEven p ≤ roundHalfEven q := by
  by_contra hn
  have h1 : roundHalfEven q + 1 ≤ roundHalfEven p := by omega
  have h2 : ((roundHalfEven q : ℤ) : ℚ) + 1 ≤ (roundHalfEven p : ℚ) := by exact_mod_cast h1
  have a := roundHalfEven_abs p
  have b := roundHalfEven_abs q
  rw [abs_le] at a b
  have e : p = q := le_antisymm h (by linarith [a.1, a.2, b.1, b.2])
  rw [e] at hn
  exact hn (le_refl _)

/-- An integer is its own rounding. -/
theorem roundHalfEven_intCast (n : ℤ) : roundHalfEven (n : ℚ) = n :=
  roundHalfEven_eq _ n (by simp)

/-- The double nearest to a positive number stays in the closed binade of the number. -/
theorem ofRat_binade (x : ℚ) (hx : 0 < x) :
    (2 : ℚ) ^ exponent x ≤ ofRat x ∧ ofRat x ≤ (2 : ℚ) ^ (exponent x + 1) := by
  obtain ⟨h1, h2⟩ := exponent_spec x (ne_of_gt hx)
  rw [abs_of_pos hx] at h1 h2
  have hu := ulp_pos x
  have e1 : (2 : ℚ) ^ exponent x = ((4503599627370496 : ℤ) : ℚ) * ulp x := by
    unfold ulp
    rw [zpow_sub₀ (by norm_num)]
    norm_num
    ring
  have e2 : (2 : ℚ) ^ (exponent x + 1) = ((9007199254740992 : ℤ) : ℚ) * ulp x := by
    unfold ulp
    rw [zpow_sub₀ (by norm_num), zpow_add₀ (by norm_num)]
    norm_num
    ring
  have q1 : ((4503599627370496 : ℤ) : ℚ) ≤ x / ulp x := by
    rw [le_div_iff₀ hu, ← e1]; exact h1
  have q2 : x / ulp x ≤ ((9007199254740992 : ℤ) : ℚ) := by
    rw [div_le_iff₀ hu, ← e2]; exact le_of_lt h2
  have r1 := roundHalfEven_mono _ _ q1
  have r2 := roundHalfEven_mono _ _ q2
  rw [roundHalfEven_intCast] at r1 r2
  have r1q : ((4503599627370496 : ℤ) : ℚ) ≤ (roundHalfEven (x / ulp x) : ℚ) := by
    exact_mod_cast r1
  have r2q : (roundHalfEven (x / ulp x) : ℚ) ≤ ((9007199254740992 : ℤ) : ℚ) := by
    exact_mod_cast r2
  unfold ofRat
  rw [if_neg (ne_of_gt hx), e1, e2]
  exact ⟨mul_le_mul_of_nonneg_right r1q (le_of_lt hu),
    mul_le_mul_of_nonneg_right r2q (le_of_lt hu)⟩

/-- Rounding to the nearest double is monotone on the positive numbers. -/
theorem ofRat_mono_of_pos (x y : ℚ) (hx : 0 < x) (h : x ≤ y) : ofRat x ≤ ofRat y := by
  have hy : 0 < y := lt_of_lt_of_le hx h
  have he : exponent x ≤ exponent y := by
    unfold exponent
    rw [abs_of_pos hx, abs_of_pos hy]
    exact Int.log_mono_right hx h
  rcases lt_or_eq_of_le he with hlt | heq
  · have a := (ofRat_binade x hx).2
    have b := (ofRat_binade y hy).1
    have c : (2 : ℚ) ^ (exponent x + 1) ≤ (2 : ℚ) ^ exponent y :=
      zpow_le_zpow_right₀ (by norm_num) (by omega)
    linarith
  · have hu : ulp x = ulp y := by unfold ulp; rw [heq]
    have hup := ulp_pos y
    unfold ofRat
    rw [if_neg (ne_of_gt hx), if_neg (ne_of_gt hy), hu]
    have q : x / ulp y ≤ y / ulp y := div_le_div_of_nonneg_right h (le_of_lt hup)
    have r : ((roundHalfEven (x / ulp y) : ℤ) : ℚ) ≤ (roundHalfEven (y / ulp y) : ℚ) := by
      exact_mod_cast roundHalfEven_mono _ _ q
    exact mul_le_mul_of_nonneg_right r (le_of_lt hup)

/-- The double nearest to `x` is within `|x| / 10^15` of it. -/
theorem ofRat_near (x : ℚ) : |ofRat x - x| ≤ |x| / 10 ^ 15 := by
  have h := ofRat_sub_abs x
  have e : unitRoundoff * |x| ≤ 1 / 10 ^ 15 * |x| :=
    mul_le_mul_of_nonneg_right (by unfold unitRoundoff; norm_num) (abs_nonneg x)
  have e2 : (1 : ℚ) / 10 ^ 15 * |x| = |x| / 10 ^ 15 := by ring
  linarith

end Float64

/-! ## Body mass index on doubles -/

/-- C1 as stated fails: `calculateBMI(48, 160)` is 18.7 (the double nearest to it), because
the double quotient times 10 is 187.49999999999997 and rounds to 187, while
`10 * 48 / (160/100)^2` is exactly 187.5, which `Math.round` takes to 188, that is 18.8. -/
theorem C1_tie_counterexample :
    Float64.calculateBMI 48 160 = Float64.ofRat (187 / 10) ∧
    mathRound (10 * 48 / (160 / 100) ^ 2) / 10 = 188 / 10 ∧
    Float64.ofRat (187 / 10) ≠ Float64.ofRat (188 / 10) := by
  have s1 : Float64.ofRat (48) = 48 := by
    rw [Float64.ofRat_eq_of_pos (48) (5) (6755399441055744) (by norm_num) (by norm_num) (by norm_num)
      (by norm_num)]
    norm_num
  have s2 : Float64.ofRat (160) = 160 := by
    rw [Float64.ofRat_eq_of_pos (160) (7) (5629499534213120) (by norm_num) (by norm_num) (by norm_num)
      (by norm_num)]
    norm_num
  have s3 : Float64.ofRat (160 / 100) = 3602879701896397 / 2251799813685248 := by
    rw [Float64.ofRat_eq_of_pos (160 / 100) (0) (7205759403792794) (by norm_num) (by norm_num) (by norm_num)
      (by norm_num)]
    norm_num
  have s4 : Float64.ofRat ((3602879701896397 / 2251799813685248) * (3602879701896397 / 2251799813685248)) = 1441151880758559 / 562949953421312 := by
    rw [Float64.ofRat_eq_of_pos ((3602879701896397 / 2251799813685248) * (3602879701896397 / 2251799813685248)) (1) (5764607523034236) (by norm_num) (by norm_num) (by norm_num)
      (by norm_num)]
    norm_num
  have s5 : Float64.ofRat (48 / (1441151880758559 / 562949953421312)) = 5277655813324799 / 281474976710656 := by
    rw [Float64.ofRat_eq_of_pos (48 / (1441151880758559 / 562949953421312)) (4) (5277655813324799) (by norm_num) (by norm_num) (by norm_num)
      (by norm_num)]
    norm_num
  have s6 : Float64.ofRat ((5277655813324799 / 281474976710656) * 10) = 6597069766655999 / 35184372088832 := by
    rw [Float64.ofRat_eq_of_pos ((5277655813324799 / 281474976710656) * 10) (7) (6597069766655999) (by norm_num) (by norm_num) (by norm_num)
      (by norm_num)]
    norm_num
  have r : mathRound (6597069766655999 / 35184372088832) = ((187 : ℤ) : ℚ) :=
    (mathRound_eq_iff _ _).2 ⟨by norm_num, by norm_num⟩
  have v187 : Float64.ofRat (187 / 10) = 5263582064489267 / 281474976710656 := by
    rw [Float64.ofRat_eq_of_pos (187 / 10) (4) (5263582064489267) (by norm_num) (by norm_num) (by norm_num)
      (by norm_num)]
    norm_num
  have v188 : Float64.ofRat (188 / 10) = 5291729562160333 / 281474976710656 := by
    rw [Float64.ofRat_eq_of_pos (188 / 10) (4) (5291729562160333) (by norm_num) (by norm_num) (by norm_num)
      (by norm_num)]
    norm_num
  refine ⟨?_, ?_, ?_⟩
  · unfold Float64.calculateBMI
    simp only [s1, s2]
    rw [if_neg (by norm_num)]
    simp only [s3, s4, s5, s6, r]
    norm_num
  · have r2 : mathRound (10 * 48 / (160 / 100) ^ 2) = ((188 : ℤ) : ℚ) :=
      (mathRound_eq_iff _ _).2 ⟨by norm_num, by norm_num⟩
    rw [r2]; norm_num
  · rw [v187, v188]; norm_num

/-- C1 (amended): for weight and height between 1 and 1000, `calculateBMI w h` is the double
nearest to `n / 10` (within `|n / 10| / 10^15` of it) for an integer `n` within
`1/2 + X / 10^15` of `X = 10 w / (h/100)^2`; so it is `w / (h/100)^2` rounded to one decimal
place (`k / 10`) whenever `X` is farther than `X / 10^15` from the ties on both sides of
`k`. -/
theorem C1_calculateBMI_double (w h : ℚ) (hw1 : 1 ≤ w) (_hw2 : w ≤ 1000) (hh1 : 1 ≤ h)
    (_hh2 : h ≤ 1000) :
    ∃ n : ℤ, Float64.calculateBMI w h = Float64.ofRat ((n : ℚ) / 10) ∧
      |Float64.calculateBMI w h - (n : ℚ) / 10| ≤ |(n : ℚ) / 10| / 10 ^ 15 ∧
      |(n : ℚ) - 10 * w / (h / 100) ^ 2| ≤ 1 / 2 + 10 * w / (h / 100) ^ 2 / 10 ^ 15 ∧
      ∀ k : ℤ, |10 * w / (h / 100) ^ 2 - k| < 1 / 2 - 10 * w / (h / 100) ^ 2 / 10 ^ 15 →
        Float64.calculateBMI w h = Float64.ofRat ((k : ℚ) / 10) := by
  have hw0 : 0 < w := by linarith
  have hh0 : 0 < h := by linarith
  have gw := Float64.ofRat_pos w hw0
  have gh := Float64.ofRat_pos h hh0
  have cw := Float64.Close.of_written w hw0
  have ch := Float64.Close.of_written h hh0
  have ca : Float64.Close 2 (Float64.ofRat (Float64.ofRat h / 100)) (h / 100) :=
    (ch.div (Float64.Close.refl 100 (by norm_num))).ofRat
  have cb : Float64.Close 5
      (Float64.ofRat (Float64.ofRat (Float64.ofRat h / 100) * Float64.ofRat (Float64.ofRat h / 100)))
      (h / 100 * (h / 100)) := (ca.mul ca).ofRat
  have cc : Float64.Close 7
      (Float64.ofRat (Float64.ofRat w / Float64.ofRat
        (Float64.ofRat (Float64.ofRat h / 100) * Float64.ofRat (Float64.ofRat h / 100))))
      (w / (h / 100 * (h / 100))) := (cw.div cb).ofRat
  have cd : Float64.Close 8
      (Float64.ofRat (Float64.ofRat (Float64.ofRat w / Float64.ofRat
        (Float64.ofRat (Float64.ofRat h / 100) * Float64.ofRat (Float64.ofRat h / 100))) * 10))
      (w / (h / 100 * (h / 100)) * 10) := (cc.mul (Float64.Close.refl 10 (by norm_num))).ofRat
  have eX : w / (h / 100 * (h / 100)) * 10 = 10 * w / (h / 100) ^ 2 := by
    rw [pow_two]; ring
  rw [eX] at cd
  have bound := cd.abs_sub_le (le_refl 8)
  have val : Float64.calculateBMI w h
      = Float64.ofRat (mathRound (Float64.ofRat (Float64.ofRat (Float64.ofRat w / Float64.ofRat
        (Float64.ofRat (Float64.ofRat h / 100) * Float64.ofRat (Float64.ofRat h / 100))) * 10))
          / 10) := by
    unfold Float64.calculateBMI
    simp only
    rw [if_neg (by
      simp only [not_or, not_le]
      exact ⟨ne_of_gt gw, ne_of_gt gh, gw, gh⟩)]
  obtain ⟨m1, m2⟩ := mathRound_bounds (Float64.ofRat (Float64.ofRat (Float64.ofRat w /
    Float64.ofRat (Float64.ofRat (Float64.ofRat h / 100) * Float64.ofRat (Float64.ofRat h / 100)))
      * 10))
  obtain ⟨n, hn⟩ : ∃ n : ℤ, mathRound (Float64.ofRat (Float64.ofRat (Float64.ofRat w /
      Float64.ofRat (Float64.ofRat (Float64.ofRat h / 100) *
        Float64.ofRat (Float64.ofRat h / 100))) * 10)) = (n : ℚ) := ⟨_, rfl⟩
  rw [hn] at m1 m2
  rw [abs_le] at bound
  have near : |(n : ℚ) - 10 * w / (h / 100) ^ 2|
      ≤ 1 / 2 + 10 * w / (h / 100) ^ 2 / 10 ^ 15 := by
    rw [abs_le]
    norm_num at bound ⊢
    constructor <;> linarith [bound.1, bound.2]
  refine ⟨n, ?_, ?_, near, ?_⟩
  · rw [val, hn]
  · rw [val, hn]
    exact Float64.ofRat_near _
  · intro k hk
    have e : n = k := by
      rw [abs_lt] at hk
      rw [abs_le] at near
      have a1 : (n : ℚ) - k < 1 := by linarith [near.2, hk.1]
      have a2 : (k : ℚ) - n < 1 := by linarith [near.1, hk.2]
      have a1' : n - k < 1 := by exact_mod_cast a1
      have a2' : k - n < 1 := by exact_mod_cast a2
      omega
    rw [val, hn, e]

/-- Witness of C1 (amended) at weight 70 kg and height 175 cm: the result is 22.9. -/
theorem C1_calculateBMI_double_witness :
    Float64.calculateBMI 70 175 = Float64.ofRat (((229 : ℤ) : ℚ) / 10) := by
  obtain ⟨n, _, _, _, h⟩ := C1_calculateBMI_double 70 175 (by norm_num) (by norm_num)
    (by norm_num) (by norm_num)
  exact h 229 (by rw [abs_lt]; constructor <;> norm_num)

/-! ## Basal metabolic rate on doubles -/

namespace Float64

/-- One more rounding of an approximation of a number of size at most 20000 adds at most
`10 ^ (-11)` to the absolute error. -/
theorem abs_ofRat_sub_le (y x ε : ℚ) (h : |y - x| ≤ ε) (hx : |x| ≤ 20000) (hε : ε ≤ 1) :
    |ofRat y - x| ≤ ε + 1 / 10 ^ 11 := by
  have h1 := ofRat_sub_abs y
  have hy : |y| ≤ 20001 := by
    have : |y| ≤ |y - x| + |x| := by
      have := abs_add (y - x) x
      simpa using this
    linarith
  have h2 : unitRoundoff * |y| ≤ 1 / 10 ^ 11 := by
    have : unitRoundoff * |y| ≤ unitRoundoff * 20001 :=
      mul_le_mul_of_nonneg_left hy (le_of_lt unitRoundoff_pos)
    have e : unitRoundoff * 20001 ≤ 1 / 10 ^ 11 := by unfold unitRoundoff; norm_num
    linarith
  have tri : |ofRat y - x| ≤ |ofRat y - y| + |y - x| := by
    have := abs_add (ofRat y - y) (y - x)
    simpa using this
  linarith

/-- The product of a written constant and a written input, both positive, as a double. -/
theorem abs_mul_written_sub_le (K x B : ℚ) (hK : 0 < K) (hx : 0 < x) (hB : K * x ≤ B) :
    |ofRat (ofRat K * ofRat x) - K * x| ≤ B / 1000000000000000 := by
  have c : Close 3 (ofRat (ofRat K * ofRat x)) (K * x) :=
    ((Close.of_written K hK).mul (Close.of_written x hx)).ofRat
  have := c.abs_sub_le (by norm_num)
  have hB' : K * x / 1000000000000000 ≤ B / 1000000000000000 :=
    div_le_div_of_nonneg_right hB (by norm_num)
  linarith

/-- The Harris-Benedict sum on doubles is within `10 ^ (-9)` of the exact sum. -/
theorem bmr_sum_error (K0 K1 K2 K3 w h a : ℚ) (h0 : 0 < K0) (h0' : K0 ≤ 500) (h1 : 0 < K1)
    (h1' : K1 ≤ 14) (h2 : 0 < K2) (h2' : K2 ≤ 5) (h3 : 0 < K3) (h3' : K3 ≤ 6)
    (hw1 : 1 ≤ w) (hw2 : w ≤ 1000) (hh1 : 1 ≤ h) (hh2 : h ≤ 1000) (ha1 : 1 ≤ a)
    (ha2 : a ≤ 1000) :
    |ofRat (ofRat (ofRat (ofRat K0 + ofRat (ofRat K1 * ofRat w)) + ofRat (ofRat K2 * ofRat h))
        - ofRat (ofRat K3 * ofRat a)) - (K0 + K1 * w + K2 * h - K3 * a)| ≤ 1 / 10 ^ 9 := by
  have hw0 : 0 < w := by linarith
  have hh0 : 0 < h := by linarith
  have ha0 : 0 < a := by linarith
  have b1 : K1 * w ≤ 14000 := by nlinarith
  have b2 : K2 * h ≤ 5000 := by nlinarith
  have b3 : K3 * a ≤ 6000 := by nlinarith
  have p1 : 0 < K1 * w := mul_pos h1 hw0
  have p2 : 0 < K2 * h := mul_pos h2 hh0
  have p3 : 0 < K3 * a := mul_pos h3 ha0
  have e0 : |ofRat K0 - K0| ≤ 1 / 10 ^ 11 := by
    have := (Close.of_written K0 h0).abs_sub_le (by norm_num)
    have : K0 / 1000000000000000 ≤ 1 / 10 ^ 11 := by
      rw [div_le_iff₀ (by norm_num)]; norm_num; linarith
    linarith
  have e1 : |ofRat (ofRat K1 * ofRat w) - K1 * w| ≤ 2 / 10 ^ 11 := by
    have := abs_mul_written_sub_le K1 w 14000 h1 hw0 b1
    norm_num at this ⊢
    linarith
  have e2 : |ofRat (ofRat K2 * ofRat h) - K2 * h| ≤ 1 / 10 ^ 11 := by
    have := abs_mul_written_sub_le K2 h 5000 h2 hh0 b2
    norm_num at this ⊢
    linarith
  have e3 : |ofRat (ofRat K3 * ofRat a) - K3 * a| ≤ 1 / 10 ^ 11 := by
    have := abs_mul_written_sub_le K3 a 6000 h3 ha0 b3
    norm_num at this ⊢
    linarith
  have s1 : |ofRat K0 + ofRat (ofRat K1 * ofRat w) - (K0 + K1 * w)| ≤ 3 / 10 ^ 11 := by
    have := abs_add (ofRat K0 - K0) (ofRat (ofRat K1 * ofRat w) - K1 * w)
    have e : ofRat K0 + ofRat (ofRat K1 * ofRat w) - (K0 + K1 * w)
        = ofRat K0 - K0 + (ofRat (ofRat K1 * ofRat w) - K1 * w) := by ring
    rw [e]; linarith
  have r1 := abs_ofRat_sub_le _ (K0 + K1 * w) _ s1
    (by rw [abs_of_pos (by linarith)]; linarith) (by norm_num)
  have s2 : |ofRat (ofRat K0 + ofRat (ofRat K1 * ofRat w)) + ofRat (ofRat K2 * ofRat h)
      - (K0 + K1 * w + K2 * h)| ≤ 5 / 10 ^ 11 := by
    have := abs_add (ofRat (ofRat K0 + ofRat (ofRat K1 * ofRat w)) - (K0 + K1 * w))
      (ofRat (ofRat K2 * ofRat h) - K2 * h)
    have e : ofRat (ofRat K0 + ofRat (ofRat K1 * ofRat w)) + ofRat (ofRat K2 * ofRat h)
        - (K0 + K1 * w + K2 * h)
        = ofRat (ofRat K0 + ofRat (ofRat K1 * ofRat w)) - (K0 + K1 * w)
          + (ofRat (ofRat K2 * ofRat h) - K2 * h) := by ring
    rw [e]; linarith
  have r2 := abs_ofRat_sub_le _ (K0 + K1 * w + K2 * h) _ s2
    (by rw [abs_of_pos (by linarith)]; linarith) (by norm_num)
  have s3 : |ofRat (ofRat (ofRat K0 + ofRat (ofRat K1 * ofRat w)) + ofRat (ofRat K2 * ofRat h))
      - ofRat (ofRat K3 * ofRat a) - (K0 + K1 * w + K2 * h - K3 * a)| ≤ 7 / 10 ^ 11 := by
    have := abs_sub (ofRat (ofRat (ofRat K0 + ofRat (ofRat K1 * ofRat w))
      + ofRat (ofRat K2 * ofRat h)) - (K0 + K1 * w + K2 * h))
      (ofRat (ofRat K3 * ofRat a) - K3 * a)
    have e : ofRat (ofRat (ofRat K0 + ofRat (ofRat K1 * ofRat w)) + ofRat (ofRat K2 * ofRat h))
        - ofRat (ofRat K3 * ofRat a) - (K0 + K1 * w + K2 * h - K3 * a)
        = ofRat (ofRat (ofRat K0 + ofRat (ofRat K1 * ofRat w)) + ofRat (ofRat K2 * ofRat h))
          - (K0 + K1 * w + K2 * h) - (ofRat (ofRat K3 * ofRat a) - K3 * a) := by ring
    rw [e]; linarith
  have r3 := abs_ofRat_sub_le _ (K0 + K1 * w + K2 * h - K3 * a) _ s3
    (by rw [abs_le]; constructor <;> linarith) (by norm_num)
  norm_num at r3 ⊢
  linarith

/-- A rounded double lies within one half plus the error of the double from the exact
number, and equals every integer the exact number is nearer to than that. -/
theorem mathRound_near (y x ε : ℚ) (h : |y - x| ≤ ε) :
    ∃ n : ℤ, mathRound y = (n : ℚ) ∧ |(n : ℚ) - x| ≤ 1 / 2 + ε ∧
      ∀ k : ℤ, |x - k| < 1 / 2 - ε → mathRound y = (k : ℚ) := by
  obtain ⟨m1, m2⟩ := mathRound_bounds y
  obtain ⟨n, hn⟩ : ∃ n : ℤ, mathRound y = (n : ℚ) := ⟨_, rfl⟩
  rw [hn] at m1 m2
  rw [abs_le] at h
  have near : |(n : ℚ) - x| ≤ 1 / 2 + ε := by
    rw [abs_le]; constructor <;> linarith [h.1, h.2]
  refine ⟨n, hn, near, ?_⟩
  intro k hk
  rw [abs_lt] at hk
  rw [abs_le] at near
  have a1 : (n : ℚ) - k < 1 := by linarith [near.2, hk.1]
  have a2 : (k : ℚ) - n < 1 := by linarith [near.1, hk.2]
  have a1' : n - k < 1 := by exact_mod_cast a1
  have a2' : k - n < 1 := by exact_mod_cast a2
  have e : n = k := by omega
  rw [hn, e]

end Float64

/-- The value of `calculateBMR` on doubles for positive inputs and `'male'`. -/
theorem Float64.calculateBMR_male (w h a : ℚ) (hw : 0 < w) (hh : 0 < h) (ha : 0 < a) :
    Float64.calculateBMR w h a "male" = mathRound (Float64.ofRat (Float64.ofRat
      (Float64.ofRat (Float64.ofRat 88.362 + Float64.ofRat (Float64.ofRat 13.397 *
        Float64.ofRat w)) + Float64.ofRat (Float64.ofRat 4.799 * Float64.ofRat h))
        - Float64.ofRat (Float64.ofRat 5.677 * Float64.ofRat a))) := by
  have gw := Float64.ofRat_pos w hw
  have gh := Float64.ofRat_pos h hh
  have ga := Float64.ofRat_pos a ha
  unfold Float64.calculateBMR
  simp only
  rw [if_neg (by
    intro hyp
    rcases hyp with hyp | hyp | hyp | hyp
    · exact ne_of_gt gw hyp
    · exact ne_of_gt gh hyp
    · exact ne_of_gt ga hyp
    · exact absurd hyp (by decide)), if_neg (by
    simp only [not_or, not_le]
    exact ⟨gw, gh, ga⟩), if_pos trivial]

/-- The value of `calculateBMR` on doubles for positive inputs and `'female'`. -/
theorem Float64.calculateBMR_female (w h a : ℚ) (hw : 0 < w) (hh : 0 < h) (ha : 0 < a) :
    Float64.calculateBMR w h a "female" = mathRound (Float64.ofRat (Float64.ofRat
      (Float64.ofRat (Float64.ofRat 447.593 + Float64.ofRat (Float64.ofRat 9.247 *
        Float64.ofRat w)) + Float64.ofRat (Float64.ofRat 3.098 * Float64.ofRat h))
        - Float64.ofRat (Float64.ofRat 4.330 * Float64.ofRat a))) := by
  have gw := Float64.ofRat_pos w hw
  have gh := Float64.ofRat_pos h hh
  have ga := Float64.ofRat_pos a ha
  unfold Float64.calculateBMR
  simp only
  rw [if_neg (by
    intro hyp
    rcases hyp with hyp | hyp | hyp | hyp
    · exact ne_of_gt gw hyp
    · exact ne_of_gt gh hyp
    · exact ne_of_gt ga hyp
    · exact absurd hyp (by decide)), if_neg (by
    simp only [not_or, not_le]
    exact ⟨gw, gh, ga⟩), if_neg (by decide), if_pos trivial]

/-- C3 as stated fails: `calculateBMR(65, 164, 34, 'female')` is 1409, because the double sum
is 1409.4999999999998, while `447.593 + 9.247*65 + 3.098*164 - 4.330*34` is exactly 1409.5,
which `Math.round` takes to 1410. -/
theorem C3_tie_counterexample :
    Float64.calculateBMR 65 164 34 "female" = 1409 ∧
    mathRound (447.593 + 9.247 * 65 + 3.098 * 164 - 4.330 * 34) = 1410 := by
  have s1 : Float64.ofRat (65) = 65 := by
    rw [Float64.ofRat_eq_of_pos (65) (6) (4573968371548160) (by norm_num) (by norm_num) (by norm_num)
      (by norm_num)]
    norm_num
  have s2 : Float64.ofRat (164) = 164 := by
    rw [Float64.ofRat_eq_of_pos (164) (7) (5770237022568448) (by norm_num) (by norm_num) (by norm_num)
      (by norm_num)]
    norm_num
  have s3 : Float64.ofRat (34) = 34 := by
    rw [Float64.ofRat_eq_of_pos (34) (5) (4785074604081152) (by norm_num) (by norm_num) (by norm_num)
      (by norm_num)]
    norm_num
  have s4 : Float64.ofRat (447.593) = 7874139328178291 / 17592186044416 := by
    rw [Float64.ofRat_eq_of_pos (447.593) (8) (7874139328178291) (by norm_num) (by norm_num) (by norm_num)
      (by norm_num)]
    norm_num
  have s5 : Float64.ofRat (9.247) = 650699777410859 / 70368744177664 := by
    rw [Float64.ofRat_eq_of_pos (9.247) (3) (5205598219286872) (by norm_num) (by norm_num) (by norm_num)
      (by norm_num)]
    norm_num
  have s6 : Float64.ofRat ((650699777410859 / 70368744177664) * 65) = 5286935691463229 / 8796093022208 := by
    rw [Float64.ofRat_eq_of_pos ((650699777410859 / 70368744177664) * 65) (9) (5286935691463229) (by norm_num) (by norm_num) (by norm_num)
      (by norm_num)]
    norm_num
  have s7 : Float64.ofRat ((7874139328178291 / 17592186044416) + (5286935691463229 / 8796093022208)) = 4612002677776187 / 4398046511104 := by
    rw [Float64.ofRat_eq_of_pos ((7874139328178291 / 17592186044416) + (5286935691463229 / 8796093022208)) (10) (4612002677776187) (by norm_num) (by norm_num) (by norm_num)
      (by norm_num)]
    norm_num
  have s8 : Float64.ofRat (3.098) = 3488037911398449 / 1125899906842624 := by
    rw [Float64.ofRat_eq_of_pos (3.098) (1) (6976075822796898) (by norm_num) (by norm_num) (by norm_num)
      (by norm_num)]
    norm_num
  have s9 : Float64.ofRat ((3488037911398449 / 1125899906842624) * 164) = 4469048573979263 / 8796093022208 := by
    rw [Float64.ofRat_eq_of_pos ((3488037911398449 / 1125899906842624) * 164) (8) (8938097147958526) (by norm_num) (by norm_num) (by norm_num)
      (by norm_num)]
    norm_num
  have s10 : Float64.ofRat ((4612002677776187 / 4398046511104) + (4469048573979263 / 8796093022208)) = 3423263482382909 / 2199023255552 := by
    rw [Float64.ofRat_eq_tie_of_pos ((4612002677776187 / 4398046511104) + (4469048573979263 / 8796093022208)) (10) (6846526964765818) (6846526964765818) (by norm_num) (by norm_num)
      (by norm_num) (by decide)]
    norm_num
  have s11 : Float64.ofRat (4.330) = 2437573298314281 / 562949953421312 := by
    rw [Float64.ofRat_eq_of_pos (4.330) (2) (4875146596628562) (by norm_num) (by norm_num) (by norm_num)
      (by norm_num)]
    norm_num
  have s12 : Float64.ofRat ((2437573298314281 / 562949953421312) * 34) = 5179843258917847 / 35184372088832 := by
    rw [Float64.ofRat_eq_of_pos ((2437573298314281 / 562949953421312) * 34) (7) (5179843258917847) (by norm_num) (by norm_num) (by norm_num)
      (by norm_num)]
    norm_num
  have s13 : Float64.ofRat ((3423263482382909 / 2199023255552) - (5179843258917847 / 35184372088832)) = 6199046557401087 / 4398046511104 := by
    rw [Float64.ofRat_eq_of_pos ((3423263482382909 / 2199023255552) - (5179843258917847 / 35184372088832)) (10) (6199046557401087) (by norm_num) (by norm_num) (by norm_num)
      (by norm_num)]
    norm_num
  have r : mathRound (6199046557401087 / 4398046511104) = ((1409 : ℤ) : ℚ) :=
    (mathRound_eq_iff _ _).2 ⟨by norm_num, by norm_num⟩
  constructor
  · rw [Float64.calculateBMR_female 65 164 34 (by norm_num) (by norm_num) (by norm_num)]
    simp only [s1, s2, s3, s4, s5, s6, s7, s8, s9, s10, s11, s12, s13, r]
    norm_num
  · have r2 : mathRound (447.593 + 9.247 * 65 + 3.098 * 164 - 4.330 * 34)
        = ((1410 : ℤ) : ℚ) := (mathRound_eq_iff _ _).2 ⟨by norm_num, by norm_num⟩
    rw [r2]; norm_num

/-- C3 (amended): for weight, height and age between 1 and 1000, `calculateBMR` is an integer
within `1/2 + 10^(-9)` of `88.362 + 13.397 w + 4.799 h - 5.677 a` for `'male'` and of
`447.593 + 9.247 w + 3.098 h - 4.330 a` for `'female'`, and it is the integer `k` whenever
that sum is nearer to `k` than `1/2 - 10^(-9)`; `calculateBMR(70, 175, 30, 'male') = 1696`. -/
theorem C3_calculateBMR_double (w h a : ℚ) (hw1 : 1 ≤ w) (hw2 : w ≤ 1000) (hh1 : 1 ≤ h)
    (hh2 : h ≤ 1000) (ha1 : 1 ≤ a) (ha2 : a ≤ 1000) :
    (∃ n : ℤ, Float64.calculateBMR w h a "male" = (n : ℚ) ∧
      |(n : ℚ) - (88.362 + 13.397 * w + 4.799 * h - 5.677 * a)| ≤ 1 / 2 + 1 / 10 ^ 9 ∧
      ∀ k : ℤ, |(88.362 + 13.397 * w + 4.799 * h - 5.677 * a) - k| < 1 / 2 - 1 / 10 ^ 9 →
        Float64.calculateBMR w h a "male" = (k : ℚ)) ∧
    (∃ n : ℤ, Float64.calculateBMR w h a "female" = (n : ℚ) ∧
      |(n : ℚ) - (447.593 + 9.247 * w + 3.098 * h - 4.330 * a)| ≤ 1 / 2 + 1 / 10 ^ 9 ∧
      ∀ k : ℤ, |(447.593 + 9.247 * w + 3.098 * h - 4.330 * a) - k| < 1 / 2 - 1 / 10 ^ 9 →
        Float64.calculateBMR w h a "female" = (k : ℚ)) ∧
    Float64.calculateBMR 70 175 30 "male" = 1696 := by
  have male : ∀ w h a : ℚ, 1 ≤ w → w ≤ 1000 → 1 ≤ h → h ≤ 1000 → 1 ≤ a → a ≤ 1000 →
      ∃ n : ℤ, Float64.calculateBMR w h a "male" = (n : ℚ) ∧
        |(n : ℚ) - (88.362 + 13.397 * w + 4.799 * h - 5.677 * a)| ≤ 1 / 2 + 1 / 10 ^ 9 ∧
        ∀ k : ℤ, |(88.362 + 13.397 * w + 4.799 * h - 5.677 * a) - k| < 1 / 2 - 1 / 10 ^ 9 →
          Float64.calculateBMR w h a "male" = (k : ℚ) := by
    intro w h a hw1 hw2 hh1 hh2 ha1 ha2
    have err := Float64.bmr_sum_error 88.362 13.397 4.799 5.677 w h a (by norm_num)
      (by norm_num) (by norm_num) (by norm_num) (by norm_num) (by norm_num) (by norm_num)
      (by norm_num) hw1 hw2 hh1 hh2 ha1 ha2
    obtain ⟨n, hn, near, uniq⟩ := Float64.mathRound_near _ _ _ err
    rw [Float64.calculateBMR_male w h a (by linarith) (by linarith) (by linarith)]
    exact ⟨n, hn, near, uniq⟩
  refine ⟨male w h a hw1 hw2 hh1 hh2 ha1 ha2, ?_, ?_⟩
  · have err := Float64.bmr_sum_error 447.593 9.247 3.098 4.330 w h a (by norm_num)
      (by norm_num) (by norm_num) (by norm_num) (by norm_num) (by norm_num) (by norm_num)
      (by norm_num) hw1 hw2 hh1 hh2 ha1 ha2
    obtain ⟨n, hn, near, uniq⟩ := Float64.mathRound_near _ _ _ err
    rw [Float64.calculateBMR_female w h a (by linarith) (by linarith) (by linarith)]
    exact ⟨n, hn, near, uniq⟩
  · obtain ⟨_, _, _, uniq⟩ := male 70 175 30 (by norm_num) (by norm_num) (by norm_num)
      (by norm_num) (by norm_num) (by norm_num)
    have := uniq 1696 (by rw [abs_lt]; constructor <;> norm_num)
    rw [this]; norm_num

/-- Witness of C3 (amended): `calculateBMR(70, 175, 30, 'male') = 1696`. -/
theorem C3_calculateBMR_double_witness :
    Float64.calculateBMR 70 175 30 "male" = 1696 :=
  (C3_calculateBMR_double 70 175 30 (by norm_num) (by norm_num)
    (by norm_num) (by norm_num) (by norm_num) (by norm_num)).2.2

/-! ## Exercise calories on doubles -/

/-- The value of `calculateExerciseCalories` on doubles for a duration entry and positive
arguments. -/
theorem Float64.calculateExerciseCalories_duration (e : Exercise) (m w v : ℚ)
    (ht : e.type = "sure") (hm : e.met = some m) (hm0 : 0 < m) (hw0 : 0 < w) (hv0 : 0 < v) :
    Float64.calculateExerciseCalories (some e) w v
      = mathRound (Float64.ofRat (Float64.ofRat (Float64.ofRat (Float64.ofRat m *
          Float64.ofRat w) * Float64.ofRat v) / 60)) := by
  have gm := Float64.ofRat_pos m hm0
  have gw := Float64.ofRat_pos w hw0
  have gv := Float64.ofRat_pos v hv0
  unfold Float64.calculateExerciseCalories
  simp only
  rw [if_neg (by
    simp only [not_or]
    exact ⟨ne_of_gt gw, ne_of_gt gv⟩), if_pos ht, hm]
  unfold Float64.calculateCaloriesBurnedByDuration
  simp only
  rw [if_neg (by
    simp only [not_or, not_le]
    exact ⟨ne_of_gt gm, ne_of_gt gw, ne_of_gt gv, gm, gw, gv⟩)]

/-- The value of `calculateExerciseCalories` on doubles for a repetition entry and positive
arguments. -/
theorem Float64.calculateExerciseCalories_reps (e : Exercise) (c w v : ℚ)
    (ht : e.type = "tekrar") (hc : e.caloriesPerRep = some c) (hc0 : 0 < c) (hw0 : 0 < w)
    (hv0 : 0 < v) :
    Float64.calculateExerciseCalories (some e) w v
      = mathRound (Float64.ofRat (Float64.ofRat v * Float64.ofRat c)) := by
  have gc := Float64.ofRat_pos c hc0
  have gw := Float64.ofRat_pos w hw0
  have gv := Float64.ofRat_pos v hv0
  unfold Float64.calculateExerciseCalories
  simp only
  rw [if_neg (by
    simp only [not_or]
    exact ⟨ne_of_gt gw, ne_of_gt gv⟩), if_neg (by rw [ht]; decide), if_pos ht, hc]
  unfold Float64.calculateCaloriesBurnedByReps
  simp only
  rw [if_neg (by
    simp only [not_or, not_le]
    exact ⟨ne_of_gt gv, ne_of_gt gc, gv, gc⟩)]

/-- C6 as stated fails: the catalog entry "Esneme (Stretching)" (MET 2.3) at 66 kg for 50
minutes gives 126, because the double quotient is 126.49999999999999, while
`2.3 * 66 * 50 / 60` is exactly 126.5, which `Math.round` takes to 127. -/
theorem C6_tie_counterexample :
    Float64.calculateExerciseCalories
      (some (Exercise.mk "Esneme (Stretching)" (some 2.3) "sure" "Hafif aktivite" none)) 66 50
      = 126 ∧
    mathRound (2.3 * 66 * 50 / 60) = 127 := by
  have s1 : Float64.ofRat (2.3) = 2589569785738035 / 1125899906842624 := by
    rw [Float64.ofRat_eq_of_pos (2.3) (1) (5179139571476070) (by norm_num) (by norm_num) (by norm_num)
      (by norm_num)]
    norm_num
  have s2 : Float64.ofRat (66) = 66 := by
    rw [Float64.ofRat_eq_of_pos (66) (6) (4644337115725824) (by norm_num) (by norm_num) (by norm_num)
      (by norm_num)]
    norm_num
  have s3 : Float64.ofRat (50) = 50 := by
    rw [Float64.ofRat_eq_of_pos (50) (5) (7036874417766400) (by norm_num) (by norm_num) (by norm_num)
      (by norm_num)]
    norm_num
  have s4 : Float64.ofRat ((2589569785738035 / 1125899906842624) * 66) = 5340987683084697 / 35184372088832 := by
    rw [Float64.ofRat_eq_of_pos ((2589569785738035 / 1125899906842624) * 66) (7) (5340987683084697) (by norm_num) (by norm_num) (by norm_num)
      (by norm_num)]
    norm_num
  have s5 : Float64.ofRat ((5340987683084697 / 35184372088832) * 50) = 8345293254819839 / 1099511627776 := by
    rw [Float64.ofRat_eq_of_pos ((5340987683084697 / 35184372088832) * 50) (12) (8345293254819839) (by norm_num) (by norm_num) (by norm_num)
      (by norm_num)]
    norm_num
  have s6 : Float64.ofRat ((8345293254819839 / 1099511627776) / 60) = 8901646138474495 / 70368744177664 := by
    rw [Float64.ofRat_eq_of_pos ((8345293254819839 / 1099511627776) / 60) (6) (8901646138474495) (by norm_num) (by norm_num) (by norm_num)
      (by norm_num)]
    norm_num
  have r : mathRound (8901646138474495 / 70368744177664) = ((126 : ℤ) : ℚ) :=
    (mathRound_eq_iff _ _).2 ⟨by norm_num, by norm_num⟩
  constructor
  · rw [Float64.calculateExerciseCalories_duration _ 2.3 66 50 rfl rfl (by norm_num)
      (by norm_num) (by norm_num)]
    simp only [s1, s2, s3, s4, s5, s6, r]
    norm_num
  · have r2 : mathRound (2.3 * 66 * 50 / 60) = ((127 : ℤ) : ℚ) :=
      (mathRound_eq_iff _ _).2 ⟨by norm_num, by norm_num⟩
    rw [r2]; norm_num

/-- C6 (amended): for a catalog entry `e`, weight and value between 0.001 and 1000: a
duration entry with MET `m` (between 0.001 and 1000) gives an integer within
`1/2 + X / 10^15` of `X = m * w * v / 60`, a repetition entry with `caloriesPerRep = c` gives
an integer within `1/2 + X / 10^15` of `X = v * c`, the same for every weight; in both cases
the result is the integer `k` whenever `X` is nearer to `k` than `1/2 - X / 10^15`; a
duration entry with MET 7.0, weight 70 and 30 minutes gives 245. -/
theorem C6_calculateExerciseCalories_double (e : Exercise) (w v : ℚ)
    (hw1 : 1 / 1000 ≤ w) (_hw2 : w ≤ 1000) (hv1 : 1 / 1000 ≤ v) (_hv2 : v ≤ 1000) :
    (∀ m : ℚ, e.type = "sure" → e.met = some m → 1 / 1000 ≤ m → m ≤ 1000 →
      ∃ n : ℤ, Float64.calculateExerciseCalories (some e) w v = (n : ℚ) ∧
        |(n : ℚ) - m * w * v / 60| ≤ 1 / 2 + m * w * v / 60 / 1000000000000000 ∧
        ∀ k : ℤ, |m * w * v / 60 - k| < 1 / 2 - m * w * v / 60 / 1000000000000000 →
          Float64.calculateExerciseCalories (some e) w v = (k : ℚ)) ∧
    (∀ c : ℚ, e.type = "tekrar" → e.caloriesPerRep = some c → 1 / 1000 ≤ c → c ≤ 1000 →
      (∃ n : ℤ, Float64.calculateExerciseCalories (some e) w v = (n : ℚ) ∧
        |(n : ℚ) - v * c| ≤ 1 / 2 + v * c / 1000000000000000 ∧
        ∀ k : ℤ, |v * c - k| < 1 / 2 - v * c / 1000000000000000 →
          Float64.calculateExerciseCalories (some e) w v = (k : ℚ)) ∧
      ∀ w2 : ℚ, 1 / 1000 ≤ w2 → w2 ≤ 1000 →
        Float64.calculateExerciseCalories (some e) w2 v
          = Float64.calculateExerciseCalories (some e) w v) ∧
    (e.type = "sure" → e.met = some 7.0 →
      Float64.calculateExerciseCalories (some e) 70 30 = 245) := by
  have hw0 : 0 < w := by linarith
  have hv0 : 0 < v := by linarith
  have dur : ∀ (m w v : ℚ), e.type = "sure" → e.met = some m → 0 < m → 0 < w → 0 < v →
      ∃ n : ℤ, Float64.calculateExerciseCalories (some e) w v = (n : ℚ) ∧
        |(n : ℚ) - m * w * v / 60| ≤ 1 / 2 + m * w * v / 60 / 1000000000000000 ∧
        ∀ k : ℤ, |m * w * v / 60 - k| < 1 / 2 - m * w * v / 60 / 1000000000000000 →
          Float64.calculateExerciseCalories (some e) w v = (k : ℚ) := by
    intro m w v ht hm hm0 hw0 hv0
    have cl : Float64.Close 6 (Float64.ofRat (Float64.ofRat (Float64.ofRat (Float64.ofRat m *
        Float64.ofRat w) * Float64.ofRat v) / 60)) (m * w * v / 60) :=
      (((((Float64.Close.of_written m hm0).mul (Float64.Close.of_written w hw0)).ofRat).mul
        (Float64.Close.of_written v hv0)).ofRat.div
          (Float64.Close.refl 60 (by norm_num))).ofRat
    obtain ⟨n, hn, near, uniq⟩ := Float64.mathRound_near _ _ _ (cl.abs_sub_le (by norm_num))
    rw [Float64.calculateExerciseCalories_duration e m w v ht hm hm0 hw0 hv0]
    exact ⟨n, hn, near, uniq⟩
  refine ⟨?_, ?_, ?_⟩
  · intro m ht hm hm1 _
    exact dur m w v ht hm (by linarith) hw0 hv0
  · intro c ht hc hc1 _
    have hc0 : 0 < c := by linarith
    constructor
    · have cl : Float64.Close 3 (Float64.ofRat (Float64.ofRat v * Float64.ofRat c)) (v * c) :=
        ((Float64.Close.of_written v hv0).mul (Float64.Close.of_written c hc0)).ofRat
      obtain ⟨n, hn, near, uniq⟩ :=
        Float64.mathRound_near _ _ _ (cl.abs_sub_le (by norm_num))
      rw [Float64.calculateExerciseCalories_reps e c w v ht hc hc0 hw0 hv0]
      exact ⟨n, hn, near, uniq⟩
    · intro w2 hw21 _
      rw [Float64.calculateExerciseCalories_reps e c w2 v ht hc hc0 (by linarith) hv0,
        Float64.calculateExerciseCalories_reps e c w v ht hc hc0 hw0 hv0]
  · intro ht hm
    obtain ⟨n, _, _, uniq⟩ := dur 7.0 70 30 ht hm (by norm_num) (by norm_num) (by norm_num)
    have := uniq 245 (by rw [abs_lt]; constructor <;> norm_num)
    rw [this]; norm_num

/-- Witness of C6 (amended) at the catalog entry "Koşu (Yavaş)" (MET 7.0), weight 70 and 30
minutes. -/
theorem C6_calculateExerciseCalories_double_witness :
    Float64.calculateExerciseCalories
      (some (Exercise.mk "Koşu (Yavaş)" (some 7.0) "sure" "Orta yoğunlukta kardiyo" none))
      70 30 = 245 :=
  (C6_calculateExerciseCalories_double
    (Exercise.mk "Koşu (Yavaş)" (some 7.0) "sure" "Orta yoğunlukta kardiyo" none) 70 30
    (by norm_num) (by norm_num) (by norm_num) (by norm_num)).2.2 rfl rfl

/-! ## Weight goal on doubles -/

namespace Float64

/-- Rounding a value that is within `ε` of `x`, where `|x| ≤ M`, adds at most `u (M + ε)` to
the error. -/
theorem abs_ofRat_sub_le_gen (y x ε M δ : ℚ) (h : |y - x| ≤ ε) (hx : |x| ≤ M)
    (hδ : unitRoundoff * (M + ε) ≤ δ) : |ofRat y - x| ≤ ε + δ := by
  have h1 := ofRat_sub_abs y
  have hy : |y| ≤ M + ε := by
    have : |y| ≤ |y - x| + |x| := by
      have := abs_add (y - x) x
      simpa using this
    linarith
  have h2 : unitRoundoff * |y| ≤ δ :=
    le_trans (mul_le_mul_of_nonneg_left hy (le_of_lt unitRoundoff_pos)) hδ
  have tri : |ofRat y - x| ≤ |ofRat y - y| + |y - x| := by
    have := abs_add (ofRat y - y) (y - x)
    simpa using this
  linarith

/-- The double of a written number `x` with `|x| ≤ M` is within `u M` of it. -/
theorem written_error (x M δ : ℚ) (hx : |x| ≤ M) (hδ : unitRoundoff * M ≤ δ) :
    |ofRat x - x| ≤ δ :=
  le_trans (ofRat_sub_abs x)
    (le_trans (mul_le_mul_of_nonneg_left hx (le_of_lt unitRoundoff_pos)) hδ)

/-- The computed difference `targetWeight - currentWeight` is within `10^-12` of the exact
one, for weights written between 1 and 1000. -/
theorem weightDifference_error (c t : ℚ) (hc1 : 1 ≤ c) (hc2 : c ≤ 1000) (ht1 : 1 ≤ t)
    (ht2 : t ≤ 1000) : |ofRat (ofRat t - ofRat c) - (t - c)| ≤ 1 / 10 ^ 12 := by
  have et := written_error t 1000 (2 / 10 ^ 13) (by rw [abs_of_pos (by linarith)]; exact ht2)
    (by unfold unitRoundoff; norm_num)
  have ec := written_error c 1000 (2 / 10 ^ 13) (by rw [abs_of_pos (by linarith)]; exact hc2)
    (by unfold unitRoundoff; norm_num)
  have es : |ofRat t - ofRat c - (t - c)| ≤ 4 / 10 ^ 13 := by
    have := abs_sub (ofRat t - t) (ofRat c - c)
    have e : ofRat t - ofRat c - (t - c) = ofRat t - t - (ofRat c - c) := by ring
    rw [e]; linarith
  have := abs_ofRat_sub_le_gen _ (t - c) _ 1000 (2 / 10 ^ 13) es
    (by rw [abs_le]; constructor <;> linarith) (by unfold unitRoundoff; norm_num)
  norm_num at this ⊢
  linarith

/-- The computed product of the weight difference and a positive constant `K`. -/
theorem scaled_difference_error (c t K M ε δ : ℚ) (hc1 : 1 ≤ c) (hc2 : c ≤ 1000)
    (ht1 : 1 ≤ t) (ht2 : t ≤ 1000) (hK : 0 < K) (hM : K * 1000 ≤ M)
    (hε : K / 10 ^ 12 ≤ ε) (hδ : unitRoundoff * (M + ε) ≤ δ) :
    |ofRat (ofRat (ofRat t - ofRat c) * K) - (t - c) * K| ≤ ε + δ := by
  have e0 := weightDifference_error c t hc1 hc2 ht1 ht2
  have e1 : |ofRat (ofRat t - ofRat c) * K - (t - c) * K| ≤ ε := by
    have e : ofRat (ofRat t - ofRat c) * K - (t - c) * K
        = (ofRat (ofRat t - ofRat c) - (t - c)) * K := by ring
    rw [e, abs_mul, abs_of_pos hK]
    have : |ofRat (ofRat t - ofRat c) - (t - c)| * K ≤ 1 / 10 ^ 12 * K :=
      mul_le_mul_of_nonneg_right e0 (le_of_lt hK)
    have e2 : (1 : ℚ) / 10 ^ 12 * K = K / 10 ^ 12 := by ring
    linarith
  have hx : |(t - c) * K| ≤ M := by
    rw [abs_mul, abs_of_pos hK]
    have : |t - c| ≤ 1000 := by rw [abs_le]; constructor <;> linarith
    have := mul_le_mul_of_nonneg_right this (le_of_lt hK)
    linarith
  exact abs_ofRat_sub_le_gen _ _ _ M δ e1 hx hδ

/-- The computed quotient `(targetWeight - currentWeight) * 7700 / days` is within `10^-7` of
the exact one, for weights and days written between 1 and 1000. -/
theorem dailyCalorieChange_error (c t d : ℚ) (hc1 : 1 ≤ c) (hc2 : c ≤ 1000) (ht1 : 1 ≤ t)
    (ht2 : t ≤ 1000) (hd1 : 1 ≤ d) :
    |ofRat (ofRat (ofRat (ofRat t - ofRat c) * 7700) / ofRat d) - (t - c) * 7700 / d|
      ≤ 1 / 10 ^ 7 := by
  have hd0 : 0 < d := by linarith
  have eT := scaled_difference_error c t 7700 7700000 (1 / 10 ^ 8) (1 / 10 ^ 9) hc1 hc2 ht1 ht2
    (by norm_num) (by norm_num) (by norm_num) (by unfold unitRoundoff; norm_num)
  have hT : |(t - c) * 7700| ≤ 7700000 := by
    rw [abs_mul]
    have : |t - c| ≤ 1000 := by rw [abs_le]; constructor <;> linarith
    norm_num
    linarith
  obtain ⟨D1, D2⟩ := ofRat_bounds_of_pos d hd0
  have hD0 : 0 < ofRat d := ofRat_pos d hd0
  have hu := unitRoundoff_pos
  have hu' : unitRoundoff ≤ 1 / 9000000000000000 := by unfold unitRoundoff; norm_num
  have hDd : |ofRat d - d| ≤ unitRoundoff * d := by
    have := ofRat_sub_abs d
    rwa [abs_of_pos hd0] at this
  have hDlow : (1 : ℚ) - unitRoundoff ≤ ofRat d := by nlinarith
  have q : |ofRat (ofRat (ofRat t - ofRat c) * 7700) / ofRat d - (t - c) * 7700 / d|
      ≤ 3 / 10 ^ 8 := by
    rw [div_sub_div _ _ (ne_of_gt hD0) (ne_of_gt hd0), abs_div,
      abs_of_pos (mul_pos hD0 hd0), div_le_iff₀ (mul_pos hD0 hd0)]
    have e : ofRat (ofRat (ofRat t - ofRat c) * 7700) * d - ofRat d * ((t - c) * 7700)
        = (ofRat (ofRat (ofRat t - ofRat c) * 7700) - (t - c) * 7700) * d
          - (t - c) * 7700 * (ofRat d - d) := by ring
    rw [e]
    have n1 : |(ofRat (ofRat (ofRat t - ofRat c) * 7700) - (t - c) * 7700) * d|
        ≤ (1 / 10 ^ 8 + 1 / 10 ^ 9) * d := by
      rw [abs_mul, abs_of_pos hd0]
      exact mul_le_mul_of_nonneg_right eT (le_of_lt hd0)
    have n2 : |(t - c) * 7700 * (ofRat d - d)| ≤ 7700000 * (unitRoundoff * d) := by
      rw [abs_mul]
      exact mul_le_mul hT hDd (abs_nonneg _) (by norm_num)
    have n3 := abs_sub ((ofRat (ofRat (ofRat t - ofRat c) * 7700) - (t - c) * 7700) * d)
      ((t - c) * 7700 * (ofRat d - d))
    have low : (99 / 100 : ℚ) * d ≤ ofRat d * d := by
      have : (99 / 100 : ℚ) ≤ ofRat d := by linarith
      exact mul_le_mul_of_nonneg_right this (le_of_lt hd0)
    have n4 : 7700000 * (unitRoundoff * d) ≤ 1 / 10 ^ 9 * d := by
      have : 7700000 * unitRoundoff ≤ 1 / 10 ^ 9 := by unfold unitRoundoff; norm_num
      nlinarith
    nlinarith
  have hx : |(t - c) * 7700 / d| ≤ 7700000 := by
    rw [abs_div, abs_of_pos hd0, div_le_iff₀ hd0]
    nlinarith
  have := abs_ofRat_sub_le_gen _ _ _ 7700000 (1 / 10 ^ 9) q hx
    (by unfold unitRoundoff; norm_num)
  norm_num at this ⊢
  linarith

/-- The quotient by the double of a positive number of days is finite. -/
theorem div_ofRat_pos (a d : ℚ) (hd : 0 < d) :
    div a (ofRat d) = JSNumber.fin (ofRat (a / ofRat d)) := by
  unfold div
  rw [if_neg (ne_of_gt (ofRat_pos d hd))]

/-- The unrounded daily change for a positive number of days. -/
theorem dailyCalorieChange_pos (c t d : ℚ) (hd : 0 < d) :
    dailyCalorieChange c t d
      = JSNumber.fin (ofRat (ofRat (ofRat (ofRat t - ofRat c) * 7700) / ofRat d)) := by
  unfold dailyCalorieChange
  exact div_ofRat_pos _ d hd

/-- The field `weightDifference` of the result. -/
theorem calculateWeightGoal_weightDifference (c t d : ℚ) :
    (calculateWeightGoal c t d).weightDifference
      = ofRat (mathRound (ofRat (ofRat (ofRat t - ofRat c) * 10)) / 10) := rfl

/-- The field `totalCalories` of the result. -/
theorem calculateWeightGoal_totalCalories (c t d : ℚ) :
    (calculateWeightGoal c t d).totalCalories
      = mathRound (ofRat (ofRat (ofRat t - ofRat c) * 7700)) := rfl

/-- The field `dailyCalorieChange` of the result is the rounded local constant. -/
theorem calculateWeightGoal_dailyCalorieChange (c t d : ℚ) :
    (calculateWeightGoal c t d).dailyCalorieChange
      = JSNumber.round (dailyCalorieChange c t d) := rfl

/-- The field `isLosing` of the result. -/
theorem calculateWeightGoal_isLosing (c t d : ℚ) :
    (calculateWeightGoal c t d).isLosing = true ↔ ofRat t < ofRat c := by
  have e : (calculateWeightGoal c t d).isLosing
      = decide (ofRat (ofRat t - ofRat c) < 0) := rfl
  rw [e, decide_eq_true_eq, ofRat_neg_iff]
  constructor <;> intro h <;> linarith

/-- The field `isGaining` of the result. -/
theorem calculateWeightGoal_isGaining (c t d : ℚ) :
    (calculateWeightGoal c t d).isGaining = true ↔ ofRat c < ofRat t := by
  have e : (calculateWeightGoal c t d).isGaining
      = decide (0 < ofRat (ofRat t - ofRat c)) := rfl
  rw [e, decide_eq_true_eq, ofRat_pos_iff]
  constructor <;> intro h <;> linarith

/-- The field `recommendation` of the result tests the unrounded local constant. -/
theorem calculateWeightGoal_recommendation (c t d : ℚ) :
    (calculateWeightGoal c t d).recommendation
      = if (JSNumber.abs (dailyCalorieChange c t d)).gt 1000 then tooAggressive
        else achievable := rfl

end Float64

/-- C9 as stated fails on doubles: for `(50, 50.3, 60)` the computed daily change is
38.49999999999964, so the field `dailyCalorieChange` is 38, while `(50.3 - 50) * 7700 / 60` is
exactly 38.5, which `Math.round` takes to 39; for `(70, 70.05, 30)` the computed tenfold
difference is 0.4999999999999716, so the field `weightDifference` is 0, while
`(70.05 - 70) * 10` is exactly 0.5, which gives 0.1. -/
theorem C9_tie_counterexample :
    (Float64.calculateWeightGoal 50 50.3 60).dailyCalorieChange = JSNumber.fin 38 ∧
    mathRound ((50.3 - 50) * 7700 / 60) = 39 ∧
    (Float64.calculateWeightGoal 70 70.05 30).weightDifference = 0 ∧
    mathRound ((70.05 - 70) * 10) / 10 = 1 / 10 := by
  have s1 : Float64.ofRat (50) = 50 := by
    rw [Float64.ofRat_eq_of_pos (50) (5) (7036874417766400) (by norm_num) (by norm_num) (by norm_num)
      (by norm_num)]
    norm_num
  have s2 : Float64.ofRat (50.3) = 3539547832136499 / 70368744177664 := by
    rw [Float64.ofRat_eq_of_pos (50.3) (5) (7079095664272998) (by norm_num) (by norm_num) (by norm_num)
      (by norm_num)]
    norm_num
  have s3 : Float64.ofRat (60) = 60 := by
    rw [Float64.ofRat_eq_of_pos (60) (5) (8444249301319680) (by norm_num) (by norm_num) (by norm_num)
      (by norm_num)]
    norm_num
  have s4 : Float64.ofRat ((3539547832136499 / 70368744177664) - 50) = 21110623253299 / 70368744177664 := by
    rw [Float64.ofRat_eq_of_pos ((3539547832136499 / 70368744177664) - 50) (-2) (5404319552844544) (by norm_num) (by norm_num) (by norm_num)
      (by norm_num)]
    norm_num
  have s5 : Float64.ofRat ((21110623253299 / 70368744177664) * 7700) = 317483982520317 / 137438953472 := by
    rw [Float64.ofRat_eq_of_pos ((21110623253299 / 70368744177664) * 7700) (11) (5079743720325072) (by norm_num) (by norm_num) (by norm_num)
      (by norm_num)]
    norm_num
  have s6 : Float64.ofRat ((317483982520317 / 137438953472) / 60) = 5418393301680077 / 140737488355328 := by
    rw [Float64.ofRat_eq_of_pos ((317483982520317 / 137438953472) / 60) (5) (5418393301680077) (by norm_num) (by norm_num) (by norm_num)
      (by norm_num)]
    norm_num
  have r : mathRound (5418393301680077 / 140737488355328) = ((38 : ℤ) : ℚ) :=
    (mathRound_eq_iff _ _).2 ⟨by norm_num, by norm_num⟩
  have t1 : Float64.ofRat (70) = 70 := by
    rw [Float64.ofRat_eq_of_pos (70) (6) (4925812092436480) (by norm_num) (by norm_num) (by norm_num)
      (by norm_num)]
    norm_num
  have t2 : Float64.ofRat (70.05) = 4929330529645363 / 70368744177664 := by
    rw [Float64.ofRat_eq_of_pos (70.05) (6) (4929330529645363) (by norm_num) (by norm_num) (by norm_num)
      (by norm_num)]
    norm_num
  have t3 : Float64.ofRat ((4929330529645363 / 70368744177664) - 70) = 3518437208883 / 70368744177664 := by
    rw [Float64.ofRat_eq_of_pos ((4929330529645363 / 70368744177664) - 70) (-5) (7205759403792384) (by norm_num) (by norm_num) (by norm_num)
      (by norm_num)]
    norm_num
  have t4 : Float64.ofRat ((3518437208883 / 70368744177664) * 10) = 17592186044415 / 35184372088832 := by
    rw [Float64.ofRat_eq_of_pos ((3518437208883 / 70368744177664) * 10) (-2) (9007199254740480) (by norm_num) (by norm_num) (by norm_num)
      (by norm_num)]
    norm_num
  have r0 : mathRound (17592186044415 / 35184372088832) = ((0 : ℤ) : ℚ) :=
    (mathRound_eq_iff _ _).2 ⟨by norm_num, by norm_num⟩
  refine ⟨?_, ?_, ?_, ?_⟩
  · rw [Float64.calculateWeightGoal_dailyCalorieChange,
      Float64.dailyCalorieChange_pos 50 50.3 60 (by norm_num)]
    simp only [s1, s2, s3, s4, s5, s6, JSNumber.round, r]
    norm_num
  · have r2 : mathRound ((50.3 - 50) * 7700 / 60) = ((39 : ℤ) : ℚ) :=
      (mathRound_eq_iff _ _).2 ⟨by norm_num, by norm_num⟩
    rw [r2]; norm_num
  · rw [Float64.calculateWeightGoal_weightDifference]
    simp only [t1, t2, t3, t4, r0]
    norm_num [Float64.ofRat_zero]
  · have r2 : mathRound ((70.05 - 70) * 10) = ((1 : ℤ) : ℚ) :=
      (mathRound_eq_iff _ _).2 ⟨by norm_num, by norm_num⟩
    rw [r2]; norm_num

/-- C9 (amended): for weights and days written between 1 and 1000, with `c`, `t`, `d` the
numbers as written: `weightDifference` is the double of `n / 10` for an integer `n` within
`1/2 + 10^-10` of `(t - c) * 10`; `totalCalories` is an integer within `1/2 + 10^-8` of
`(t - c) * 7700`; `dailyCalorieChange` is an integer within `1/2 + 10^-7` of
`(t - c) * 7700 / d`; each of them is fixed by the integer `k` whenever the exact value is
nearer to `k` than `1/2` minus that margin; `isLosing` is true iff the double of `t` is below
the double of `c`, `isGaining` iff it is above, and both are false iff the two doubles are
equal; so `isLosing` holds only if `t < c` and whenever `t + 10^-12 ≤ c`, `isGaining` holds
only if `c < t` and whenever `c + 10^-12 ≤ t`, and both are false when `t = c`;
`(80, 75, 60)` gives -5, -38500, -642, losing and not gaining. -/
theorem C9_calculateWeightGoal_double (c t d : ℚ) (hc1 : 1 ≤ c) (hc2 : c ≤ 1000)
    (ht1 : 1 ≤ t) (ht2 : t ≤ 1000) (hd1 : 1 ≤ d) (_hd2 : d ≤ 1000) :
    (∃ n : ℤ, (Float64.calculateWeightGoal c t d).weightDifference = Float64.ofRat (n / 10) ∧
      |(Float64.calculateWeightGoal c t d).weightDifference - (n : ℚ) / 10|
        ≤ |(n : ℚ) / 10| / 10 ^ 15 ∧
      |(n : ℚ) - (t - c) * 10| ≤ 1 / 2 + 1 / 10 ^ 10 ∧
      ∀ k : ℤ, |(t - c) * 10 - k| < 1 / 2 - 1 / 10 ^ 10 →
        (Float64.calculateWeightGoal c t d).weightDifference = Float64.ofRat (k / 10)) ∧
    (∃ n : ℤ, (Float64.calculateWeightGoal c t d).totalCalories = (n : ℚ) ∧
      |(n : ℚ) - (t - c) * 7700| ≤ 1 / 2 + 1 / 10 ^ 8 ∧
      ∀ k : ℤ, |(t - c) * 7700 - k| < 1 / 2 - 1 / 10 ^ 8 →
        (Float64.calculateWeightGoal c t d).totalCalories = (k : ℚ)) ∧
    (∃ n : ℤ, (Float64.calculateWeightGoal c t d).dailyCalorieChange = JSNumber.fin n ∧
      |(n : ℚ) - (t - c) * 7700 / d| ≤ 1 / 2 + 1 / 10 ^ 7 ∧
      ∀ k : ℤ, |(t - c) * 7700 / d - k| < 1 / 2 - 1 / 10 ^ 7 →
        (Float64.calculateWeightGoal c t d).dailyCalorieChange = JSNumber.fin k) ∧
    ((Float64.calculateWeightGoal c t d).isLosing = true ↔ Float64.ofRat t < Float64.ofRat c) ∧
    ((Float64.calculateWeightGoal c t d).isGaining = true
      ↔ Float64.ofRat c < Float64.ofRat t) ∧
    (((Float64.calculateWeightGoal c t d).isLosing = false ∧
        (Float64.calculateWeightGoal c t d).isGaining = false)
      ↔ Float64.ofRat t = Float64.ofRat c) ∧
    ((Float64.calculateWeightGoal c t d).isLosing = true → t < c) ∧
    ((Float64.calculateWeightGoal c t d).isGaining = true → c < t) ∧
    (t + 1 / 10 ^ 12 ≤ c → (Float64.calculateWeightGoal c t d).isLosing = true) ∧
    (c + 1 / 10 ^ 12 ≤ t → (Float64.calculateWeightGoal c t d).isGaining = true) ∧
    (t = c → (Float64.calculateWeightGoal c t d).isLosing = false ∧
      (Float64.calculateWeightGoal c t d).isGaining = false) ∧
    (Float64.calculateWeightGoal 80 75 60).weightDifference = -5 ∧
    (Float64.calculateWeightGoal 80 75 60).totalCalories = -38500 ∧
    (Float64.calculateWeightGoal 80 75 60).dailyCalorieChange = JSNumber.fin (-642) ∧
    (Float64.calculateWeightGoal 80 75 60).isLosing = true ∧
    (Float64.calculateWeightGoal 80 75 60).isGaining = false := by
  have gen : ∀ c t d : ℚ, 1 ≤ c → c ≤ 1000 → 1 ≤ t → t ≤ 1000 → 1 ≤ d →
      (∃ n : ℤ, (Float64.calculateWeightGoal c t d).weightDifference
          = Float64.ofRat (n / 10) ∧
        |(Float64.calculateWeightGoal c t d).weightDifference - (n : ℚ) / 10|
          ≤ |(n : ℚ) / 10| / 10 ^ 15 ∧
        |(n : ℚ) - (t - c) * 10| ≤ 1 / 2 + 1 / 10 ^ 10 ∧
        ∀ k : ℤ, |(t - c) * 10 - k| < 1 / 2 - 1 / 10 ^ 10 →
          (Float64.calculateWeightGoal c t d).weightDifference = Float64.ofRat (k / 10)) ∧
      (∃ n : ℤ, (Float64.calculateWeightGoal c t d).totalCalories = (n : ℚ) ∧
        |(n : ℚ) - (t - c) * 7700| ≤ 1 / 2 + 1 / 10 ^ 8 ∧
        ∀ k : ℤ, |(t - c) * 7700 - k| < 1 / 2 - 1 / 10 ^ 8 →
          (Float64.calculateWeightGoal c t d).totalCalories = (k : ℚ)) ∧
      (∃ n : ℤ, (Float64.calculateWeightGoal c t d).dailyCalorieChange = JSNumber.fin n ∧
        |(n : ℚ) - (t - c) * 7700 / d| ≤ 1 / 2 + 1 / 10 ^ 7 ∧
        ∀ k : ℤ, |(t - c) * 7700 / d - k| < 1 / 2 - 1 / 10 ^ 7 →
          (Float64.calculateWeightGoal c t d).dailyCalorieChange = JSNumber.fin k) := by
    intro c t d hc1 hc2 ht1 ht2 hd1
    have e10 : |Float64.ofRat (Float64.ofRat (Float64.ofRat t - Float64.ofRat c) * 10)
        - (t - c) * 10| ≤ 1 / 10 ^ 10 :=
      le_trans (Float64.scaled_difference_error c t 10 10000 (1 / 10 ^ 11) (2 / 10 ^ 12)
        hc1 hc2 ht1 ht2 (by norm_num) (by norm_num) (by norm_num)
        (by unfold Float64.unitRoundoff; norm_num)) (by norm_num)
    have e7700 : |Float64.ofRat (Float64.ofRat (Float64.ofRat t - Float64.ofRat c) * 7700)
        - (t - c) * 7700| ≤ 1 / 10 ^ 8 :=
      le_trans (Float64.scaled_difference_error c t 7700 7700000 (77 / 10 ^ 10) (1 / 10 ^ 9)
        hc1 hc2 ht1 ht2 (by norm_num) (by norm_num) (by norm_num)
        (by unfold Float64.unitRoundoff; norm_num)) (by norm_num)
    have ed := Float64.dailyCalorieChange_error c t d hc1 hc2 ht1 ht2 hd1
    refine ⟨?_, ?_, ?_⟩
    · obtain ⟨n, hn, near, uniq⟩ := Float64.mathRound_near _ _ _ e10
      rw [Float64.calculateWeightGoal_weightDifference]
      refine ⟨n, by rw [hn], ?_, near, fun k hk => ?_⟩
      · rw [hn]
        exact Float64.ofRat_near _
      · rw [uniq k hk]
    · obtain ⟨n, hn, near, uniq⟩ := Float64.mathRound_near _ _ _ e7700
      rw [Float64.calculateWeightGoal_totalCalories]
      exact ⟨n, hn, near, uniq⟩
    · obtain ⟨n, hn, near, uniq⟩ := Float64.mathRound_near _ _ _ ed
      rw [Float64.calculateWeightGoal_dailyCalorieChange,
        Float64.dailyCalorieChange_pos c t d (by linarith)]
      simp only [JSNumber.round]
      refine ⟨n, by rw [hn], near, fun k hk => ?_⟩
      rw [uniq k hk]
  have e1 : Float64.ofRat (80) = 80 := by
    rw [Float64.ofRat_eq_of_pos (80) (6) (5629499534213120) (by norm_num) (by norm_num) (by norm_num)
      (by norm_num)]
    norm_num
  have e2 : Float64.ofRat (75) = 75 := by
    rw [Float64.ofRat_eq_of_pos (75) (6) (5277655813324800) (by norm_num) (by norm_num) (by norm_num)
      (by norm_num)]
    norm_num
  have e3 : Float64.ofRat (-50 / 10) = (-5) := by
    rw [Float64.ofRat_eq_of_neg (-50 / 10) (2) (-5629499534213120) (by norm_num) (by norm_num) (by norm_num)
      (by norm_num)]
    norm_num
  obtain ⟨⟨_, _, _, _, u1⟩, ⟨_, _, _, u2⟩, ⟨_, _, _, u3⟩⟩ :=
    gen 80 75 60 (by norm_num) (by norm_num) (by norm_num) (by norm_num) (by norm_num)
  have hl := Float64.calculateWeightGoal_isLosing c t d
  have hg := Float64.calculateWeightGoal_isGaining c t d
  have et := Float64.written_error t 1000 (2 / 10 ^ 13)
    (by rw [abs_of_pos (by linarith)]; exact ht2) (by unfold Float64.unitRoundoff; norm_num)
  have ec := Float64.written_error c 1000 (2 / 10 ^ 13)
    (by rw [abs_of_pos (by linarith)]; exact hc2) (by unfold Float64.unitRoundoff; norm_num)
  rw [abs_le] at et ec
  have both : Float64.ofRat t = Float64.ofRat c →
      (Float64.calculateWeightGoal c t d).isLosing = false ∧
        (Float64.calculateWeightGoal c t d).isGaining = false := by
    intro h
    constructor
    · rw [Bool.eq_false_iff]
      intro a
      have := hl.1 a
      rw [h] at this
      exact lt_irrefl _ this
    · rw [Bool.eq_false_iff]
      intro a
      have := hg.1 a
      rw [h] at this
      exact lt_irrefl _ this
  have v1 := u1 (-50) (by rw [abs_lt]; constructor <;> norm_num)
  have v2 := u2 (-38500) (by rw [abs_lt]; constructor <;> norm_num)
  have v3 := u3 (-642) (by rw [abs_lt]; constructor <;> norm_num)
  push_cast at v1 v2 v3
  refine ⟨(gen c t d hc1 hc2 ht1 ht2 hd1).1, (gen c t d hc1 hc2 ht1 ht2 hd1).2.1,
    (gen c t d hc1 hc2 ht1 ht2 hd1).2.2, Float64.calculateWeightGoal_isLosing c t d,
    Float64.calculateWeightGoal_isGaining c t d, ?_, ?_, ?_, ?_, ?_, ?_, ?_, v2, v3, ?_, ?_⟩
  · constructor
    · rintro ⟨a, b⟩
      have na : ¬ Float64.ofRat t < Float64.ofRat c := fun h => by
        rw [hl.2 h] at a; exact absurd a (by decide)
      have nb : ¬ Float64.ofRat c < Float64.ofRat t := fun h => by
        rw [hg.2 h] at b; exact absurd b (by decide)
      exact le_antisymm (not_lt.1 nb) (not_lt.1 na)
    · exact both
  · intro a
    by_contra hn
    have := Float64.ofRat_mono_of_pos c t (by linarith) (not_lt.1 hn)
    exact absurd (hl.1 a) (not_lt.2 this)
  · intro a
    by_contra hn
    have := Float64.ofRat_mono_of_pos t c (by linarith) (not_lt.1 hn)
    exact absurd (hg.1 a) (not_lt.2 this)
  · intro h
    refine hl.2 ?_
    norm_num at et ec h
    linarith [et.2, ec.1]
  · intro h
    refine hg.2 ?_
    norm_num at et ec h
    linarith [et.1, ec.2]
  · intro h
    exact both (by rw [h])
  · rw [v1, e3]
  · exact (Float64.calculateWeightGoal_isLosing 80 75 60).2 (by rw [e1, e2]; norm_num)
  · rw [Bool.eq_false_iff]
    intro a
    have := (Float64.calculateWeightGoal_isGaining 80 75 60).1 a
    rw [e1, e2] at this
    norm_num at this

/-- Witness of C9 (amended) at `(80, 75, 60)`. -/
theorem C9_calculateWeightGoal_double_witness :
    (Float64.calculateWeightGoal 80 75 60).totalCalories = -38500 ∧
    (Float64.calculateWeightGoal 80 75 60).dailyCalorieChange = JSNumber.fin (-642) :=
  ⟨(C9_calculateWeightGoal_double 80 75 60 (by norm_num) (by norm_num) (by norm_num)
      (by norm_num) (by norm_num) (by norm_num)).2.2.2.2.2.2.2.2.2.2.2.2.1,
    (C9_calculateWeightGoal_double 80 75 60 (by norm_num) (by norm_num) (by norm_num)
      (by norm_num) (by norm_num) (by norm_num)).2.2.2.2.2.2.2.2.2.2.2.2.2.1⟩

/-- C10 as stated fails on doubles as well: for `(70, 80.004, 77)` the computed daily change is
1000.4000000000004, the message is "too aggressive", and the returned `dailyCalorieChange` is
1000, whose absolute value is not greater than 1000. -/
theorem C10_rounded_field_counterexample :
    (Float64.calculateWeightGoal 70 80.004 77).recommendation = tooAggressive ∧
    (Float64.calculateWeightGoal 70 80.004 77).dailyCalorieChange = JSNumber.fin 1000 ∧
    (JSNumber.abs (Float64.calculateWeightGoal 70 80.004 77).dailyCalorieChange).gt 1000
      = false := by
  have s1 : Float64.ofRat (70) = 70 := by
    rw [Float64.ofRat_eq_of_pos (70) (6) (4925812092436480) (by norm_num) (by norm_num) (by norm_num)
      (by norm_num)]
    norm_num
  have s2 : Float64.ofRat (80.004) = 5629781009189831 / 70368744177664 := by
    rw [Float64.ofRat_eq_of_pos (80.004) (6) (5629781009189831) (by norm_num) (by norm_num) (by norm_num)
      (by norm_num)]
    norm_num
  have s3 : Float64.ofRat (77) = 77 := by
    rw [Float64.ofRat_eq_of_pos (77) (6) (5418393301680128) (by norm_num) (by norm_num) (by norm_num)
      (by norm_num)]
    norm_num
  have s4 : Float64.ofRat ((5629781009189831 / 70368744177664) - 70) = 703968916753351 / 70368744177664 := by
    rw [Float64.ofRat_eq_of_pos ((5629781009189831 / 70368744177664) - 70) (3) (5631751334026808) (by norm_num) (by norm_num) (by norm_num)
      (by norm_num)]
    norm_num
  have s5 : Float64.ofRat ((703968916753351 / 70368744177664) * 7700) = 5293516268555471 / 68719476736 := by
    rw [Float64.ofRat_eq_of_pos ((703968916753351 / 70368744177664) * 7700) (16) (5293516268555471) (by norm_num) (by norm_num) (by norm_num)
      (by norm_num)]
    norm_num
  have s6 : Float64.ofRat ((5293516268555471 / 68719476736) / 77) = 8799611459416887 / 8796093022208 := by
    rw [Float64.ofRat_eq_of_pos ((5293516268555471 / 68719476736) / 77) (9) (8799611459416887) (by norm_num) (by norm_num) (by norm_num)
      (by norm_num)]
    norm_num
  have r : mathRound (8799611459416887 / 8796093022208) = ((1000 : ℤ) : ℚ) :=
    (mathRound_eq_iff _ _).2 ⟨by norm_num, by norm_num⟩
  have q := Float64.dailyCalorieChange_pos 70 80.004 77 (by norm_num)
  simp only [s1, s2, s3, s4, s5, s6] at q
  have f : (Float64.calculateWeightGoal 70 80.004 77).dailyCalorieChange
      = JSNumber.fin 1000 := by
    rw [Float64.calculateWeightGoal_dailyCalorieChange, q]
    simp only [JSNumber.round, r]
    norm_num
  refine ⟨?_, f, ?_⟩
  · rw [Float64.calculateWeightGoal_recommendation, q]
    simp only [JSNumber.abs, JSNumber.gt]
    rw [if_pos (by rw [decide_eq_true_eq, abs_of_pos (by norm_num)]; norm_num)]
  · rw [f]
    simp [JSNumber.abs, JSNumber.gt]

/-- C10 (amended): for weights and days written between 1 and 1000 the unrounded daily change
is a finite double `q` within `10^-7` of `(t - c) * 7700 / d`, the returned
`dailyCalorieChange` is `q` rounded, and the recommendation is the "too aggressive" message
iff `|q| > 1000` and the "achievable" message otherwise; so it is "too aggressive" when
`|(t - c) * 7700 / d|` exceeds `1000 + 10^-7`, "achievable" when it is below
`1000 - 10^-7`, and "too aggressive" whenever the absolute value of the returned (rounded)
`dailyCalorieChange` is greater than 1000. -/
theorem C10_recommendation_double (c t d : ℚ) (hc1 : 1 ≤ c) (hc2 : c ≤ 1000)
    (ht1 : 1 ≤ t) (ht2 : t ≤ 1000) (hd1 : 1 ≤ d) (_hd2 : d ≤ 1000) :
    (∃ q : ℚ, Float64.dailyCalorieChange c t d = JSNumber.fin q ∧
      (Float64.calculateWeightGoal c t d).dailyCalorieChange = JSNumber.fin (mathRound q) ∧
      |q - (t - c) * 7700 / d| ≤ 1 / 10 ^ 7 ∧
      ((Float64.calculateWeightGoal c t d).recommendation = tooAggressive ↔ 1000 < |q|) ∧
      ((Float64.calculateWeightGoal c t d).recommendation = achievable ↔ |q| ≤ 1000)) ∧
    (1000 + 1 / 10 ^ 7 < |(t - c) * 7700 / d| →
      (Float64.calculateWeightGoal c t d).recommendation = tooAggressive) ∧
    (|(t - c) * 7700 / d| < 1000 - 1 / 10 ^ 7 →
      (Float64.calculateWeightGoal c t d).recommendation = achievable) ∧
    ((JSNumber.abs (Float64.calculateWeightGoal c t d).dailyCalorieChange).gt 1000 = true →
      (Float64.calculateWeightGoal c t d).recommendation = tooAggressive) := by
  have ed := Float64.dailyCalorieChange_error c t d hc1 hc2 ht1 ht2 hd1
  have hq := Float64.dailyCalorieChange_pos c t d (by linarith)
  have ne := tooAggressive_ne_achievable
  generalize Float64.ofRat (Float64.ofRat (Float64.ofRat (Float64.ofRat t - Float64.ofRat c)
    * 7700) / Float64.ofRat d) = q at ed hq
  have hrec : (Float64.calculateWeightGoal c t d).recommendation
      = if 1000 < |q| then tooAggressive else achievable := by
    rw [Float64.calculateWeightGoal_recommendation, hq]
    simp only [JSNumber.abs, JSNumber.gt, decide_eq_true_eq]
  have hfield : (Float64.calculateWeightGoal c t d).dailyCalorieChange
      = JSNumber.fin (mathRound q) := by
    rw [Float64.calculateWeightGoal_dailyCalorieChange, hq]
    rfl
  have tri1 : |q| ≤ |q - (t - c) * 7700 / d| + |(t - c) * 7700 / d| := by
    have := abs_add (q - (t - c) * 7700 / d) ((t - c) * 7700 / d)
    simpa using this
  have tri2 : |(t - c) * 7700 / d| ≤ |q - (t - c) * 7700 / d| + |q| := by
    have := abs_add ((t - c) * 7700 / d - q) q
    rw [abs_sub_comm] at this
    simpa using this
  refine ⟨⟨q, hq, hfield, ed, ?_, ?_⟩, ?_, ?_, ?_⟩
  · rw [hrec]
    by_cases h : 1000 < |q|
    · rw [if_pos h]; exact ⟨fun _ => h, fun _ => rfl⟩
    · rw [if_neg h]; exact ⟨fun e => absurd e.symm ne, fun h2 => absurd h2 h⟩
  · rw [hrec]
    by_cases h : 1000 < |q|
    · rw [if_pos h]; exact ⟨fun e => absurd e ne, fun h2 => absurd h (not_lt.2 h2)⟩
    · rw [if_neg h]; exact ⟨fun _ => not_lt.1 h, fun _ => rfl⟩
  · intro h
    rw [hrec, if_pos (by linarith)]
  · intro h
    rw [hrec, if_neg (by linarith)]
  · intro hgt
    rw [hrec]
    by_cases h : 1000 < |q|
    · rw [if_pos h]
    · exfalso
      apply h
      rw [hfield] at hgt
      simp only [JSNumber.abs, JSNumber.gt, decide_eq_true_eq] at hgt
      obtain ⟨b1, b2⟩ := mathRound_bounds q
      obtain ⟨n, hn⟩ : ∃ n : ℤ, mathRound q = (n : ℚ) := ⟨_, rfl⟩
      rw [hn] at hgt b1 b2
      rcases le_or_lt 0 n with hn0 | hn0
      · rw [abs_of_nonneg (by exact_mod_cast hn0)] at hgt
        have h1 : (1001 : ℤ) ≤ n := by
          have : (1000 : ℤ) < n := by exact_mod_cast hgt
          omega
        have h2 : (1001 : ℚ) ≤ (n : ℚ) := by exact_mod_cast h1
        have h3 : 0 ≤ q := by linarith
        rw [abs_of_nonneg h3]
        linarith
      · rw [abs_of_neg (by exact_mod_cast hn0)] at hgt
        have h1 : n ≤ (-1001 : ℤ) := by
          have : (1000 : ℤ) < -n := by exact_mod_cast hgt
          omega
        have h2 : (n : ℚ) ≤ (-1001 : ℚ) := by exact_mod_cast h1
        have h3 : q < 0 := by linarith
        rw [abs_of_neg h3]
        linarith

/-- Witness of C10 (amended) at `(80, 75, 60)`: the exact daily change is about -641.7 and the
message is "achievable". -/
theorem C10_recommendation_double_witness :
    (Float64.calculateWeightGoal 80 75 60).recommendation = achievable :=
  (C10_recommendation_double 80 75 60 (by norm_num) (by norm_num) (by norm_num)
    (by norm_num) (by norm_num) (by norm_num)).2.2.1
    (by rw [abs_of_neg (by norm_num)]; norm_num)

end AntigravityFitness
